import Mathlib

/-!
# Verification of the rusty-gigabyte Game Boy emulator core

Shallow embedding of the emulator (src/gameboy/mmu.rs, src/gameboy/cpu.rs,
src/gameboy/gpu.rs, src/gameboy.rs) in Lean 4, together with proofs and
refutations of the specification's claims.

Modelling conventions:
* Machine integers (`u8`, `u16`, `u32`) are embedded as `Nat`.  Rust's
  `wrapping_add` / `wrapping_sub` and release-profile arithmetic overflow
  are modelled with explicit `% 2^w` wraparound; `as` casts that truncate
  are `% 2^w` as well.
* Array indexing that goes out of bounds (in particular `usize`
  subtraction underflow followed by an out-of-range index, which panics in
  every build profile) is modelled by returning `none`:  fallible
  operations have type `Option _`.
* `&mut self` methods become functions returning the updated state; the
  side effect of `MMU::rb` on `in_bios` makes `rb` return the value paired
  with the updated MMU.
* Memory arrays are embedded as total functions `Nat → Nat` (the Rust
  arrays only ever hold `u8` values; address arithmetic at the call sites
  is 16-bit, matching the `u16` argument type).
-/


/-- Pointwise update of a memory map (models `arr[a] = v`). -/
def upd (f : Nat → Nat) (a v : Nat) : Nat → Nat :=
  fun x => if x = a then v else f x

/-- The MMU state, from `struct MMU` in src/gameboy/mmu.rs.  The `cart`
field of the Rust struct is only used to build `rom_bank0` / `rom_bankx`
at construction time and is omitted; the byte arrays are embedded as
functions. -/
structure MMU where
  in_bios : Bool
  bios : Nat → Nat
  rom_bank0 : Nat → Nat
  rom_bankx : Nat → Nat
  g_ram : Nat → Nat
  e_ram : Nat → Nat
  w_ram : Nat → Nat
  s_info : Nat → Nat
  mm_io : Nat → Nat
  z_ram : Nat → Nat

/-- `MMU::rb` (read byte), src/gameboy/mmu.rs lines 81-136.  The source
dispatches on `addr & 0xF000` (and, inside the `0xF000` arm, on
`addr & 0x0F00`); for a `u16` address those match arms are exactly the
address ranges tested below.

In the `0xFE00..=0xFE9F` sub-range the source evaluates
`self.s_info[addr as usize - 0xFEFF]`: the subtraction underflows for
every address in that range (all are `< 0xFEFF`), so the access panics
(overflow check in debug, index out of bounds after wraparound in
release); this is modelled as `none`. -/
def MMU.rb (m : MMU) (addr : Nat) : Option (Nat × MMU) :=
  if addr < 0x1000 then
    -- match arm 0x0000
    if m.in_bios then
      if addr < 0x0100 then some (m.bios addr, m)
      else if addr = 0x0100 then some (m.rom_bank0 addr, { m with in_bios := false })
      else some (m.rom_bank0 addr, m)
    else some (m.rom_bank0 addr, m)
  else if addr < 0x4000 then
    -- match arms 0x1000 | 0x2000 | 0x3000
    some (m.rom_bank0 addr, m)
  else if addr < 0x8000 then
    -- match arms 0x4000 | 0x5000 | 0x6000 | 0x7000
    some (m.rom_bankx (addr - 0x4000), m)
  else if addr < 0xA000 then
    -- match arms 0x8000 | 0x9000
    some (m.g_ram (addr - 0x8000), m)
  else if addr < 0xC000 then
    -- match arms 0xA000 | 0xB000
    some (m.e_ram (addr - 0xA000), m)
  else if addr < 0xE000 then
    -- match arms 0xC000 | 0xD000
    some (m.w_ram (addr - 0xC000), m)
  else if addr < 0xF000 then
    -- match arm 0xE000
    some (m.w_ram (addr - 0xE000), m)
  else if addr < 0xFE00 then
    -- match arm 0xF000, inner arms 0x0000..=0x0D00
    some (m.w_ram (addr - 0xF000), m)
  else if addr < 0xFF00 then
    -- match arm 0xF000, inner arm 0x0E00
    if addr < 0xFEA0 then
      none  -- s_info[addr - 0xFEFF]: usize underflow, the access panics
    else
      some (0, m)
  else
    -- match arm 0xF000, inner arm 0x0F00
    if addr < 0xFF80 then
      some (0, m)  -- "TODO: Implement IO?"
    else
      some (m.z_ram (addr - 0xFF80), m)

/-- `MMU::rw` (read word), src/gameboy/mmu.rs lines 141-143:
`self.rb(addr) as u16 + ((self.rb(addr) as u16) << 8)`.  Note that the
source reads the byte at `addr` twice (the high byte is NOT taken from
`addr + 1`); operands of `+` evaluate left to right. -/
def MMU.rw (m : MMU) (addr : Nat) : Option (Nat × MMU) :=
  match m.rb addr with
  | none => none
  | some (lo, m1) =>
    match m1.rb addr with
    | none => none
    | some (hi, m2) => some (lo + (hi <<< 8), m2)

/-- `MMU::wb` (write byte), src/gameboy/mmu.rs lines 148-196.  Writes to
`0x0000..=0x7FFF` (all ROM arms) are discarded.  In the `0x0E00` inner arm
the guarded `s_info[addr as usize - 0xFEFF] = val` underflows for every
`addr < 0xFEA0` (modelled `none`).  In the `0x0F00` inner arm the
`if addr < 0xFF80` guard has an empty body (no early return), so control
falls through to `self.z_ram[addr as usize - 0xFF80] = val`, which
underflows for every `addr < 0xFF80` (modelled `none`). -/
def MMU.wb (m : MMU) (addr v : Nat) : Option MMU :=
  if addr < 0x8000 then
    -- match arms 0x0000 .. 0x7000: "All ROM", writes absorbed
    some m
  else if addr < 0xA000 then
    some { m with g_ram := upd m.g_ram (addr - 0x8000) v }
  else if addr < 0xC000 then
    some { m with e_ram := upd m.e_ram (addr - 0xA000) v }
  else if addr < 0xE000 then
    some { m with w_ram := upd m.w_ram (addr - 0xC000) v }
  else if addr < 0xF000 then
    -- match arm 0xE000
    some { m with w_ram := upd m.w_ram (addr - 0xE000) v }
  else if addr < 0xFE00 then
    -- match arm 0xF000, inner arms 0x0000..=0x0D00
    some { m with w_ram := upd m.w_ram (addr - 0xF000) v }
  else if addr < 0xFF00 then
    -- match arm 0xF000, inner arm 0x0E00
    if addr < 0xFEA0 then
      none  -- s_info[addr - 0xFEFF] = val: usize underflow, the access panics
    else
      some m
  else
    -- match arm 0xF000, inner arm 0x0F00: the addr < 0xFF80 guard is empty,
    -- control always reaches z_ram[addr - 0xFF80] = val
    if addr < 0xFF80 then
      none  -- z_ram[addr - 0xFF80] = val: usize underflow, the access panics
    else
      some { m with z_ram := upd m.z_ram (addr - 0xFF80) v }

/-- `MMU::ww` (write word), src/gameboy/mmu.rs lines 201-204:
low byte to `addr`, high byte to `addr + 1` (u16 arithmetic). -/
def MMU.ww (m : MMU) (addr v : Nat) : Option MMU :=
  match m.wb addr (v % 256) with
  | none => none
  | some m1 => m1.wb ((addr + 1) % 65536) ((v >>> 8) % 256)

/-- An MMU whose arrays are all zero and whose boot ROM is unmapped;
used as a concrete test state. -/
def mmuZ : MMU :=
  { in_bios := false
    bios := fun _ => 0
    rom_bank0 := fun _ => 0
    rom_bankx := fun _ => 0
    g_ram := fun _ => 0
    e_ram := fun _ => 0
    w_ram := fun _ => 0
    s_info := fun _ => 0
    mm_io := fun _ => 0
    z_ram := fun _ => 0 }

/-- `mmuZ` with work RAM holding 0x01 at offset 0 and 0x02 at offset 1
(addresses 0xC000 and 0xC001). -/
def mmuC1 : MMU :=
  { mmuZ with w_ram := fun a => if a = 0 then 1 else if a = 1 then 2 else 0 }

/-- `mmuZ` with the interrupt-enable byte IE (0xFFFF, i.e. `z_ram[127]`)
set to 0x1F: all five interrupts enabled. -/
def mmuIE : MMU := { mmuZ with z_ram := upd mmuZ.z_ram 127 0x1F }

/-- `mmuZ` after `wb(0xD000, 5)`: the byte lands at `w_ram[0x1000]`. -/
def mmuD : MMU := { mmuZ with w_ram := upd mmuZ.w_ram 0x1000 5 }

/-- `mmuZ` after `wb(0xF000, 7)`: the byte lands at `w_ram[0]`,
aliasing 0xC000 rather than 0xD000. -/
def mmuE : MMU := { mmuZ with w_ram := upd mmuZ.w_ram 0 7 }

/-- `Mode` from src/gameboy/gpu.rs lines 46-54. -/
inductive Mode where
  | HBlank
  | VBlank
  | ScOam
  | ScVram
deriving DecidableEq, Repr

/-- `COLORS` table, src/gameboy/gpu.rs lines 39-44 (index is always a
2-bit value in the source). -/
def COLORS (i : Nat) : Nat × Nat × Nat :=
  if i = 0 then (255, 255, 255)
  else if i = 1 then (192, 192, 192)
  else if i = 2 then (96, 96, 96)
  else (0, 0, 0)

/-- The four-entry palette built by `GPU::get_palette` from the raw
palette byte (lines 160-165). -/
def mk_palette (raw : Nat) : Nat → Nat × Nat × Nat :=
  fun k =>
    if k = 0 then COLORS (raw &&& 0b00000011)
    else if k = 1 then COLORS ((raw &&& 0b00001100) >>> 2)
    else if k = 2 then COLORS ((raw &&& 0b00110000) >>> 4)
    else COLORS ((raw &&& 0b11000000) >>> 6)

/-- `GPU` state, src/gameboy/gpu.rs lines 56-75.  The frame channel
(`sender`) is modelled by letting `step` return the number of
`send_event` calls it performs. -/
structure GPU where
  mode : Mode
  mode_clock : Nat
  line : Nat
  fb : Nat → Nat

/-- `new_gpu`, src/gameboy/gpu.rs lines 77-85. -/
def new_gpu : GPU :=
  { mode := Mode.HBlank, mode_clock := 0, line := 0, fb := fun _ => 0 }

/-- `GPU::get_palette`, src/gameboy/gpu.rs lines 157-166. -/
def GPU.get_palette (m : MMU) (addr : Nat) :
    Option ((Nat → Nat × Nat × Nat) × MMU) :=
  match m.rb addr with
  | none => none
  | some (raw_palette, m) => some (mk_palette raw_palette, m)

/-- `GPU::tilerow_n_to_color`, src/gameboy/gpu.rs lines 168-170. -/
def tilerow_n_to_color (b1 b2 n : Nat) : Nat :=
  ((b1 &&& (1 <<< n)) >>> n) + (((b2 &&& (1 <<< n)) >>> n) <<< 1)

/-- Write one byte into the 69120-byte framebuffer; an out-of-range index
panics in Rust (`self.fb[idx] = v`), modelled as `none`. -/
def fb_write (fb : Nat → Nat) (idx v : Nat) : Option (Nat → Nat) :=
  if idx < 69120 then some (upd fb idx v) else none

/-- The background pixel loop `for i in 0..160` of `GPU::renderscan`
(src/gameboy/gpu.rs lines 228-263).  `fuel` counts the remaining
iterations (starting at 160) and `i = 160 - fuel`; `set0` is
`control_flags & FLAG_CONT_BG_SET == 0`. -/
def GPU.bg_loop (pal : Nat → Nat × Nat × Nat) (set0 : Bool) (map_offs y fb_offs : Nat) :
    Nat → Nat → Nat → Nat → Nat → MMU → (Nat → Nat) → (Nat → Nat) →
    Option ((Nat → Nat) × (Nat → Nat) × MMU)
  | 0, _, _, _, _, m, fb, scan_line => some (fb, scan_line, m)
  | fuel + 1, i, x, line_offs, tile, m, fb, scan_line =>
    match m.rb (0x8000 + (tile * 16) + (y * 2)) with
    | none => none
    | some (b1, m) =>
      match m.rb (0x8000 + (tile * 16) + (y * 2) + 1) with
      | none => none
      | some (b2, m) =>
        let palette_key := tilerow_n_to_color b1 b2 (7 - x)
        let scan_line := upd scan_line i palette_key
        let color := pal palette_key
        match fb_write fb (fb_offs + (i * 3) + 0) color.1 with
        | none => none
        | some fb =>
        match fb_write fb (fb_offs + (i * 3) + 1) color.2.1 with
        | none => none
        | some fb =>
        match fb_write fb (fb_offs + (i * 3) + 2) color.2.2 with
        | none => none
        | some fb =>
          let x := x + 1
          if x = 8 then
            let line_offs := (line_offs + 1) &&& 31
            match m.rb (map_offs + line_offs) with
            | none => none
            | some (tile, m) =>
              let tile := if set0 ∧ tile < 128 then tile + 256 else tile
              GPU.bg_loop pal set0 map_offs y fb_offs fuel (i + 1) 0 line_offs tile m fb scan_line
          else
            GPU.bg_loop pal set0 map_offs y fb_offs fuel (i + 1) x line_offs tile m fb scan_line

/-- The per-sprite pixel loop `for i in 0..8` of `GPU::renderscan`
(src/gameboy/gpu.rs lines 308-336).  `fuel` counts remaining iterations
(starting at 8), `i = 8 - fuel`.  `sp_x` is an `i16`; the framebuffer
offset additions are `usize` arithmetic (wraparound modulo `2^64` in a
release build, cf. the modelling conventions). -/
def GPU.sprite_px_loop (pal : Nat → Nat × Nat × Nat) (flags b1 b2 : Nat) (sp_x : Int)
    (fb_offs : Nat) (scan_line : Nat → Nat) :
    Nat → Nat → (Nat → Nat) → Option (Nat → Nat)
  | 0, _, fb => some fb
  | fuel + 1, i, fb =>
    if 0 ≤ sp_x + i ∧ sp_x + i < 160 then
      let x := if flags &&& 0x20 = 0 then 7 - i else i
      let palette_key := tilerow_n_to_color b1 b2 x
      if (flags &&& 0x80 = 0 ∧ palette_key ≠ 0) ∨
          (0 < flags &&& 0x80 ∧ scan_line (sp_x + i).toNat = 0) then
        let color := pal palette_key
        match fb_write fb ((fb_offs + ((i * 3) + 0)) % 18446744073709551616) color.1 with
        | none => none
        | some fb =>
        match fb_write fb ((fb_offs + ((i * 3) + 1)) % 18446744073709551616) color.2.1 with
        | none => none
        | some fb =>
        match fb_write fb ((fb_offs + ((i * 3) + 2)) % 18446744073709551616) color.2.2 with
        | none => none
        | some fb => GPU.sprite_px_loop pal flags b1 b2 sp_x fb_offs scan_line fuel (i + 1) fb
      else
        GPU.sprite_px_loop pal flags b1 b2 sp_x fb_offs scan_line fuel (i + 1) fb
    else
      GPU.sprite_px_loop pal flags b1 b2 sp_x fb_offs scan_line fuel (i + 1) fb

/-- The sprite loop `for i in 0..40` of `GPU::renderscan`
(src/gameboy/gpu.rs lines 268-338).  `fuel` counts remaining sprites
(starting at 40), `i = 40 - fuel`.  The four OAM reads go through
`MMU::rb` at `0xFE00 + i*4 + k`. -/
def GPU.sprite_loop (line : Nat) (scan_line : Nat → Nat) :
    Nat → Nat → MMU → (Nat → Nat) → Option ((Nat → Nat) × MMU)
  | 0, _, m, fb => some (fb, m)
  | fuel + 1, i, m, fb =>
    match m.rb (0xFE00 + (i * 4) + 0) with
    | none => none
    | some (sprite0, m) =>
    match m.rb (0xFE00 + (i * 4) + 1) with
    | none => none
    | some (sprite1, m) =>
    match m.rb (0xFE00 + (i * 4) + 2) with
    | none => none
    | some (sprite2, m) =>
    match m.rb (0xFE00 + (i * 4) + 3) with
    | none => none
    | some (sprite3, m) =>
      let sp_y : Int := (sprite0 : Int) - 16
      let sp_x : Int := (sprite1 : Int) - 8
      if sp_y ≤ (line : Int) ∧ (line : Int) < sp_y + 8 then
        match (if sprite3 &&& 0x10 = 0 then GPU.get_palette m 0xFF48
               else GPU.get_palette m 0xFF49) with
        | none => none
        | some (pal, m) =>
          -- fb_offs = (((line as i32) * 160 + sp_x) * 3) as usize
          let fb_offs : Nat := ((((line : Int) * 160 + sp_x) * 3) % 18446744073709551616).toNat
          let tile := sprite2
          let y : Nat := (if sprite3 &&& 0x40 = 0 then (line : Int) - sp_y
                          else 7 - ((line : Int) - sp_y)).toNat
          match m.rb (0x8000 + (tile * 16) + (y * 2)) with
          | none => none
          | some (b1, m) =>
          match m.rb (0x8000 + (tile * 16) + (y * 2) + 1) with
          | none => none
          | some (b2, m) =>
            match GPU.sprite_px_loop pal sprite3 b1 b2 sp_x fb_offs scan_line 8 0 fb with
            | none => none
            | some fb => GPU.sprite_loop line scan_line fuel (i + 1) m fb
      else
        GPU.sprite_loop line scan_line fuel (i + 1) m fb

/-- `GPU::renderscan`, src/gameboy/gpu.rs lines 175-343.  Takes the MMU,
the framebuffer and the current line; returns the updated framebuffer and
MMU (or `none` on a panic). -/
def GPU.renderscan (m : MMU) (fb : Nat → Nat) (line : Nat) :
    Option ((Nat → Nat) × MMU) :=
  match m.rb 0xFF40 with
  | none => none
  | some (control_flags, m) =>
    let scan_line : Nat → Nat := fun _ => 0
    let bg_result : Option ((Nat → Nat) × (Nat → Nat) × MMU) :=
      if 0 < control_flags &&& 0x01 then
        match GPU.get_palette m 0xFF47 with
        | none => none
        | some (palette, m) =>
          let map_offs : Nat := if control_flags &&& 0x08 = 0 then 0x9800 else 0x9C00
          match m.rb 0xFF42 with
          | none => none
          | some (sc_y, m) =>
          match m.rb 0xFF43 with
          | none => none
          | some (sc_x, m) =>
            let map_offs := map_offs + ((((line + sc_y) % 256) &&& 0b11111000) <<< 2)
            let line_offs := sc_x >>> 3
            let y := ((line + sc_y) % 256) &&& 7
            let x := sc_x &&& 7
            let fb_offs := line * 160 * 3
            match m.rb (map_offs + line_offs) with
            | none => none
            | some (tile, m) =>
              let set0 := control_flags &&& 0x10 = 0
              let tile := if set0 ∧ tile < 128 then tile + 256 else tile
              GPU.bg_loop palette set0 map_offs y fb_offs 160 0 x line_offs tile m fb scan_line
      else
        some (fb, scan_line, m)
    match bg_result with
    | none => none
    | some (fb, scan_line, m) =>
      if 0 < control_flags &&& 0x02 then
        GPU.sprite_loop line scan_line 40 0 m fb
      else
        some (fb, m)

/-- The trailing `mmu.wb(REG_CURR_SCAN_LINE, self.line)` of `GPU::step`
(src/gameboy/gpu.rs line 154). -/
def GPU.step_finish (g : GPU) (m : MMU) : Option (GPU × MMU) :=
  match MMU.wb m 0xFF44 g.line with
  | none => none
  | some m' => some (g, m')

/-- `GPU::step`, src/gameboy/gpu.rs lines 104-155.  The first component
of the result is the number of frames pushed onto the frame channel
during the call (the `send_event` on line 133); these are side effects
that survive even if the call subsequently panics (`none`). -/
def GPU.step (g : GPU) (m : MMU) (delta_t : Nat) : Nat × Option (GPU × MMU) :=
  let g := { g with mode_clock := (g.mode_clock + delta_t) % 4294967296 }
  match g.mode with
  | Mode.ScOam =>
    if 80 ≤ g.mode_clock then
      (0, GPU.step_finish { g with mode := Mode.ScVram, mode_clock := 0 } m)
    else
      (0, GPU.step_finish g m)
  | Mode.ScVram =>
    if 172 ≤ g.mode_clock then
      let g := { g with mode := Mode.HBlank, mode_clock := 0 }
      match GPU.renderscan m g.fb g.line with
      | none => (0, none)
      | some (fb, m) => (0, GPU.step_finish { g with fb := fb } m)
    else
      (0, GPU.step_finish g m)
  | Mode.HBlank =>
    if 204 ≤ g.mode_clock then
      let g := { g with mode_clock := 0, line := (g.line + 1) % 256 }
      if g.line = 143 then
        -- sender.send_event(self.fb.clone()).unwrap()
        (1, GPU.step_finish { g with mode := Mode.VBlank } m)
      else
        (0, GPU.step_finish { g with mode := Mode.ScOam } m)
    else
      (0, GPU.step_finish g m)
  | Mode.VBlank =>
    if 456 ≤ g.mode_clock then
      let g := { g with mode_clock := 0, line := (g.line + 1) % 256 }
      if 153 < g.line then
        (0, GPU.step_finish { g with mode := Mode.ScOam, line := 0 } m)
      else
        (0, GPU.step_finish g m)
    else
      (0, GPU.step_finish g m)

/-!
## The timing state machine of `GPU::step`

`GpuMachine` isolates the mode/clock/line evolution of `GPU::step`
(the `match self.mode` block, src/gameboy/gpu.rs lines 107-151), with the
number of `send_event` calls returned alongside.  The two pieces of
`GPU::step` that it omits make no difference to the timing:  the
scanline render leaves the framebuffer and MMU unchanged
(`renderscan_is_noop`), and the trailing LY write always panics
(`step_finish_none`); `step_agrees_with_machine` ties `GPU.step` to this
machine exactly.
-/

structure GpuMachine where
  mode : Mode
  mode_clock : Nat
  line : Nat
deriving DecidableEq, Repr

/-- The mode/clock/line transition of `GPU::step` together with the
number of frames sent (src/gameboy/gpu.rs lines 105-151). -/
def GpuMachine.step (s : GpuMachine) (delta_t : Nat) : GpuMachine × Nat :=
  let s := { s with mode_clock := (s.mode_clock + delta_t) % 4294967296 }
  match s.mode with
  | Mode.ScOam =>
    if 80 ≤ s.mode_clock then ({ s with mode := Mode.ScVram, mode_clock := 0 }, 0)
    else (s, 0)
  | Mode.ScVram =>
    if 172 ≤ s.mode_clock then ({ s with mode := Mode.HBlank, mode_clock := 0 }, 0)
    else (s, 0)
  | Mode.HBlank =>
    if 204 ≤ s.mode_clock then
      let s := { s with mode_clock := 0, line := (s.line + 1) % 256 }
      if s.line = 143 then ({ s with mode := Mode.VBlank }, 1)
      else ({ s with mode := Mode.ScOam }, 0)
    else (s, 0)
  | Mode.VBlank =>
    if 456 ≤ s.mode_clock then
      let s := { s with mode_clock := 0, line := (s.line + 1) % 256 }
      if 153 < s.line then ({ s with mode := Mode.ScOam, line := 0 }, 0)
      else (s, 0)
    else (s, 0)

/-- Iterate `GpuMachine.step` with a constant `delta_t`, accumulating the
number of frames sent (tail recursive so that concrete runs evaluate). -/
def GpuMachine.runAux (d : Nat) : Nat → GpuMachine × Nat → GpuMachine × Nat
  | 0, p => p
  | n + 1, p =>
    let q := GpuMachine.step p.1 d
    GpuMachine.runAux d n (q.1, p.2 + q.2)

/-- `n` calls of `GPU::step` with constant `delta_t = d`: final machine
state and total number of frames sent. -/
def GpuMachine.run (s : GpuMachine) (d n : Nat) : GpuMachine × Nat :=
  GpuMachine.runAux d n (s, 0)

/-- The machine state of `new_gpu`: HBlank, clock 0, line 0. -/
def gm0 : GpuMachine := { mode := Mode.HBlank, mode_clock := 0, line := 0 }

/-- An MMU whose OAM array (`s_info`) holds a sprite entry 0 with
Y-position 16 and X-position 7, i.e. on-screen position (-1, 0): the
sprite intersects scanline 0 and hangs off the left screen edge.  The
corresponding LCDC value 0x02 (sprites enabled) is stored in the
(unreferenced) I/O array. -/
def mmuSpr : MMU :=
  { mmuZ with
    s_info := fun a => if a = 0 then 16 else if a = 1 then 7 else 0
    mm_io := fun a => if a = 0x40 then 0x02 else 0 }

/-- `R8`, src/gameboy/cpu.rs lines 24-32. -/
inductive R8 where
  | A | B | C | D | E | H | L
deriving DecidableEq, Repr

/-- `R16`, src/gameboy/cpu.rs lines 34-38. -/
inductive R16 where
  | BC | DE | HL
deriving DecidableEq, Repr

/-- `CC`, src/gameboy/cpu.rs lines 40-45. -/
inductive CC where
  | Z | NZ | C | NC
deriving DecidableEq, Repr

/-- `RST`, src/gameboy/cpu.rs lines 47-63. -/
inductive RST where
  | RST00 | RST08 | RST10 | RST18 | RST20 | RST28 | RST30 | RST38
  | RST40 | RST48 | RST50 | RST58 | RST60
deriving DecidableEq, Repr

/-- `SetFlag`, src/gameboy/cpu.rs lines 65-71. -/
inductive SetFlag where
  | LEAVE | ON | OFF
deriving DecidableEq, Repr

/-- `impl From<bool> for SetFlag` (lines 73-81). -/
def SetFlag.fromBool (b : Bool) : SetFlag := if b then SetFlag.ON else SetFlag.OFF

/-- `impl From<u8> for SetFlag` and `impl From<u16> for SetFlag`
(lines 83-101): ON exactly when the value is zero (used for the Z flag). -/
def SetFlag.fromNat (v : Nat) : SetFlag := if v = 0 then SetFlag.ON else SetFlag.OFF

def FLAG_ZERO : Nat := 0x80

def FLAG_SUB : Nat := 0x40

def FLAG_HALF_CARRY : Nat := 0x20

def FLAG_CARRY : Nat := 0x10

def FLAG_INT_VBLANK : Nat := 0x01

def FLAG_INT_LCD_STAT : Nat := 0x02

def FLAG_INT_TIMER : Nat := 0x04

def FLAG_INT_SERIAL : Nat := 0x08

def FLAG_INT_JOYP : Nat := 0x10

def REG_INTERRUPTS : Nat := 0xFF0F

/-- `mmu::DEBUG_GB_DOCTOR` is referenced by cpu.rs and gameboy.rs but not
defined in any file under src/; it only gates trace output and the
gameboy-doctor initial register state, and is modelled as `false` (the
normal configuration). -/
def DEBUG_GB_DOCTOR : Bool := false

/-- `struct CPU`, src/gameboy/cpu.rs lines 116-147.  The `halt` and
`stop` latches keep their source names; the identically named instruction
handlers are embedded as `op_halt` / `op_stop`. -/
structure CPU where
  clock_m : Nat
  clock_t : Nat
  reg_a : Nat
  reg_b : Nat
  reg_c : Nat
  reg_d : Nat
  reg_e : Nat
  reg_f : Nat
  reg_h : Nat
  reg_l : Nat
  reg_pc : Nat
  reg_sp : Nat
  ime : Bool
  halt : Bool
  stop : Bool

/-- `new_cpu` (lines 149-187) with `DEBUG_GB_DOCTOR = false`:
every register zero, `ime` set. -/
def new_cpu : CPU :=
  { clock_m := 0, clock_t := 0
    reg_a := 0, reg_b := 0, reg_c := 0, reg_d := 0, reg_e := 0
    reg_f := 0, reg_h := 0, reg_l := 0
    reg_pc := 0, reg_sp := 0
    ime := true, halt := false, stop := false }

/-!
### u8 / u16 arithmetic helpers

For arguments in range (`< 2^w`, which is the case wherever the Rust code
supplies machine integers) these agree with Rust's wrapping and
overflowing operations.
-/

/-- `u8::overflowing_add`. -/
def overflowing_add8 (a b : Nat) : Nat × Bool :=
  ((a % 256 + b % 256) % 256, decide (256 ≤ a % 256 + b % 256))

/-- `u8::overflowing_sub`: wrapped difference and borrow flag. -/
def overflowing_sub8 (a b : Nat) : Nat × Bool :=
  ((a % 256 + 256 - b % 256) % 256, decide (a % 256 < b % 256))

/-- `u8::wrapping_add`. -/
def wrapping_add8 (a b : Nat) : Nat := (a + b) % 256

/-- `u8::wrapping_sub`. -/
def wrapping_sub8 (a b : Nat) : Nat := (a % 256 + 256 - b % 256) % 256

/-- `u16::overflowing_add`. -/
def overflowing_add16 (a b : Nat) : Nat × Bool :=
  ((a % 65536 + b % 65536) % 65536, decide (65536 ≤ a % 65536 + b % 65536))

/-- `u16::wrapping_add` (also used for release-profile `+` on `u16`). -/
def wrapping_add16 (a b : Nat) : Nat := (a + b) % 65536

/-- `u16::wrapping_sub` (also used for release-profile `-` on `u16`). -/
def wrapping_sub16 (a b : Nat) : Nat := (a % 65536 + 65536 - b % 65536) % 65536

/-- `v as i8` for a byte value: sign extension to an integer. -/
def as_i8 (v : Nat) : Int :=
  if v % 256 < 128 then (v % 256 : Int) else (v % 256 : Int) - 256

/-- `u16::wrapping_add_signed`. -/
def wrapping_add_signed16 (a : Nat) (b : Int) : Nat :=
  (((a % 65536 : Nat) + b) % 65536).toNat

/-- `u8::rotate_left`. -/
def rotate_left8 (v n : Nat) : Nat :=
  (((v % 256) <<< n) % 256) ||| ((v % 256) >>> (8 - n))

/-- `u8::rotate_right`. -/
def rotate_right8 (v n : Nat) : Nat :=
  ((v % 256) >>> n) ||| (((v % 256) <<< (8 - n)) % 256)

/-- `CPU::set_flags` (lines 258-282) applies the four `SetFlag` actions
to `reg_f` in the order zero, carry, half_carry, sub; `apply_flag` is one
`match` arm group (`|=` mask / `&= !`mask). -/
def apply_flag (f mask : Nat) : SetFlag → Nat
  | SetFlag.LEAVE => f
  | SetFlag.ON => f ||| mask
  | SetFlag.OFF => f &&& (255 ^^^ mask)

def CPU.set_flags (c : CPU) (zero carry half_carry sub : SetFlag) : CPU :=
  { c with
    reg_f :=
      apply_flag
        (apply_flag
          (apply_flag
            (apply_flag c.reg_f FLAG_ZERO zero)
            FLAG_CARRY carry)
          FLAG_HALF_CARRY half_carry)
        FLAG_SUB sub }

/-- The 7-way register read `match r { R8::A => self.reg_a, ... }` that
opens each register-operand handler. -/
def CPU.getR8 (c : CPU) : R8 → Nat
  | R8.A => c.reg_a
  | R8.B => c.reg_b
  | R8.C => c.reg_c
  | R8.D => c.reg_d
  | R8.E => c.reg_e
  | R8.H => c.reg_h
  | R8.L => c.reg_l

/-- The 7-way register write `match r { R8::A => self.reg_a = res, ... }`. -/
def CPU.setR8 (c : CPU) (r : R8) (v : Nat) : CPU :=
  match r with
  | R8.A => { c with reg_a := v }
  | R8.B => { c with reg_b := v }
  | R8.C => { c with reg_c := v }
  | R8.D => { c with reg_d := v }
  | R8.E => { c with reg_e := v }
  | R8.H => { c with reg_h := v }
  | R8.L => { c with reg_l := v }

/-- Pair read `((hi as u16) << 8) + (lo as u16)`. -/
def CPU.getR16 (c : CPU) : R16 → Nat
  | R16.BC => (c.reg_b <<< 8) + c.reg_c
  | R16.DE => (c.reg_d <<< 8) + c.reg_e
  | R16.HL => (c.reg_h <<< 8) + c.reg_l

/-- Pair write `hi = (res >> 8) as u8; lo = res as u8`. -/
def CPU.setR16 (c : CPU) (r : R16) (v : Nat) : CPU :=
  match r with
  | R16.BC => { c with reg_b := (v >>> 8) % 256, reg_c := v % 256 }
  | R16.DE => { c with reg_d := (v >>> 8) % 256, reg_e := v % 256 }
  | R16.HL => { c with reg_h := (v >>> 8) % 256, reg_l := v % 256 }

/-- `((self.reg_h as u16) << 8) + (self.reg_l as u16)`. -/
def CPU.hl (c : CPU) : Nat := (c.reg_h <<< 8) + c.reg_l

/-- The `should` condition test of the conditional jump/call/ret
handlers. -/
def CPU.cc_met (c : CPU) : CC → Bool
  | CC.Z => decide (0 < c.reg_f &&& FLAG_ZERO)
  | CC.NZ => decide (c.reg_f &&& FLAG_ZERO = 0)
  | CC.C => decide (0 < c.reg_f &&& FLAG_CARRY)
  | CC.NC => decide (c.reg_f &&& FLAG_CARRY = 0)

/-!
### Arithmetic and logic (src/gameboy/cpu.rs lines 284-1057)

The r8 / (HL) / n8 variants of each 8-bit ALU operation share their body
text in the source; that shared body is embedded once as `*_core` and
the three variants differ only in how the operand is obtained and in the
cycle count they return (which is the value each source function
returns).
-/

/-- Body of `adc_a_r8` / `adc_a_mhl` / `adc_a_n8` (lines 293-387). -/
def CPU.adc_core (c : CPU) (val : Nat) : CPU :=
  let withc := decide (0 < c.reg_f &&& FLAG_CARRY)
  let p := overflowing_add8 c.reg_a val
  let q := if withc then
      let p2 := overflowing_add8 p.1 1
      (p2.1, p.2 || p2.2)
    else p
  let carry_int := if withc then 1 else 0
  let half_carry :=
    decide (wrapping_add8 (wrapping_add8 (c.reg_a &&& 0xF) (val &&& 0xF)) carry_int &&& 0x10 = 0x10)
  let c := { c with reg_a := q.1 }
  c.set_flags (SetFlag.fromNat c.reg_a) (SetFlag.fromBool q.2) (SetFlag.fromBool half_carry)
    SetFlag.OFF

def CPU.adc_a_r8 (c : CPU) (r : R8) : CPU × Nat := (c.adc_core (c.getR8 r), 1)

def CPU.adc_a_mhl (c : CPU) (m : MMU) : Option (CPU × MMU × Nat) :=
  match m.rb ((c.reg_h <<< 8) + c.reg_l) with
  | none => none
  | some (val, m) => some (c.adc_core val, m, 2)

def CPU.adc_a_n8 (c : CPU) (m : MMU) : Option (CPU × MMU × Nat) :=
  match m.rb c.reg_pc with
  | none => none
  | some (val, m) =>
    let c := { c with reg_pc := wrapping_add16 c.reg_pc 1 }
    some (c.adc_core val, m, 2)

/-- Body of `add_a_r8` / `add_a_mhl` / `add_a_n8` (lines 392-448). -/
def CPU.add_core (c : CPU) (val : Nat) : CPU :=
  let p := overflowing_add8 c.reg_a val
  let half_carry := decide (wrapping_add8 (c.reg_a &&& 0xF) (val &&& 0xF) &&& 0x10 = 0x10)
  let c := { c with reg_a := p.1 }
  c.set_flags (SetFlag.fromNat c.reg_a) (SetFlag.fromBool p.2) (SetFlag.fromBool half_carry)
    SetFlag.OFF

def CPU.add_a_r8 (c : CPU) (r : R8) : CPU × Nat := (c.add_core (c.getR8 r), 1)

def CPU.add_a_mhl (c : CPU) (m : MMU) : Option (CPU × MMU × Nat) :=
  match m.rb ((c.reg_h <<< 8) + c.reg_l) with
  | none => none
  | some (val, m) => some (c.add_core val, m, 2)

def CPU.add_a_n8 (c : CPU) (m : MMU) : Option (CPU × MMU × Nat) :=
  match m.rb c.reg_pc with
  | none => none
  | some (val, m) =>
    let c := { c with reg_pc := wrapping_add16 c.reg_pc 1 }
    some (c.add_core val, m, 2)

/-- Body of `add_hl_r16` / `add_hl_sp` (lines 453-492). -/
def CPU.add_hl_core (c : CPU) (val : Nat) : CPU :=
  let hl := (c.reg_h <<< 8) + c.reg_l
  let p := overflowing_add16 hl val
  let half_carry :=
    decide (wrapping_add16 (hl &&& 0xFFF) (val &&& 0xFFF) &&& 0x1000 = 0x1000)
  let c := { c with reg_h := (p.1 >>> 8) % 256, reg_l := p.1 % 256 }
  c.set_flags SetFlag.LEAVE (SetFlag.fromBool p.2) (SetFlag.fromBool half_carry) SetFlag.OFF

def CPU.add_hl_r16 (c : CPU) (r : R16) : CPU × Nat := (c.add_hl_core (c.getR16 r), 2)

def CPU.add_hl_sp (c : CPU) : CPU × Nat := (c.add_hl_core c.reg_sp, 2)

/-- `add_sp_e8` (lines 497-515). -/
def CPU.add_sp_e8 (c : CPU) (m : MMU) : Option (CPU × MMU × Nat) :=
  match m.rb c.reg_pc with
  | none => none
  | some (raw_val, m) =>
    let c := { c with reg_pc := wrapping_add16 c.reg_pc 1 }
    let res := wrapping_add_signed16 c.reg_sp (as_i8 raw_val)
    let carry := (overflowing_add8 (c.reg_sp &&& 0xFF) raw_val).2
    let half_carry := decide (wrapping_add8 (c.reg_sp &&& 0xF) (raw_val &&& 0xF) &&& 0x10 = 0x10)
    let c := { c with reg_sp := res }
    some (c.set_flags SetFlag.OFF (SetFlag.fromBool carry) (SetFlag.fromBool half_carry)
      SetFlag.OFF, m, 4)

/-- Body of `and_a_r8` / `and_a_mhl` / `and_a_n8` (lines 520-564). -/
def CPU.and_core (c : CPU) (val : Nat) : CPU :=
  let c := { c with reg_a := c.reg_a &&& val }
  c.set_flags (SetFlag.fromNat c.reg_a) SetFlag.OFF SetFlag.ON SetFlag.OFF

def CPU.and_a_r8 (c : CPU) (r : R8) : CPU × Nat := (c.and_core (c.getR8 r), 1)

/-- NOTE: the source returns 1 m-cycle here (line 549), not 2. -/
def CPU.and_a_mhl (c : CPU) (m : MMU) : Option (CPU × MMU × Nat) :=
  match m.rb ((c.reg_h <<< 8) + c.reg_l) with
  | none => none
  | some (val, m) => some (c.and_core val, m, 1)

/-- NOTE: the source returns 1 m-cycle here (line 563), not 2. -/
def CPU.and_a_n8 (c : CPU) (m : MMU) : Option (CPU × MMU × Nat) :=
  match m.rb c.reg_pc with
  | none => none
  | some (val, m) =>
    let c := { c with reg_pc := wrapping_add16 c.reg_pc 1 }
    some (c.and_core val, m, 1)

/-- Body of `cp_a_r8` / `cp_a_mhl` / `cp_a_n8` (lines 569-619): compare,
discarding the difference. -/
def CPU.cp_core (c : CPU) (val : Nat) : CPU :=
  let p := overflowing_sub8 c.reg_a val
  let half_carry := decide (wrapping_sub8 (c.reg_a &&& 0xF) (val &&& 0xF) &&& 0x10 = 0x10)
  c.set_flags (SetFlag.fromNat p.1) (SetFlag.fromBool p.2) (SetFlag.fromBool half_carry)
    SetFlag.ON

def CPU.cp_a_r8 (c : CPU) (r : R8) : CPU × Nat := (c.cp_core (c.getR8 r), 1)

/-- NOTE: the source returns 1 m-cycle here (line 602), not 2. -/
def CPU.cp_a_mhl (c : CPU) (m : MMU) : Option (CPU × MMU × Nat) :=
  match m.rb ((c.reg_h <<< 8) + c.reg_l) with
  | none => none
  | some (val, m) => some (c.cp_core val, m, 1)

/-- NOTE: the source returns 1 m-cycle here (line 618), not 2. -/
def CPU.cp_a_n8 (c : CPU) (m : MMU) : Option (CPU × MMU × Nat) :=
  match m.rb c.reg_pc with
  | none => none
  | some (val, m) =>
    let c := { c with reg_pc := wrapping_add16 c.reg_pc 1 }
    some (c.cp_core val, m, 1)

/-- Body of `dec_r8` / `dec_mhl` (lines 624-670): decremented value and
the flag update. -/
def CPU.dec8_core (c : CPU) (val : Nat) : CPU × Nat :=
  let res := wrapping_sub8 val 1
  let half_carry := decide (wrapping_sub8 (val &&& 0xF) (1 &&& 0xF) &&& 0x10 = 0x10)
  (c.set_flags (SetFlag.fromNat res) SetFlag.LEAVE (SetFlag.fromBool half_carry) SetFlag.ON,
    res)

def CPU.dec_r8 (c : CPU) (r : R8) : CPU × Nat :=
  let p := c.dec8_core (c.getR8 r)
  (p.1.setR8 r p.2, 1)

def CPU.dec_mhl (c : CPU) (m : MMU) : Option (CPU × MMU × Nat) :=
  match m.rb ((c.reg_h <<< 8) + c.reg_l) with
  | none => none
  | some (val, m) =>
    let p := c.dec8_core val
    match m.wb ((c.reg_h <<< 8) + c.reg_l) p.2 with
    | none => none
    | some m => some (p.1, m, 3)

def CPU.dec_r16 (c : CPU) (r : R16) : CPU × Nat :=
  (c.setR16 r (wrapping_sub16 (c.getR16 r) 1), 2)

def CPU.dec_sp (c : CPU) : CPU × Nat :=
  ({ c with reg_sp := wrapping_sub16 c.reg_sp 1 }, 2)

/-- Body of `inc_r8` / `inc_mhl` (lines 714-760). -/
def CPU.inc8_core (c : CPU) (val : Nat) : CPU × Nat :=
  let res := wrapping_add8 val 1
  let half_carry := decide (wrapping_add8 (val &&& 0xF) (1 &&& 0xF) &&& 0x10 = 0x10)
  (c.set_flags (SetFlag.fromNat res) SetFlag.LEAVE (SetFlag.fromBool half_carry) SetFlag.OFF,
    res)

def CPU.inc_r8 (c : CPU) (r : R8) : CPU × Nat :=
  let p := c.inc8_core (c.getR8 r)
  (p.1.setR8 r p.2, 1)

def CPU.inc_mhl (c : CPU) (m : MMU) : Option (CPU × MMU × Nat) :=
  match m.rb ((c.reg_h <<< 8) + c.reg_l) with
  | none => none
  | some (val, m) =>
    let p := c.inc8_core val
    match m.wb ((c.reg_h <<< 8) + c.reg_l) p.2 with
    | none => none
    | some m => some (p.1, m, 3)

def CPU.inc_r16 (c : CPU) (r : R16) : CPU × Nat :=
  (c.setR16 r (wrapping_add16 (c.getR16 r) 1), 2)

def CPU.inc_sp (c : CPU) : CPU × Nat :=
  ({ c with reg_sp := wrapping_add16 c.reg_sp 1 }, 2)

/-- Body of `or_a_r8` / `or_a_mhl` / `or_a_n8` (lines 804-848). -/
def CPU.or_core (c : CPU) (val : Nat) : CPU :=
  let c := { c with reg_a := c.reg_a ||| val }
  c.set_flags (SetFlag.fromNat c.reg_a) SetFlag.OFF SetFlag.OFF SetFlag.OFF

def CPU.or_a_r8 (c : CPU) (r : R8) : CPU × Nat := (c.or_core (c.getR8 r), 1)

/-- NOTE: the source returns 1 m-cycle here (line 833), not 2. -/
def CPU.or_a_mhl (c : CPU) (m : MMU) : Option (CPU × MMU × Nat) :=
  match m.rb ((c.reg_h <<< 8) + c.reg_l) with
  | none => none
  | some (val, m) => some (c.or_core val, m, 1)

/-- NOTE: the source returns 1 m-cycle here (line 847), not 2. -/
def CPU.or_a_n8 (c : CPU) (m : MMU) : Option (CPU × MMU × Nat) :=
  match m.rb c.reg_pc with
  | none => none
  | some (val, m) =>
    let c := { c with reg_pc := wrapping_add16 c.reg_pc 1 }
    some (c.or_core val, m, 1)

/-- Body of `sbc_a_r8` / `sbc_a_mhl` / `sbc_a_n8` (lines 853-947). -/
def CPU.sbc_core (c : CPU) (val : Nat) : CPU :=
  let withc := decide (0 < c.reg_f &&& FLAG_CARRY)
  let p := overflowing_sub8 c.reg_a val
  let q := if withc then
      let p2 := overflowing_sub8 p.1 1
      (p2.1, p.2 || p2.2)
    else p
  let carry_int := if withc then 1 else 0
  let half_carry :=
    decide (wrapping_sub8 (wrapping_sub8 (c.reg_a &&& 0xF) (val &&& 0xF)) carry_int &&& 0x10 = 0x10)
  let c := { c with reg_a := q.1 }
  c.set_flags (SetFlag.fromNat c.reg_a) (SetFlag.fromBool q.2) (SetFlag.fromBool half_carry)
    SetFlag.ON

def CPU.sbc_a_r8 (c : CPU) (r : R8) : CPU × Nat := (c.sbc_core (c.getR8 r), 1)

def CPU.sbc_a_mhl (c : CPU) (m : MMU) : Option (CPU × MMU × Nat) :=
  match m.rb ((c.reg_h <<< 8) + c.reg_l) with
  | none => none
  | some (val, m) => some (c.sbc_core val, m, 2)

def CPU.sbc_a_n8 (c : CPU) (m : MMU) : Option (CPU × MMU × Nat) :=
  match m.rb c.reg_pc with
  | none => none
  | some (val, m) =>
    let c := { c with reg_pc := wrapping_add16 c.reg_pc 1 }
    some (c.sbc_core val, m, 2)

/-- Body of `sub_a_r8` / `sub_a_mhl` / `sub_a_n8` (lines 952-1008). -/
def CPU.sub_core (c : CPU) (val : Nat) : CPU :=
  let p := overflowing_sub8 c.reg_a val
  let half_carry := decide (wrapping_sub8 (c.reg_a &&& 0xF) (val &&& 0xF) &&& 0x10 = 0x10)
  let c := { c with reg_a := p.1 }
  c.set_flags (SetFlag.fromNat c.reg_a) (SetFlag.fromBool p.2) (SetFlag.fromBool half_carry)
    SetFlag.ON

def CPU.sub_a_r8 (c : CPU) (r : R8) : CPU × Nat := (c.sub_core (c.getR8 r), 1)

def CPU.sub_a_mhl (c : CPU) (m : MMU) : Option (CPU × MMU × Nat) :=
  match m.rb ((c.reg_h <<< 8) + c.reg_l) with
  | none => none
  | some (val, m) => some (c.sub_core val, m, 2)

def CPU.sub_a_n8 (c : CPU) (m : MMU) : Option (CPU × MMU × Nat) :=
  match m.rb c.reg_pc with
  | none => none
  | some (val, m) =>
    let c := { c with reg_pc := wrapping_add16 c.reg_pc 1 }
    some (c.sub_core val, m, 2)

/-- Body of `xor_a_r8` / `xor_a_mhl` / `xor_a_n8` (lines 1013-1057). -/
def CPU.xor_core (c : CPU) (val : Nat) : CPU :=
  let c := { c with reg_a := c.reg_a ^^^ val }
  c.set_flags (SetFlag.fromNat c.reg_a) SetFlag.OFF SetFlag.OFF SetFlag.OFF

def CPU.xor_a_r8 (c : CPU) (r : R8) : CPU × Nat := (c.xor_core (c.getR8 r), 1)

/-- NOTE: the source returns 1 m-cycle here (line 1042), not 2. -/
def CPU.xor_a_mhl (c : CPU) (m : MMU) : Option (CPU × MMU × Nat) :=
  match m.rb ((c.reg_h <<< 8) + c.reg_l) with
  | none => none
  | some (val, m) => some (c.xor_core val, m, 1)

/-- NOTE: the source returns 1 m-cycle here (line 1056), not 2. -/
def CPU.xor_a_n8 (c : CPU) (m : MMU) : Option (CPU × MMU × Nat) :=
  match m.rb c.reg_pc with
  | none => none
  | some (val, m) =>
    let c := { c with reg_pc := wrapping_add16 c.reg_pc 1 }
    some (c.xor_core val, m, 1)

/-!
### Bit operations and shifts (src/gameboy/cpu.rs lines 1059-1673)
-/

def CPU.bit_u3_r8 (c : CPU) (u : Nat) (r : R8) : CPU × Nat :=
  (c.set_flags (SetFlag.fromNat (c.getR8 r &&& (1 <<< u))) SetFlag.LEAVE SetFlag.ON
    SetFlag.OFF, 2)

def CPU.bit_u3_mhl (c : CPU) (m : MMU) (u : Nat) : Option (CPU × MMU × Nat) :=
  match m.rb ((c.reg_h <<< 8) + c.reg_l) with
  | none => none
  | some (val, m) =>
    some (c.set_flags (SetFlag.fromNat (val &&& (1 <<< u))) SetFlag.LEAVE SetFlag.ON
      SetFlag.OFF, m, 3)

def CPU.res_u3_r8 (c : CPU) (u : Nat) (r : R8) : CPU × Nat :=
  (c.setR8 r (c.getR8 r &&& (255 ^^^ (1 <<< u))), 2)

def CPU.res_u3_mhl (c : CPU) (m : MMU) (u : Nat) : Option (CPU × MMU × Nat) :=
  match m.rb ((c.reg_h <<< 8) + c.reg_l) with
  | none => none
  | some (val, m) =>
    match m.wb ((c.reg_h <<< 8) + c.reg_l) (val &&& (255 ^^^ (1 <<< u))) with
    | none => none
    | some m => some (c, m, 4)

def CPU.set_u3_r8 (c : CPU) (u : Nat) (r : R8) : CPU × Nat :=
  (c.setR8 r (c.getR8 r ||| (1 <<< u)), 2)

def CPU.set_u3_mhl (c : CPU) (m : MMU) (u : Nat) : Option (CPU × MMU × Nat) :=
  match m.rb ((c.reg_h <<< 8) + c.reg_l) with
  | none => none
  | some (val, m) =>
    match m.wb ((c.reg_h <<< 8) + c.reg_l) (val ||| (1 <<< u)) with
    | none => none
    | some m => some (c, m, 4)

def CPU.swap_r8 (c : CPU) (r : R8) : CPU × Nat :=
  let val := rotate_left8 (c.getR8 r) 4
  let c := c.setR8 r val
  (c.set_flags (SetFlag.fromNat val) SetFlag.OFF SetFlag.OFF SetFlag.OFF, 2)

/-- NOTE: the source (line 1209) sets Z from the pre-swap value `val`,
not from the stored result (their zero-ness coincides). -/
def CPU.swap_mhl (c : CPU) (m : MMU) : Option (CPU × MMU × Nat) :=
  match m.rb ((c.reg_h <<< 8) + c.reg_l) with
  | none => none
  | some (val, m) =>
    let res := rotate_left8 val 4
    match m.wb ((c.reg_h <<< 8) + c.reg_l) res with
    | none => none
    | some m =>
      some (c.set_flags (SetFlag.fromNat val) SetFlag.OFF SetFlag.OFF SetFlag.OFF, m, 4)

/-- Body of `rl_r8` / `rl_mhl` / `rla`: rotate left through carry. -/
def CPU.rl_core (c : CPU) (val : Nat) : CPU × Nat :=
  let carry := decide (0 < c.reg_f &&& FLAG_CARRY)
  let new_carry := decide (0 < val &&& 0x80)
  let res := ((val % 256) <<< 1) % 256
  let res := if carry then res + 1 else res
  (c.set_flags (SetFlag.fromNat res) (SetFlag.fromBool new_carry) SetFlag.OFF SetFlag.OFF,
    res)

def CPU.rl_r8 (c : CPU) (r : R8) : CPU × Nat :=
  let p := c.rl_core (c.getR8 r)
  (p.1.setR8 r p.2, 2)

def CPU.rl_mhl (c : CPU) (m : MMU) : Option (CPU × MMU × Nat) :=
  match m.rb ((c.reg_h <<< 8) + c.reg_l) with
  | none => none
  | some (val, m) =>
    let p := c.rl_core val
    match m.wb ((c.reg_h <<< 8) + c.reg_l) p.2 with
    | none => none
    | some m => some (p.1, m, 4)

/-- `rla` (lines 1284-1301): like `rl_r8 A` but Z is forced OFF and the
cycle count is 1. -/
def CPU.rla (c : CPU) : CPU × Nat :=
  let carry := decide (0 < c.reg_f &&& FLAG_CARRY)
  let new_carry := decide (0 < c.reg_a &&& 0x80)
  let res := ((c.reg_a % 256) <<< 1) % 256
  let res := if carry then res + 1 else res
  let c := { c with reg_a := res }
  (c.set_flags SetFlag.OFF (SetFlag.fromBool new_carry) SetFlag.OFF SetFlag.OFF, 1)

/-- Body of `rlc_r8` / `rlc_mhl`: rotate left. -/
def CPU.rlc_core (c : CPU) (val : Nat) : CPU × Nat :=
  let new_carry := decide (0 < val &&& 0x80)
  let res := rotate_left8 val 1
  (c.set_flags (SetFlag.fromNat res) (SetFlag.fromBool new_carry) SetFlag.OFF SetFlag.OFF,
    res)

def CPU.rlc_r8 (c : CPU) (r : R8) : CPU × Nat :=
  let p := c.rlc_core (c.getR8 r)
  (p.1.setR8 r p.2, 2)

def CPU.rlc_mhl (c : CPU) (m : MMU) : Option (CPU × MMU × Nat) :=
  match m.rb ((c.reg_h <<< 8) + c.reg_l) with
  | none => none
  | some (val, m) =>
    let p := c.rlc_core val
    match m.wb ((c.reg_h <<< 8) + c.reg_l) p.2 with
    | none => none
    | some m => some (p.1, m, 4)

def CPU.rlca (c : CPU) : CPU × Nat :=
  let new_carry := decide (0 < c.reg_a &&& 0x80)
  let res := rotate_left8 c.reg_a 1
  let c := { c with reg_a := res }
  (c.set_flags SetFlag.OFF (SetFlag.fromBool new_carry) SetFlag.OFF SetFlag.OFF, 1)

/-- Body of `rr_r8` / `rr_mhl`: rotate right through carry. -/
def CPU.rr_core (c : CPU) (val : Nat) : CPU × Nat :=
  let carry := decide (0 < c.reg_f &&& FLAG_CARRY)
  let new_carry := decide (0 < val &&& 1)
  let res := (val % 256) >>> 1
  let res := if carry then res + 0x80 else res
  (c.set_flags (SetFlag.fromNat res) (SetFlag.fromBool new_carry) SetFlag.OFF SetFlag.OFF,
    res)

def CPU.rr_r8 (c : CPU) (r : R8) : CPU × Nat :=
  let p := c.rr_core (c.getR8 r)
  (p.1.setR8 r p.2, 2)

def CPU.rr_mhl (c : CPU) (m : MMU) : Option (CPU × MMU × Nat) :=
  match m.rb ((c.reg_h <<< 8) + c.reg_l) with
  | none => none
  | some (val, m) =>
    let p := c.rr_core val
    match m.wb ((c.reg_h <<< 8) + c.reg_l) p.2 with
    | none => none
    | some m => some (p.1, m, 4)

def CPU.rra (c : CPU) : CPU × Nat :=
  let carry := decide (0 < c.reg_f &&& FLAG_CARRY)
  let new_carry := decide (0 < c.reg_a &&& 1)
  let res := (c.reg_a % 256) >>> 1
  let res := if carry then res + 0x80 else res
  let c := { c with reg_a := res }
  (c.set_flags SetFlag.OFF (SetFlag.fromBool new_carry) SetFlag.OFF SetFlag.OFF, 1)

/-- Body of `rrc_r8` / `rrc_mhl`: rotate right. -/
def CPU.rrc_core (c : CPU) (val : Nat) : CPU × Nat :=
  let new_carry := decide (0 < val &&& 1)
  let res := rotate_right8 val 1
  (c.set_flags (SetFlag.fromNat res) (SetFlag.fromBool new_carry) SetFlag.OFF SetFlag.OFF,
    res)

def CPU.rrc_r8 (c : CPU) (r : R8) : CPU × Nat :=
  let p := c.rrc_core (c.getR8 r)
  (p.1.setR8 r p.2, 2)

def CPU.rrc_mhl (c : CPU) (m : MMU) : Option (CPU × MMU × Nat) :=
  match m.rb ((c.reg_h <<< 8) + c.reg_l) with
  | none => none
  | some (val, m) =>
    let p := c.rrc_core val
    match m.wb ((c.reg_h <<< 8) + c.reg_l) p.2 with
    | none => none
    | some m => some (p.1, m, 4)

def CPU.rrca (c : CPU) : CPU × Nat :=
  let new_carry := decide (0 < c.reg_a &&& 1)
  let res := rotate_right8 c.reg_a 1
  let c := { c with reg_a := res }
  (c.set_flags SetFlag.OFF (SetFlag.fromBool new_carry) SetFlag.OFF SetFlag.OFF, 1)

/-- Body of `sla_r8` / `sla_mhl`: shift left arithmetically. -/
def CPU.sla_core (c : CPU) (val : Nat) : CPU × Nat :=
  let new_carry := decide (0 < val &&& 0x80)
  let res := ((val % 256) <<< 1) % 256
  (c.set_flags (SetFlag.fromNat res) (SetFlag.fromBool new_carry) SetFlag.OFF SetFlag.OFF,
    res)

def CPU.sla_r8 (c : CPU) (r : R8) : CPU × Nat :=
  let p := c.sla_core (c.getR8 r)
  (p.1.setR8 r p.2, 2)

def CPU.sla_mhl (c : CPU) (m : MMU) : Option (CPU × MMU × Nat) :=
  match m.rb ((c.reg_h <<< 8) + c.reg_l) with
  | none => none
  | some (val, m) =>
    let p := c.sla_core val
    match m.wb ((c.reg_h <<< 8) + c.reg_l) p.2 with
    | none => none
    | some m => some (p.1, m, 4)

/-- Body of `sra_r8` / `sra_mhl`: shift right arithmetically,
`(val >> 1) + (val & 0x80)`. -/
def CPU.sra_core (c : CPU) (val : Nat) : CPU × Nat :=
  let new_carry := decide (0 < val &&& 1)
  let res := ((val % 256) >>> 1) + (val &&& 0x80)
  (c.set_flags (SetFlag.fromNat res) (SetFlag.fromBool new_carry) SetFlag.OFF SetFlag.OFF,
    res)

def CPU.sra_r8 (c : CPU) (r : R8) : CPU × Nat :=
  let p := c.sra_core (c.getR8 r)
  (p.1.setR8 r p.2, 2)

def CPU.sra_mhl (c : CPU) (m : MMU) : Option (CPU × MMU × Nat) :=
  match m.rb ((c.reg_h <<< 8) + c.reg_l) with
  | none => none
  | some (val, m) =>
    let p := c.sra_core val
    match m.wb ((c.reg_h <<< 8) + c.reg_l) p.2 with
    | none => none
    | some m => some (p.1, m, 4)

/-- Body of `srl_r8` / `srl_mhl`: shift right logically. -/
def CPU.srl_core (c : CPU) (val : Nat) : CPU × Nat :=
  let new_carry := decide (0 < val &&& 1)
  let res := (val % 256) >>> 1
  (c.set_flags (SetFlag.fromNat res) (SetFlag.fromBool new_carry) SetFlag.OFF SetFlag.OFF,
    res)

def CPU.srl_r8 (c : CPU) (r : R8) : CPU × Nat :=
  let p := c.srl_core (c.getR8 r)
  (p.1.setR8 r p.2, 2)

def CPU.srl_mhl (c : CPU) (m : MMU) : Option (CPU × MMU × Nat) :=
  match m.rb ((c.reg_h <<< 8) + c.reg_l) with
  | none => none
  | some (val, m) =>
    let p := c.srl_core val
    match m.wb ((c.reg_h <<< 8) + c.reg_l) p.2 with
    | none => none
    | some m => some (p.1, m, 4)

/-!
### Loads (src/gameboy/cpu.rs lines 1675-2043)
-/

def CPU.ld_r8_r8 (c : CPU) (r_left r_right : R8) : CPU × Nat :=
  (c.setR8 r_left (c.getR8 r_right), 1)

def CPU.ld_r8_n8 (c : CPU) (m : MMU) (r : R8) : Option (CPU × MMU × Nat) :=
  match m.rb c.reg_pc with
  | none => none
  | some (val, m) =>
    let c := { c with reg_pc := wrapping_add16 c.reg_pc 1 }
    some (c.setR8 r val, m, 2)

/-- `ld_r16_n16` (lines 1734-1757): the first immediate byte (`upper` in
the source's naming) is stored in the LOW register of the pair, the
second (`lower`) in the HIGH register — little-endian decoding. -/
def CPU.ld_r16_n16 (c : CPU) (m : MMU) (r : R16) : Option (CPU × MMU × Nat) :=
  match m.rb c.reg_pc with
  | none => none
  | some (upper, m) =>
    let c := { c with reg_pc := wrapping_add16 c.reg_pc 1 }
    match m.rb c.reg_pc with
    | none => none
    | some (lower, m) =>
      let c := { c with reg_pc := wrapping_add16 c.reg_pc 1 }
      let c :=
        match r with
        | R16.BC => { c with reg_b := lower, reg_c := upper }
        | R16.DE => { c with reg_d := lower, reg_e := upper }
        | R16.HL => { c with reg_h := lower, reg_l := upper }
      some (c, m, 3)

def CPU.ld_mhl_r8 (c : CPU) (m : MMU) (r : R8) : Option (CPU × MMU × Nat) :=
  match m.wb ((c.reg_h <<< 8) + c.reg_l) (c.getR8 r) with
  | none => none
  | some m => some (c, m, 2)

def CPU.ld_mhl_n8 (c : CPU) (m : MMU) : Option (CPU × MMU × Nat) :=
  match m.rb c.reg_pc with
  | none => none
  | some (val, m) =>
    let c := { c with reg_pc := wrapping_add16 c.reg_pc 1 }
    match m.wb ((c.reg_h <<< 8) + c.reg_l) val with
    | none => none
    | some m => some (c, m, 3)

def CPU.ld_r8_mhl (c : CPU) (m : MMU) (r : R8) : Option (CPU × MMU × Nat) :=
  match m.rb ((c.reg_h <<< 8) + c.reg_l) with
  | none => none
  | some (val, m) => some (c.setR8 r val, m, 2)

def CPU.ld_a_mr16 (c : CPU) (m : MMU) (r : R16) : Option (CPU × MMU × Nat) :=
  match m.rb (c.getR16 r) with
  | none => none
  | some (val, m) => some ({ c with reg_a := val }, m, 2)

def CPU.ld_mr16_a (c : CPU) (m : MMU) (r : R16) : Option (CPU × MMU × Nat) :=
  match m.wb (c.getR16 r) c.reg_a with
  | none => none
  | some m => some (c, m, 2)

def CPU.ld_a_mn16 (c : CPU) (m : MMU) : Option (CPU × MMU × Nat) :=
  match m.rw c.reg_pc with
  | none => none
  | some (addr, m) =>
    match m.rb addr with
    | none => none
    | some (val, m) =>
      some ({ c with reg_a := val, reg_pc := wrapping_add16 c.reg_pc 2 }, m, 2)

def CPU.ld_mn16_a (c : CPU) (m : MMU) : Option (CPU × MMU × Nat) :=
  match m.rw c.reg_pc with
  | none => none
  | some (addr, m) =>
    let c := { c with reg_pc := wrapping_add16 c.reg_pc 2 }
    match m.wb addr c.reg_a with
    | none => none
    | some m => some (c, m, 4)

/-- The `$FF00 + n` high-page address `(rb(pc) as u16) + 0xFF00` is
written literal-first here (addition on `Nat` is commutative; the
literal-first form keeps kernel reduction cheap), likewise in the other
three `ldh` handlers. -/
def CPU.ldh_mn16_a (c : CPU) (m : MMU) : Option (CPU × MMU × Nat) :=
  match m.rb c.reg_pc with
  | none => none
  | some (v, m) =>
    let c := { c with reg_pc := wrapping_add16 c.reg_pc 1 }
    match m.wb (0xFF00 + v) c.reg_a with
    | none => none
    | some m => some (c, m, 3)

def CPU.ldh_mc_a (c : CPU) (m : MMU) : Option (CPU × MMU × Nat) :=
  match m.wb (0xFF00 + c.reg_c) c.reg_a with
  | none => none
  | some m => some (c, m, 2)

def CPU.ldh_a_mn16 (c : CPU) (m : MMU) : Option (CPU × MMU × Nat) :=
  match m.rb c.reg_pc with
  | none => none
  | some (v, m) =>
    let c := { c with reg_pc := wrapping_add16 c.reg_pc 1 }
    match m.rb (0xFF00 + v) with
    | none => none
    | some (val, m) => some ({ c with reg_a := val }, m, 3)

def CPU.ldh_a_mc (c : CPU) (m : MMU) : Option (CPU × MMU × Nat) :=
  match m.rb (0xFF00 + c.reg_c) with
  | none => none
  | some (val, m) => some ({ c with reg_a := val }, m, 2)

/-- HL increment used by `ld_hli_a` / `ld_a_hli` (wrap on L overflow). -/
def CPU.incHL (c : CPU) : CPU :=
  let c := { c with reg_l := wrapping_add8 c.reg_l 1 }
  if c.reg_l = 0 then { c with reg_h := wrapping_add8 c.reg_h 1 } else c

/-- HL decrement used by `ld_hld_a` / `ld_a_hld`. -/
def CPU.decHL (c : CPU) : CPU :=
  let c := { c with reg_l := wrapping_sub8 c.reg_l 1 }
  if c.reg_l = 255 then { c with reg_h := wrapping_sub8 c.reg_h 1 } else c

def CPU.ld_hli_a (c : CPU) (m : MMU) : Option (CPU × MMU × Nat) :=
  match m.wb ((c.reg_h <<< 8) + c.reg_l) c.reg_a with
  | none => none
  | some m => some (c.incHL, m, 2)

def CPU.ld_hld_a (c : CPU) (m : MMU) : Option (CPU × MMU × Nat) :=
  match m.wb ((c.reg_h <<< 8) + c.reg_l) c.reg_a with
  | none => none
  | some m => some (c.decHL, m, 2)

def CPU.ld_a_hli (c : CPU) (m : MMU) : Option (CPU × MMU × Nat) :=
  match m.rb ((c.reg_h <<< 8) + c.reg_l) with
  | none => none
  | some (val, m) => some (CPU.incHL { c with reg_a := val }, m, 2)

def CPU.ld_a_hld (c : CPU) (m : MMU) : Option (CPU × MMU × Nat) :=
  match m.rb ((c.reg_h <<< 8) + c.reg_l) with
  | none => none
  | some (val, m) => some (CPU.decHL { c with reg_a := val }, m, 2)

def CPU.ld_sp_n16 (c : CPU) (m : MMU) : Option (CPU × MMU × Nat) :=
  match m.rw c.reg_pc with
  | none => none
  | some (v, m) =>
    some ({ c with reg_sp := v, reg_pc := wrapping_add16 c.reg_pc 2 }, m, 3)

def CPU.ld_mn16_sp (c : CPU) (m : MMU) : Option (CPU × MMU × Nat) :=
  match m.rw c.reg_pc with
  | none => none
  | some (addr, m) =>
    let c := { c with reg_pc := wrapping_add16 c.reg_pc 2 }
    match m.ww addr c.reg_sp with
    | none => none
    | some m => some (c, m, 5)

def CPU.ld_hl_spe8 (c : CPU) (m : MMU) : Option (CPU × MMU × Nat) :=
  match m.rb c.reg_pc with
  | none => none
  | some (raw_val, m) =>
    let c := { c with reg_pc := wrapping_add16 c.reg_pc 1 }
    let res := wrapping_add_signed16 c.reg_sp (as_i8 raw_val)
    let carry := (overflowing_add8 (c.reg_sp &&& 0xFF) raw_val).2
    let half_carry := decide (wrapping_add8 (c.reg_sp &&& 0xF) (raw_val &&& 0xF) &&& 0x10 = 0x10)
    let c := { c with reg_h := (res >>> 8) % 256, reg_l := res % 256 }
    some (c.set_flags SetFlag.OFF (SetFlag.fromBool carry) (SetFlag.fromBool half_carry)
      SetFlag.OFF, m, 3)

def CPU.ld_sp_hl (c : CPU) : CPU × Nat :=
  ({ c with reg_sp := (c.reg_h <<< 8) + c.reg_l }, 2)

/-!
### Jumps, subroutines, stack and miscellaneous
(src/gameboy/cpu.rs lines 2045-2478)
-/

def CPU.call_n16 (c : CPU) (m : MMU) : Option (CPU × MMU × Nat) :=
  let c := { c with reg_sp := wrapping_sub16 c.reg_sp 2 }
  match m.ww c.reg_sp (wrapping_add16 c.reg_pc 2) with
  | none => none
  | some m =>
    match m.rw c.reg_pc with
    | none => none
    | some (v, m) => some ({ c with reg_pc := v }, m, 6)

def CPU.call_cc_n16 (c : CPU) (m : MMU) (cond : CC) : Option (CPU × MMU × Nat) :=
  if c.cc_met cond then
    let c := { c with reg_sp := wrapping_sub16 c.reg_sp 2 }
    match m.ww c.reg_sp (wrapping_add16 c.reg_pc 2) with
    | none => none
    | some m =>
      match m.rw c.reg_pc with
      | none => none
      | some (v, m) => some ({ c with reg_pc := v }, m, 6)
  else
    some ({ c with reg_pc := wrapping_add16 c.reg_pc 2 }, m, 3)

def CPU.jp_n16 (c : CPU) (m : MMU) : Option (CPU × MMU × Nat) :=
  match m.rw c.reg_pc with
  | none => none
  | some (v, m) => some ({ c with reg_pc := v }, m, 4)

def CPU.jp_cc_n16 (c : CPU) (m : MMU) (cond : CC) : Option (CPU × MMU × Nat) :=
  if c.cc_met cond then
    match m.rw c.reg_pc with
    | none => none
    | some (v, m) => some ({ c with reg_pc := v }, m, 4)
  else
    some ({ c with reg_pc := wrapping_add16 c.reg_pc 2 }, m, 3)

def CPU.jp_mhl (c : CPU) : CPU × Nat :=
  ({ c with reg_pc := (c.reg_h <<< 8) + c.reg_l }, 1)

def CPU.jr_n16 (c : CPU) (m : MMU) : Option (CPU × MMU × Nat) :=
  match m.rb c.reg_pc with
  | none => none
  | some (e8, m) =>
    let c := { c with reg_pc := wrapping_add16 c.reg_pc 1 }
    some ({ c with reg_pc := wrapping_add_signed16 c.reg_pc (as_i8 e8) }, m, 3)

def CPU.jr_cc_n16 (c : CPU) (m : MMU) (cond : CC) : Option (CPU × MMU × Nat) :=
  if c.cc_met cond then
    match m.rb c.reg_pc with
    | none => none
    | some (e8, m) =>
      let c := { c with reg_pc := wrapping_add16 c.reg_pc 1 }
      some ({ c with reg_pc := wrapping_add_signed16 c.reg_pc (as_i8 e8) }, m, 3)
  else
    some ({ c with reg_pc := wrapping_add16 c.reg_pc 1 }, m, 2)

def CPU.ret (c : CPU) (m : MMU) : Option (CPU × MMU × Nat) :=
  match m.rw c.reg_sp with
  | none => none
  | some (v, m) =>
    some ({ c with reg_pc := v, reg_sp := wrapping_add16 c.reg_sp 2 }, m, 4)

def CPU.ret_cc (c : CPU) (m : MMU) (cond : CC) : Option (CPU × MMU × Nat) :=
  if c.cc_met cond then
    match m.rw c.reg_sp with
    | none => none
    | some (v, m) =>
      some ({ c with reg_pc := v, reg_sp := wrapping_add16 c.reg_sp 2 }, m, 5)
  else
    some (c, m, 2)

def CPU.reti (c : CPU) (m : MMU) : Option (CPU × MMU × Nat) :=
  let c := { c with ime := true }
  match m.rw c.reg_sp with
  | none => none
  | some (v, m) =>
    some ({ c with reg_pc := v, reg_sp := wrapping_add16 c.reg_sp 2 }, m, 4)

/-- The `RST` vector table (lines 2229-2243). -/
def RST.target : RST → Nat
  | RST.RST00 => 0x00
  | RST.RST08 => 0x08
  | RST.RST10 => 0x10
  | RST.RST18 => 0x18
  | RST.RST20 => 0x20
  | RST.RST28 => 0x28
  | RST.RST30 => 0x30
  | RST.RST38 => 0x38
  | RST.RST40 => 0x40
  | RST.RST48 => 0x48
  | RST.RST50 => 0x50
  | RST.RST58 => 0x58
  | RST.RST60 => 0x60

def CPU.rst (c : CPU) (m : MMU) (addr : RST) : Option (CPU × MMU × Nat) :=
  let c := { c with reg_sp := wrapping_sub16 c.reg_sp 2 }
  match m.ww c.reg_sp c.reg_pc with
  | none => none
  | some m => some ({ c with reg_pc := RST.target addr }, m, 4)

/-- `pop_af` (lines 2261-2269): the value popped into F is masked with
0b11110000, keeping the lower nibble clear. -/
def CPU.pop_af (c : CPU) (m : MMU) : Option (CPU × MMU × Nat) :=
  match m.rb c.reg_sp with
  | none => none
  | some (v, m) =>
    let c := { c with reg_f := v &&& 0b11110000,
                      reg_sp := wrapping_add16 c.reg_sp 1 }
    match m.rb c.reg_sp with
    | none => none
    | some (v2, m) =>
      some ({ c with reg_a := v2, reg_sp := wrapping_add16 c.reg_sp 1 }, m, 3)

def CPU.pop_r16 (c : CPU) (m : MMU) (r : R16) : Option (CPU × MMU × Nat) :=
  match m.rb c.reg_sp with
  | none => none
  | some (lo, m) =>
    let c := { c with reg_sp := wrapping_add16 c.reg_sp 1 }
    match m.rb c.reg_sp with
    | none => none
    | some (hi, m) =>
      let c := { c with reg_sp := wrapping_add16 c.reg_sp 1 }
      let c :=
        match r with
        | R16.BC => { c with reg_c := lo, reg_b := hi }
        | R16.DE => { c with reg_e := lo, reg_d := hi }
        | R16.HL => { c with reg_l := lo, reg_h := hi }
      some (c, m, 3)

def CPU.push_af (c : CPU) (m : MMU) : Option (CPU × MMU × Nat) :=
  let c := { c with reg_sp := wrapping_sub16 c.reg_sp 1 }
  match m.wb c.reg_sp c.reg_a with
  | none => none
  | some m =>
    let c := { c with reg_sp := wrapping_sub16 c.reg_sp 1 }
    match m.wb c.reg_sp c.reg_f with
    | none => none
    | some m => some (c, m, 4)

def CPU.push_r16 (c : CPU) (m : MMU) (r : R16) : Option (CPU × MMU × Nat) :=
  let hi :=
    match r with
    | R16.BC => c.reg_b
    | R16.DE => c.reg_d
    | R16.HL => c.reg_h
  let lo :=
    match r with
    | R16.BC => c.reg_c
    | R16.DE => c.reg_e
    | R16.HL => c.reg_l
  let c := { c with reg_sp := wrapping_sub16 c.reg_sp 1 }
  match m.wb c.reg_sp hi with
  | none => none
  | some m =>
    let c := { c with reg_sp := wrapping_sub16 c.reg_sp 1 }
    match m.wb c.reg_sp lo with
    | none => none
    | some m => some (c, m, 4)

/-- `ccf` (lines 2355-2361): F is xor-ed with the carry mask, then the
flags are set from the updated F. -/
def CPU.ccf (c : CPU) : CPU × Nat :=
  let c := { c with reg_f := c.reg_f ^^^ FLAG_CARRY }
  (c.set_flags SetFlag.LEAVE (SetFlag.fromBool (decide (c.reg_f &&& FLAG_CARRY ≠ 0)))
    SetFlag.OFF SetFlag.OFF, 1)

def CPU.cpl (c : CPU) : CPU × Nat :=
  let c := { c with reg_a := (c.reg_a % 256) ^^^ 255 }
  (c.set_flags SetFlag.LEAVE SetFlag.LEAVE SetFlag.ON SetFlag.ON, 1)

/-- `daa` (lines 2377-2419). -/
def CPU.daa (c : CPU) : CPU × Nat :=
  let carry := decide (0 < c.reg_f &&& FLAG_CARRY)
  let half_carry := decide (0 < c.reg_f &&& FLAG_HALF_CARRY)
  let p : Nat × Bool :=
    if c.reg_f &&& FLAG_SUB = 0 then
      let q := if carry || decide (0x99 < c.reg_a) then (wrapping_add8 c.reg_a 0x60, true)
               else (c.reg_a, carry)
      (if half_carry || decide (9 < q.1 &&& 0xF) then wrapping_add8 q.1 0x6 else q.1, q.2)
    else
      let a1 := if carry then wrapping_sub8 c.reg_a 0x60 else c.reg_a
      (if half_carry then wrapping_sub8 a1 0x6 else a1, carry)
  let c := { c with reg_a := p.1 }
  (c.set_flags (SetFlag.fromNat c.reg_a) (SetFlag.fromBool p.2) SetFlag.OFF SetFlag.LEAVE, 1)

def CPU.di (c : CPU) : CPU × Nat := ({ c with ime := false }, 1)

def CPU.ei (c : CPU) : CPU × Nat := ({ c with ime := true }, 1)

/-- `halt` (lines 2442-2446); named `op_halt` because `halt` is the
state field. -/
def CPU.op_halt (c : CPU) : CPU × Nat := ({ c with halt := true }, 1)

def CPU.nop (c : CPU) : CPU × Nat := (c, 1)

def CPU.scf (c : CPU) : CPU × Nat :=
  (c.set_flags SetFlag.LEAVE SetFlag.ON SetFlag.OFF SetFlag.OFF, 1)

/-- `stop` (lines 2467-2471); named `op_stop` because `stop` is the
state field. -/
def CPU.op_stop (c : CPU) : CPU × Nat := ({ c with stop := true }, 0)

/-- `xx` (lines 2473-2478), the illegal-opcode handler: prints a
diagnostic (no state effect beyond stderr) and sets the STOP latch. -/
def CPU.xx (c : CPU) : CPU × Nat := ({ c with stop := true }, 0)

/-!
### Dispatch tables (src/gameboy/cpu.rs lines 2486-3055)
-/

/-- Wrap a register-only handler result into the common handler shape. -/
def pureOp (m : MMU) (p : CPU × Nat) : Option (CPU × MMU × Nat) :=
  some (p.1, m, p.2)

/-- The 256-entry CB dispatch table of `CPU::map_cb_and_execute`
(lines 2782-3054), arm for arm in the source's order.  The source's flat
`match opc` on the 256 `u8` literals (formatted there as 16 rows of 16)
is embedded as a two-level match on the high and low hex digit of the
opcode; `opc` is a `u8`, so the catch-all arms are the 0xF* row and the
*F column. -/
def CPU.map_cb (c : CPU) (m : MMU) (opc : Nat) : Option (CPU × MMU × Nat) :=
  match opc / 16 with
  | 0x0 =>
    match opc % 16 with
    | 0x0 => pureOp m (c.rlc_r8 R8.B)
    | 0x1 => pureOp m (c.rlc_r8 R8.C)
    | 0x2 => pureOp m (c.rlc_r8 R8.D)
    | 0x3 => pureOp m (c.rlc_r8 R8.E)
    | 0x4 => pureOp m (c.rlc_r8 R8.H)
    | 0x5 => pureOp m (c.rlc_r8 R8.L)
    | 0x6 => c.rlc_mhl m
    | 0x7 => pureOp m (c.rlc_r8 R8.A)
    | 0x8 => pureOp m (c.rrc_r8 R8.B)
    | 0x9 => pureOp m (c.rrc_r8 R8.C)
    | 0xA => pureOp m (c.rrc_r8 R8.D)
    | 0xB => pureOp m (c.rrc_r8 R8.E)
    | 0xC => pureOp m (c.rrc_r8 R8.H)
    | 0xD => pureOp m (c.rrc_r8 R8.L)
    | 0xE => c.rrc_mhl m
    | _ => pureOp m (c.rrc_r8 R8.A)
  | 0x1 =>
    match opc % 16 with
    | 0x0 => pureOp m (c.rl_r8 R8.B)
    | 0x1 => pureOp m (c.rl_r8 R8.C)
    | 0x2 => pureOp m (c.rl_r8 R8.D)
    | 0x3 => pureOp m (c.rl_r8 R8.E)
    | 0x4 => pureOp m (c.rl_r8 R8.H)
    | 0x5 => pureOp m (c.rl_r8 R8.L)
    | 0x6 => c.rl_mhl m
    | 0x7 => pureOp m (c.rl_r8 R8.A)
    | 0x8 => pureOp m (c.rr_r8 R8.B)
    | 0x9 => pureOp m (c.rr_r8 R8.C)
    | 0xA => pureOp m (c.rr_r8 R8.D)
    | 0xB => pureOp m (c.rr_r8 R8.E)
    | 0xC => pureOp m (c.rr_r8 R8.H)
    | 0xD => pureOp m (c.rr_r8 R8.L)
    | 0xE => c.rr_mhl m
    | _ => pureOp m (c.rr_r8 R8.A)
  | 0x2 =>
    match opc % 16 with
    | 0x0 => pureOp m (c.sla_r8 R8.B)
    | 0x1 => pureOp m (c.sla_r8 R8.C)
    | 0x2 => pureOp m (c.sla_r8 R8.D)
    | 0x3 => pureOp m (c.sla_r8 R8.E)
    | 0x4 => pureOp m (c.sla_r8 R8.H)
    | 0x5 => pureOp m (c.sla_r8 R8.L)
    | 0x6 => c.sla_mhl m
    | 0x7 => pureOp m (c.sla_r8 R8.A)
    | 0x8 => pureOp m (c.sra_r8 R8.B)
    | 0x9 => pureOp m (c.sra_r8 R8.C)
    | 0xA => pureOp m (c.sra_r8 R8.D)
    | 0xB => pureOp m (c.sra_r8 R8.E)
    | 0xC => pureOp m (c.sra_r8 R8.H)
    | 0xD => pureOp m (c.sra_r8 R8.L)
    | 0xE => c.sra_mhl m
    | _ => pureOp m (c.sra_r8 R8.A)
  | 0x3 =>
    match opc % 16 with
    | 0x0 => pureOp m (c.swap_r8 R8.B)
    | 0x1 => pureOp m (c.swap_r8 R8.C)
    | 0x2 => pureOp m (c.swap_r8 R8.D)
    | 0x3 => pureOp m (c.swap_r8 R8.E)
    | 0x4 => pureOp m (c.swap_r8 R8.H)
    | 0x5 => pureOp m (c.swap_r8 R8.L)
    | 0x6 => c.swap_mhl m
    | 0x7 => pureOp m (c.swap_r8 R8.A)
    | 0x8 => pureOp m (c.srl_r8 R8.B)
    | 0x9 => pureOp m (c.srl_r8 R8.C)
    | 0xA => pureOp m (c.srl_r8 R8.D)
    | 0xB => pureOp m (c.srl_r8 R8.E)
    | 0xC => pureOp m (c.srl_r8 R8.H)
    | 0xD => pureOp m (c.srl_r8 R8.L)
    | 0xE => c.srl_mhl m
    | _ => pureOp m (c.srl_r8 R8.A)
  | 0x4 =>
    match opc % 16 with
    | 0x0 => pureOp m (c.bit_u3_r8 0 R8.B)
    | 0x1 => pureOp m (c.bit_u3_r8 0 R8.C)
    | 0x2 => pureOp m (c.bit_u3_r8 0 R8.D)
    | 0x3 => pureOp m (c.bit_u3_r8 0 R8.E)
    | 0x4 => pureOp m (c.bit_u3_r8 0 R8.H)
    | 0x5 => pureOp m (c.bit_u3_r8 0 R8.L)
    | 0x6 => c.bit_u3_mhl m 0
    | 0x7 => pureOp m (c.bit_u3_r8 0 R8.A)
    | 0x8 => pureOp m (c.bit_u3_r8 1 R8.B)
    | 0x9 => pureOp m (c.bit_u3_r8 1 R8.C)
    | 0xA => pureOp m (c.bit_u3_r8 1 R8.D)
    | 0xB => pureOp m (c.bit_u3_r8 1 R8.E)
    | 0xC => pureOp m (c.bit_u3_r8 1 R8.H)
    | 0xD => pureOp m (c.bit_u3_r8 1 R8.L)
    | 0xE => c.bit_u3_mhl m 1
    | _ => pureOp m (c.bit_u3_r8 1 R8.A)
  | 0x5 =>
    match opc % 16 with
    | 0x0 => pureOp m (c.bit_u3_r8 2 R8.B)
    | 0x1 => pureOp m (c.bit_u3_r8 2 R8.C)
    | 0x2 => pureOp m (c.bit_u3_r8 2 R8.D)
    | 0x3 => pureOp m (c.bit_u3_r8 2 R8.E)
    | 0x4 => pureOp m (c.bit_u3_r8 2 R8.H)
    | 0x5 => pureOp m (c.bit_u3_r8 2 R8.L)
    | 0x6 => c.bit_u3_mhl m 2
    | 0x7 => pureOp m (c.bit_u3_r8 2 R8.A)
    | 0x8 => pureOp m (c.bit_u3_r8 3 R8.B)
    | 0x9 => pureOp m (c.bit_u3_r8 3 R8.C)
    | 0xA => pureOp m (c.bit_u3_r8 3 R8.D)
    | 0xB => pureOp m (c.bit_u3_r8 3 R8.E)
    | 0xC => pureOp m (c.bit_u3_r8 3 R8.H)
    | 0xD => pureOp m (c.bit_u3_r8 3 R8.L)
    | 0xE => c.bit_u3_mhl m 3
    | _ => pureOp m (c.bit_u3_r8 3 R8.A)
  | 0x6 =>
    match opc % 16 with
    | 0x0 => pureOp m (c.bit_u3_r8 4 R8.B)
    | 0x1 => pureOp m (c.bit_u3_r8 4 R8.C)
    | 0x2 => pureOp m (c.bit_u3_r8 4 R8.D)
    | 0x3 => pureOp m (c.bit_u3_r8 4 R8.E)
    | 0x4 => pureOp m (c.bit_u3_r8 4 R8.H)
    | 0x5 => pureOp m (c.bit_u3_r8 4 R8.L)
    | 0x6 => c.bit_u3_mhl m 4
    | 0x7 => pureOp m (c.bit_u3_r8 4 R8.A)
    | 0x8 => pureOp m (c.bit_u3_r8 5 R8.B)
    | 0x9 => pureOp m (c.bit_u3_r8 5 R8.C)
    | 0xA => pureOp m (c.bit_u3_r8 5 R8.D)
    | 0xB => pureOp m (c.bit_u3_r8 5 R8.E)
    | 0xC => pureOp m (c.bit_u3_r8 5 R8.H)
    | 0xD => pureOp m (c.bit_u3_r8 5 R8.L)
    | 0xE => c.bit_u3_mhl m 5
    | _ => pureOp m (c.bit_u3_r8 5 R8.A)
  | 0x7 =>
    match opc % 16 with
    | 0x0 => pureOp m (c.bit_u3_r8 6 R8.B)
    | 0x1 => pureOp m (c.bit_u3_r8 6 R8.C)
    | 0x2 => pureOp m (c.bit_u3_r8 6 R8.D)
    | 0x3 => pureOp m (c.bit_u3_r8 6 R8.E)
    | 0x4 => pureOp m (c.bit_u3_r8 6 R8.H)
    | 0x5 => pureOp m (c.bit_u3_r8 6 R8.L)
    | 0x6 => c.bit_u3_mhl m 6
    | 0x7 => pureOp m (c.bit_u3_r8 6 R8.A)
    | 0x8 => pureOp m (c.bit_u3_r8 7 R8.B)
    | 0x9 => pureOp m (c.bit_u3_r8 7 R8.C)
    | 0xA => pureOp m (c.bit_u3_r8 7 R8.D)
    | 0xB => pureOp m (c.bit_u3_r8 7 R8.E)
    | 0xC => pureOp m (c.bit_u3_r8 7 R8.H)
    | 0xD => pureOp m (c.bit_u3_r8 7 R8.L)
    | 0xE => c.bit_u3_mhl m 7
    | _ => pureOp m (c.bit_u3_r8 7 R8.A)
  | 0x8 =>
    match opc % 16 with
    | 0x0 => pureOp m (c.res_u3_r8 0 R8.B)
    | 0x1 => pureOp m (c.res_u3_r8 0 R8.C)
    | 0x2 => pureOp m (c.res_u3_r8 0 R8.D)
    | 0x3 => pureOp m (c.res_u3_r8 0 R8.E)
    | 0x4 => pureOp m (c.res_u3_r8 0 R8.H)
    | 0x5 => pureOp m (c.res_u3_r8 0 R8.L)
    | 0x6 => c.res_u3_mhl m 0
    | 0x7 => pureOp m (c.res_u3_r8 0 R8.A)
    | 0x8 => pureOp m (c.res_u3_r8 1 R8.B)
    | 0x9 => pureOp m (c.res_u3_r8 1 R8.C)
    | 0xA => pureOp m (c.res_u3_r8 1 R8.D)
    | 0xB => pureOp m (c.res_u3_r8 1 R8.E)
    | 0xC => pureOp m (c.res_u3_r8 1 R8.H)
    | 0xD => pureOp m (c.res_u3_r8 1 R8.L)
    | 0xE => c.res_u3_mhl m 1
    | _ => pureOp m (c.res_u3_r8 1 R8.A)
  | 0x9 =>
    match opc % 16 with
    | 0x0 => pureOp m (c.res_u3_r8 2 R8.B)
    | 0x1 => pureOp m (c.res_u3_r8 2 R8.C)
    | 0x2 => pureOp m (c.res_u3_r8 2 R8.D)
    | 0x3 => pureOp m (c.res_u3_r8 2 R8.E)
    | 0x4 => pureOp m (c.res_u3_r8 2 R8.H)
    | 0x5 => pureOp m (c.res_u3_r8 2 R8.L)
    | 0x6 => c.res_u3_mhl m 2
    | 0x7 => pureOp m (c.res_u3_r8 2 R8.A)
    | 0x8 => pureOp m (c.res_u3_r8 3 R8.B)
    | 0x9 => pureOp m (c.res_u3_r8 3 R8.C)
    | 0xA => pureOp m (c.res_u3_r8 3 R8.D)
    | 0xB => pureOp m (c.res_u3_r8 3 R8.E)
    | 0xC => pureOp m (c.res_u3_r8 3 R8.H)
    | 0xD => pureOp m (c.res_u3_r8 3 R8.L)
    | 0xE => c.res_u3_mhl m 3
    | _ => pureOp m (c.res_u3_r8 3 R8.A)
  | 0xA =>
    match opc % 16 with
    | 0x0 => pureOp m (c.res_u3_r8 4 R8.B)
    | 0x1 => pureOp m (c.res_u3_r8 4 R8.C)
    | 0x2 => pureOp m (c.res_u3_r8 4 R8.D)
    | 0x3 => pureOp m (c.res_u3_r8 4 R8.E)
    | 0x4 => pureOp m (c.res_u3_r8 4 R8.H)
    | 0x5 => pureOp m (c.res_u3_r8 4 R8.L)
    | 0x6 => c.res_u3_mhl m 4
    | 0x7 => pureOp m (c.res_u3_r8 4 R8.A)
    | 0x8 => pureOp m (c.res_u3_r8 5 R8.B)
    | 0x9 => pureOp m (c.res_u3_r8 5 R8.C)
    | 0xA => pureOp m (c.res_u3_r8 5 R8.D)
    | 0xB => pureOp m (c.res_u3_r8 5 R8.E)
    | 0xC => pureOp m (c.res_u3_r8 5 R8.H)
    | 0xD => pureOp m (c.res_u3_r8 5 R8.L)
    | 0xE => c.res_u3_mhl m 5
    | _ => pureOp m (c.res_u3_r8 5 R8.A)
  | 0xB =>
    match opc % 16 with
    | 0x0 => pureOp m (c.res_u3_r8 6 R8.B)
    | 0x1 => pureOp m (c.res_u3_r8 6 R8.C)
    | 0x2 => pureOp m (c.res_u3_r8 6 R8.D)
    | 0x3 => pureOp m (c.res_u3_r8 6 R8.E)
    | 0x4 => pureOp m (c.res_u3_r8 6 R8.H)
    | 0x5 => pureOp m (c.res_u3_r8 6 R8.L)
    | 0x6 => c.res_u3_mhl m 6
    | 0x7 => pureOp m (c.res_u3_r8 6 R8.A)
    | 0x8 => pureOp m (c.res_u3_r8 7 R8.B)
    | 0x9 => pureOp m (c.res_u3_r8 7 R8.C)
    | 0xA => pureOp m (c.res_u3_r8 7 R8.D)
    | 0xB => pureOp m (c.res_u3_r8 7 R8.E)
    | 0xC => pureOp m (c.res_u3_r8 7 R8.H)
    | 0xD => pureOp m (c.res_u3_r8 7 R8.L)
    | 0xE => c.res_u3_mhl m 7
    | _ => pureOp m (c.res_u3_r8 7 R8.A)
  | 0xC =>
    match opc % 16 with
    | 0x0 => pureOp m (c.set_u3_r8 0 R8.B)
    | 0x1 => pureOp m (c.set_u3_r8 0 R8.C)
    | 0x2 => pureOp m (c.set_u3_r8 0 R8.D)
    | 0x3 => pureOp m (c.set_u3_r8 0 R8.E)
    | 0x4 => pureOp m (c.set_u3_r8 0 R8.H)
    | 0x5 => pureOp m (c.set_u3_r8 0 R8.L)
    | 0x6 => c.set_u3_mhl m 0
    | 0x7 => pureOp m (c.set_u3_r8 0 R8.A)
    | 0x8 => pureOp m (c.set_u3_r8 1 R8.B)
    | 0x9 => pureOp m (c.set_u3_r8 1 R8.C)
    | 0xA => pureOp m (c.set_u3_r8 1 R8.D)
    | 0xB => pureOp m (c.set_u3_r8 1 R8.E)
    | 0xC => pureOp m (c.set_u3_r8 1 R8.H)
    | 0xD => pureOp m (c.set_u3_r8 1 R8.L)
    | 0xE => c.set_u3_mhl m 1
    | _ => pureOp m (c.set_u3_r8 1 R8.A)
  | 0xD =>
    match opc % 16 with
    | 0x0 => pureOp m (c.set_u3_r8 2 R8.B)
    | 0x1 => pureOp m (c.set_u3_r8 2 R8.C)
    | 0x2 => pureOp m (c.set_u3_r8 2 R8.D)
    | 0x3 => pureOp m (c.set_u3_r8 2 R8.E)
    | 0x4 => pureOp m (c.set_u3_r8 2 R8.H)
    | 0x5 => pureOp m (c.set_u3_r8 2 R8.L)
    | 0x6 => c.set_u3_mhl m 2
    | 0x7 => pureOp m (c.set_u3_r8 2 R8.A)
    | 0x8 => pureOp m (c.set_u3_r8 3 R8.B)
    | 0x9 => pureOp m (c.set_u3_r8 3 R8.C)
    | 0xA => pureOp m (c.set_u3_r8 3 R8.D)
    | 0xB => pureOp m (c.set_u3_r8 3 R8.E)
    | 0xC => pureOp m (c.set_u3_r8 3 R8.H)
    | 0xD => pureOp m (c.set_u3_r8 3 R8.L)
    | 0xE => c.set_u3_mhl m 3
    | _ => pureOp m (c.set_u3_r8 3 R8.A)
  | 0xE =>
    match opc % 16 with
    | 0x0 => pureOp m (c.set_u3_r8 4 R8.B)
    | 0x1 => pureOp m (c.set_u3_r8 4 R8.C)
    | 0x2 => pureOp m (c.set_u3_r8 4 R8.D)
    | 0x3 => pureOp m (c.set_u3_r8 4 R8.E)
    | 0x4 => pureOp m (c.set_u3_r8 4 R8.H)
    | 0x5 => pureOp m (c.set_u3_r8 4 R8.L)
    | 0x6 => c.set_u3_mhl m 4
    | 0x7 => pureOp m (c.set_u3_r8 4 R8.A)
    | 0x8 => pureOp m (c.set_u3_r8 5 R8.B)
    | 0x9 => pureOp m (c.set_u3_r8 5 R8.C)
    | 0xA => pureOp m (c.set_u3_r8 5 R8.D)
    | 0xB => pureOp m (c.set_u3_r8 5 R8.E)
    | 0xC => pureOp m (c.set_u3_r8 5 R8.H)
    | 0xD => pureOp m (c.set_u3_r8 5 R8.L)
    | 0xE => c.set_u3_mhl m 5
    | _ => pureOp m (c.set_u3_r8 5 R8.A)
  | _ =>
    match opc % 16 with
    | 0x0 => pureOp m (c.set_u3_r8 6 R8.B)
    | 0x1 => pureOp m (c.set_u3_r8 6 R8.C)
    | 0x2 => pureOp m (c.set_u3_r8 6 R8.D)
    | 0x3 => pureOp m (c.set_u3_r8 6 R8.E)
    | 0x4 => pureOp m (c.set_u3_r8 6 R8.H)
    | 0x5 => pureOp m (c.set_u3_r8 6 R8.L)
    | 0x6 => c.set_u3_mhl m 6
    | 0x7 => pureOp m (c.set_u3_r8 6 R8.A)
    | 0x8 => pureOp m (c.set_u3_r8 7 R8.B)
    | 0x9 => pureOp m (c.set_u3_r8 7 R8.C)
    | 0xA => pureOp m (c.set_u3_r8 7 R8.D)
    | 0xB => pureOp m (c.set_u3_r8 7 R8.E)
    | 0xC => pureOp m (c.set_u3_r8 7 R8.H)
    | 0xD => pureOp m (c.set_u3_r8 7 R8.L)
    | 0xE => c.set_u3_mhl m 7
    | _ => pureOp m (c.set_u3_r8 7 R8.A)

/-- `CPU::map_cb_and_execute` (lines 2767-3055): fetch the CB opcode at
PC, advance PC, dispatch in the CB table. -/
def CPU.map_cb_and_execute (c : CPU) (m : MMU) : Option (CPU × MMU × Nat) :=
  match m.rb c.reg_pc with
  | none => none
  | some (opc, m) =>
    let c := { c with reg_pc := wrapping_add16 c.reg_pc 1 }
    CPU.map_cb c m opc

/-- `CPU::map_and_execute` (lines 2486-2762), the 256-entry primary
dispatch table, arm for arm in the source's order, encoded like
`CPU.map_cb` as a two-level match on the opcode's hex digits. -/
def CPU.map_and_execute (c : CPU) (m : MMU) (opc : Nat) : Option (CPU × MMU × Nat) :=
  match opc / 16 with
  | 0x0 =>
    match opc % 16 with
    | 0x0 => pureOp m (c.nop)
    | 0x1 => c.ld_r16_n16 m R16.BC
    | 0x2 => c.ld_mr16_a m R16.BC
    | 0x3 => pureOp m (c.inc_r16 R16.BC)
    | 0x4 => pureOp m (c.inc_r8 R8.B)
    | 0x5 => pureOp m (c.dec_r8 R8.B)
    | 0x6 => c.ld_r8_n8 m R8.B
    | 0x7 => pureOp m (c.rlca)
    | 0x8 => c.ld_mn16_sp m
    | 0x9 => pureOp m (c.add_hl_r16 R16.BC)
    | 0xA => c.ld_a_mr16 m R16.BC
    | 0xB => pureOp m (c.dec_r16 R16.BC)
    | 0xC => pureOp m (c.inc_r8 R8.C)
    | 0xD => pureOp m (c.dec_r8 R8.C)
    | 0xE => c.ld_r8_n8 m R8.C
    | _ => pureOp m (c.rrca)
  | 0x1 =>
    match opc % 16 with
    | 0x0 => pureOp m (c.op_stop)
    | 0x1 => c.ld_r16_n16 m R16.DE
    | 0x2 => c.ld_mr16_a m R16.DE
    | 0x3 => pureOp m (c.inc_r16 R16.DE)
    | 0x4 => pureOp m (c.inc_r8 R8.D)
    | 0x5 => pureOp m (c.dec_r8 R8.D)
    | 0x6 => c.ld_r8_n8 m R8.D
    | 0x7 => pureOp m (c.rla)
    | 0x8 => c.jr_n16 m
    | 0x9 => pureOp m (c.add_hl_r16 R16.DE)
    | 0xA => c.ld_a_mr16 m R16.DE
    | 0xB => pureOp m (c.dec_r16 R16.DE)
    | 0xC => pureOp m (c.inc_r8 R8.E)
    | 0xD => pureOp m (c.dec_r8 R8.E)
    | 0xE => c.ld_r8_n8 m R8.E
    | _ => pureOp m (c.rra)
  | 0x2 =>
    match opc % 16 with
    | 0x0 => c.jr_cc_n16 m CC.NZ
    | 0x1 => c.ld_r16_n16 m R16.HL
    | 0x2 => c.ld_hli_a m
    | 0x3 => pureOp m (c.inc_r16 R16.HL)
    | 0x4 => pureOp m (c.inc_r8 R8.H)
    | 0x5 => pureOp m (c.dec_r8 R8.H)
    | 0x6 => c.ld_r8_n8 m R8.H
    | 0x7 => pureOp m (c.daa)
    | 0x8 => c.jr_cc_n16 m CC.Z
    | 0x9 => pureOp m (c.add_hl_r16 R16.HL)
    | 0xA => c.ld_a_hli m
    | 0xB => pureOp m (c.dec_r16 R16.HL)
    | 0xC => pureOp m (c.inc_r8 R8.L)
    | 0xD => pureOp m (c.dec_r8 R8.L)
    | 0xE => c.ld_r8_n8 m R8.L
    | _ => pureOp m (c.cpl)
  | 0x3 =>
    match opc % 16 with
    | 0x0 => c.jr_cc_n16 m CC.NC
    | 0x1 => c.ld_sp_n16 m
    | 0x2 => c.ld_hld_a m
    | 0x3 => pureOp m (c.inc_sp)
    | 0x4 => c.inc_mhl m
    | 0x5 => c.dec_mhl m
    | 0x6 => c.ld_mhl_n8 m
    | 0x7 => pureOp m (c.scf)
    | 0x8 => c.jr_cc_n16 m CC.C
    | 0x9 => pureOp m (c.add_hl_sp)
    | 0xA => c.ld_a_hld m
    | 0xB => pureOp m (c.dec_sp)
    | 0xC => pureOp m (c.inc_r8 R8.A)
    | 0xD => pureOp m (c.dec_r8 R8.A)
    | 0xE => c.ld_r8_n8 m R8.A
    | _ => pureOp m (c.ccf)
  | 0x4 =>
    match opc % 16 with
    | 0x0 => pureOp m (c.ld_r8_r8 R8.B R8.B)
    | 0x1 => pureOp m (c.ld_r8_r8 R8.B R8.C)
    | 0x2 => pureOp m (c.ld_r8_r8 R8.B R8.D)
    | 0x3 => pureOp m (c.ld_r8_r8 R8.B R8.E)
    | 0x4 => pureOp m (c.ld_r8_r8 R8.B R8.H)
    | 0x5 => pureOp m (c.ld_r8_r8 R8.B R8.L)
    | 0x6 => c.ld_r8_mhl m R8.B
    | 0x7 => pureOp m (c.ld_r8_r8 R8.B R8.A)
    | 0x8 => pureOp m (c.ld_r8_r8 R8.C R8.B)
    | 0x9 => pureOp m (c.ld_r8_r8 R8.C R8.C)
    | 0xA => pureOp m (c.ld_r8_r8 R8.C R8.D)
    | 0xB => pureOp m (c.ld_r8_r8 R8.C R8.E)
    | 0xC => pureOp m (c.ld_r8_r8 R8.C R8.H)
    | 0xD => pureOp m (c.ld_r8_r8 R8.C R8.L)
    | 0xE => c.ld_r8_mhl m R8.C
    | _ => pureOp m (c.ld_r8_r8 R8.C R8.A)
  | 0x5 =>
    match opc % 16 with
    | 0x0 => pureOp m (c.ld_r8_r8 R8.D R8.B)
    | 0x1 => pureOp m (c.ld_r8_r8 R8.D R8.C)
    | 0x2 => pureOp m (c.ld_r8_r8 R8.D R8.D)
    | 0x3 => pureOp m (c.ld_r8_r8 R8.D R8.E)
    | 0x4 => pureOp m (c.ld_r8_r8 R8.D R8.H)
    | 0x5 => pureOp m (c.ld_r8_r8 R8.D R8.L)
    | 0x6 => c.ld_r8_mhl m R8.D
    | 0x7 => pureOp m (c.ld_r8_r8 R8.D R8.A)
    | 0x8 => pureOp m (c.ld_r8_r8 R8.E R8.B)
    | 0x9 => pureOp m (c.ld_r8_r8 R8.E R8.C)
    | 0xA => pureOp m (c.ld_r8_r8 R8.E R8.D)
    | 0xB => pureOp m (c.ld_r8_r8 R8.E R8.E)
    | 0xC => pureOp m (c.ld_r8_r8 R8.E R8.H)
    | 0xD => pureOp m (c.ld_r8_r8 R8.E R8.L)
    | 0xE => c.ld_r8_mhl m R8.E
    | _ => pureOp m (c.ld_r8_r8 R8.E R8.A)
  | 0x6 =>
    match opc % 16 with
    | 0x0 => pureOp m (c.ld_r8_r8 R8.H R8.B)
    | 0x1 => pureOp m (c.ld_r8_r8 R8.H R8.C)
    | 0x2 => pureOp m (c.ld_r8_r8 R8.H R8.D)
    | 0x3 => pureOp m (c.ld_r8_r8 R8.H R8.E)
    | 0x4 => pureOp m (c.ld_r8_r8 R8.H R8.H)
    | 0x5 => pureOp m (c.ld_r8_r8 R8.H R8.L)
    | 0x6 => c.ld_r8_mhl m R8.H
    | 0x7 => pureOp m (c.ld_r8_r8 R8.H R8.A)
    | 0x8 => pureOp m (c.ld_r8_r8 R8.L R8.B)
    | 0x9 => pureOp m (c.ld_r8_r8 R8.L R8.C)
    | 0xA => pureOp m (c.ld_r8_r8 R8.L R8.D)
    | 0xB => pureOp m (c.ld_r8_r8 R8.L R8.E)
    | 0xC => pureOp m (c.ld_r8_r8 R8.L R8.H)
    | 0xD => pureOp m (c.ld_r8_r8 R8.L R8.L)
    | 0xE => c.ld_r8_mhl m R8.L
    | _ => pureOp m (c.ld_r8_r8 R8.L R8.A)
  | 0x7 =>
    match opc % 16 with
    | 0x0 => c.ld_mhl_r8 m R8.B
    | 0x1 => c.ld_mhl_r8 m R8.C
    | 0x2 => c.ld_mhl_r8 m R8.D
    | 0x3 => c.ld_mhl_r8 m R8.E
    | 0x4 => c.ld_mhl_r8 m R8.H
    | 0x5 => c.ld_mhl_r8 m R8.L
    | 0x6 => pureOp m (c.op_halt)
    | 0x7 => c.ld_mhl_r8 m R8.A
    | 0x8 => pureOp m (c.ld_r8_r8 R8.A R8.B)
    | 0x9 => pureOp m (c.ld_r8_r8 R8.A R8.C)
    | 0xA => pureOp m (c.ld_r8_r8 R8.A R8.D)
    | 0xB => pureOp m (c.ld_r8_r8 R8.A R8.E)
    | 0xC => pureOp m (c.ld_r8_r8 R8.A R8.H)
    | 0xD => pureOp m (c.ld_r8_r8 R8.A R8.L)
    | 0xE => c.ld_r8_mhl m R8.A
    | _ => pureOp m (c.ld_r8_r8 R8.A R8.A)
  | 0x8 =>
    match opc % 16 with
    | 0x0 => pureOp m (c.add_a_r8 R8.B)
    | 0x1 => pureOp m (c.add_a_r8 R8.C)
    | 0x2 => pureOp m (c.add_a_r8 R8.D)
    | 0x3 => pureOp m (c.add_a_r8 R8.E)
    | 0x4 => pureOp m (c.add_a_r8 R8.H)
    | 0x5 => pureOp m (c.add_a_r8 R8.L)
    | 0x6 => c.add_a_mhl m
    | 0x7 => pureOp m (c.add_a_r8 R8.A)
    | 0x8 => pureOp m (c.adc_a_r8 R8.B)
    | 0x9 => pureOp m (c.adc_a_r8 R8.C)
    | 0xA => pureOp m (c.adc_a_r8 R8.D)
    | 0xB => pureOp m (c.adc_a_r8 R8.E)
    | 0xC => pureOp m (c.adc_a_r8 R8.H)
    | 0xD => pureOp m (c.adc_a_r8 R8.L)
    | 0xE => c.adc_a_mhl m
    | _ => pureOp m (c.adc_a_r8 R8.A)
  | 0x9 =>
    match opc % 16 with
    | 0x0 => pureOp m (c.sub_a_r8 R8.B)
    | 0x1 => pureOp m (c.sub_a_r8 R8.C)
    | 0x2 => pureOp m (c.sub_a_r8 R8.D)
    | 0x3 => pureOp m (c.sub_a_r8 R8.E)
    | 0x4 => pureOp m (c.sub_a_r8 R8.H)
    | 0x5 => pureOp m (c.sub_a_r8 R8.L)
    | 0x6 => c.sub_a_mhl m
    | 0x7 => pureOp m (c.sub_a_r8 R8.A)
    | 0x8 => pureOp m (c.sbc_a_r8 R8.B)
    | 0x9 => pureOp m (c.sbc_a_r8 R8.C)
    | 0xA => pureOp m (c.sbc_a_r8 R8.D)
    | 0xB => pureOp m (c.sbc_a_r8 R8.E)
    | 0xC => pureOp m (c.sbc_a_r8 R8.H)
    | 0xD => pureOp m (c.sbc_a_r8 R8.L)
    | 0xE => c.sbc_a_mhl m
    | _ => pureOp m (c.sbc_a_r8 R8.A)
  | 0xA =>
    match opc % 16 with
    | 0x0 => pureOp m (c.and_a_r8 R8.B)
    | 0x1 => pureOp m (c.and_a_r8 R8.C)
    | 0x2 => pureOp m (c.and_a_r8 R8.D)
    | 0x3 => pureOp m (c.and_a_r8 R8.E)
    | 0x4 => pureOp m (c.and_a_r8 R8.H)
    | 0x5 => pureOp m (c.and_a_r8 R8.L)
    | 0x6 => c.and_a_mhl m
    | 0x7 => pureOp m (c.and_a_r8 R8.A)
    | 0x8 => pureOp m (c.xor_a_r8 R8.B)
    | 0x9 => pureOp m (c.xor_a_r8 R8.C)
    | 0xA => pureOp m (c.xor_a_r8 R8.D)
    | 0xB => pureOp m (c.xor_a_r8 R8.E)
    | 0xC => pureOp m (c.xor_a_r8 R8.H)
    | 0xD => pureOp m (c.xor_a_r8 R8.L)
    | 0xE => c.xor_a_mhl m
    | _ => pureOp m (c.xor_a_r8 R8.A)
  | 0xB =>
    match opc % 16 with
    | 0x0 => pureOp m (c.or_a_r8 R8.B)
    | 0x1 => pureOp m (c.or_a_r8 R8.C)
    | 0x2 => pureOp m (c.or_a_r8 R8.D)
    | 0x3 => pureOp m (c.or_a_r8 R8.E)
    | 0x4 => pureOp m (c.or_a_r8 R8.H)
    | 0x5 => pureOp m (c.or_a_r8 R8.L)
    | 0x6 => c.or_a_mhl m
    | 0x7 => pureOp m (c.or_a_r8 R8.A)
    | 0x8 => pureOp m (c.cp_a_r8 R8.B)
    | 0x9 => pureOp m (c.cp_a_r8 R8.C)
    | 0xA => pureOp m (c.cp_a_r8 R8.D)
    | 0xB => pureOp m (c.cp_a_r8 R8.E)
    | 0xC => pureOp m (c.cp_a_r8 R8.H)
    | 0xD => pureOp m (c.cp_a_r8 R8.L)
    | 0xE => c.cp_a_mhl m
    | _ => pureOp m (c.cp_a_r8 R8.A)
  | 0xC =>
    match opc % 16 with
    | 0x0 => c.ret_cc m CC.NZ
    | 0x1 => c.pop_r16 m R16.BC
    | 0x2 => c.jp_cc_n16 m CC.NZ
    | 0x3 => c.jp_n16 m
    | 0x4 => c.call_cc_n16 m CC.NZ
    | 0x5 => c.push_r16 m R16.BC
    | 0x6 => c.add_a_n8 m
    | 0x7 => c.rst m RST.RST00
    | 0x8 => c.ret_cc m CC.Z
    | 0x9 => c.ret m
    | 0xA => c.jp_cc_n16 m CC.Z
    | 0xB => CPU.map_cb_and_execute c m
    | 0xC => c.call_cc_n16 m CC.Z
    | 0xD => c.call_n16 m
    | 0xE => c.adc_a_n8 m
    | _ => c.rst m RST.RST08
  | 0xD =>
    match opc % 16 with
    | 0x0 => c.ret_cc m CC.NC
    | 0x1 => c.pop_r16 m R16.DE
    | 0x2 => c.jp_cc_n16 m CC.NC
    | 0x3 => pureOp m (c.xx)
    | 0x4 => c.call_cc_n16 m CC.NC
    | 0x5 => c.push_r16 m R16.DE
    | 0x6 => c.sub_a_n8 m
    | 0x7 => c.rst m RST.RST10
    | 0x8 => c.ret_cc m CC.C
    | 0x9 => c.reti m
    | 0xA => c.jp_cc_n16 m CC.C
    | 0xB => pureOp m (c.xx)
    | 0xC => c.call_cc_n16 m CC.C
    | 0xD => pureOp m (c.xx)
    | 0xE => c.sbc_a_n8 m
    | _ => c.rst m RST.RST18
  | 0xE =>
    match opc % 16 with
    | 0x0 => c.ldh_mn16_a m
    | 0x1 => c.pop_r16 m R16.HL
    | 0x2 => c.ldh_mc_a m
    | 0x3 => pureOp m (c.xx)
    | 0x4 => pureOp m (c.xx)
    | 0x5 => c.push_r16 m R16.HL
    | 0x6 => c.and_a_n8 m
    | 0x7 => c.rst m RST.RST20
    | 0x8 => c.add_sp_e8 m
    | 0x9 => pureOp m (c.jp_mhl)
    | 0xA => c.ld_mn16_a m
    | 0xB => pureOp m (c.xx)
    | 0xC => pureOp m (c.xx)
    | 0xD => pureOp m (c.xx)
    | 0xE => c.xor_a_n8 m
    | _ => c.rst m RST.RST28
  | _ =>
    match opc % 16 with
    | 0x0 => c.ldh_a_mn16 m
    | 0x1 => c.pop_af m
    | 0x2 => c.ldh_a_mc m
    | 0x3 => pureOp m (c.di)
    | 0x4 => pureOp m (c.xx)
    | 0x5 => c.push_af m
    | 0x6 => c.or_a_n8 m
    | 0x7 => c.rst m RST.RST30
    | 0x8 => c.ld_hl_spe8 m
    | 0x9 => pureOp m (c.ld_sp_hl)
    | 0xA => c.ld_a_mn16 m
    | 0xB => pureOp m (c.ei)
    | 0xC => pureOp m (c.xx)
    | 0xD => pureOp m (c.xx)
    | 0xE => c.cp_a_n8 m
    | _ => c.rst m RST.RST38

/-- The clock update and return at the end of `CPU::exec` (lines
246-249).  Note the source assigns
`clock_t = clock_m.wrapping_add(cycles_t)` reading the just-updated
`clock_m`. -/
def CPU.exec_finish (c : CPU) (m : MMU) (cycles cycles_t : Nat) :
    Option ((Nat × Nat) × CPU × MMU) :=
  let cm := (c.clock_m + cycles) % 4294967296
  let ct := (cm + cycles_t) % 4294967296
  some ((cycles, cycles_t), { c with clock_m := cm, clock_t := ct }, m)

/-- The `if ... else if ...` interrupt chain of `CPU::exec`
(lines 218-239): pick the lowest-bit pending interrupt, clear its IF bit,
clear IME, and run the corresponding RST. -/
def CPU.int_dispatch (c : CPU) (m : MMU) (i_e i_f : Nat) : Option (CPU × MMU) :=
  if 0 < i_e &&& i_f &&& FLAG_INT_VBLANK then
    match m.wb REG_INTERRUPTS (i_f &&& (255 ^^^ FLAG_INT_VBLANK)) with
    | none => none
    | some m =>
      match CPU.rst { c with ime := false } m RST.RST40 with
      | none => none
      | some (c, m, _) => some (c, m)
  else if 0 < i_e &&& i_f &&& FLAG_INT_LCD_STAT then
    match m.wb REG_INTERRUPTS (i_f &&& (255 ^^^ FLAG_INT_LCD_STAT)) with
    | none => none
    | some m =>
      match CPU.rst { c with ime := false } m RST.RST48 with
      | none => none
      | some (c, m, _) => some (c, m)
  else if 0 < i_e &&& i_f &&& FLAG_INT_TIMER then
    match m.wb REG_INTERRUPTS (i_f &&& (255 ^^^ FLAG_INT_TIMER)) with
    | none => none
    | some m =>
      match CPU.rst { c with ime := false } m RST.RST50 with
      | none => none
      | some (c, m, _) => some (c, m)
  else if 0 < i_e &&& i_f &&& FLAG_INT_SERIAL then
    match m.wb REG_INTERRUPTS (i_f &&& (255 ^^^ FLAG_INT_SERIAL)) with
    | none => none
    | some m =>
      match CPU.rst { c with ime := false } m RST.RST58 with
      | none => none
      | some (c, m, _) => some (c, m)
  else if 0 < i_e &&& i_f &&& FLAG_INT_JOYP then
    match m.wb REG_INTERRUPTS (i_f &&& (255 ^^^ FLAG_INT_JOYP)) with
    | none => none
    | some m =>
      match CPU.rst { c with ime := false } m RST.RST60 with
      | none => none
      | some (c, m, _) => some (c, m)
  else
    some (c, m)

/-- `CPU::exec` (lines 195-250): clear `in_bios` at PC = 0x100, fetch,
advance PC (16-bit wrap), dispatch, then — if IME is set and
`IE & IF` is nonzero — dispatch one interrupt and charge 5 m / 20 T
extra.  Returns `((m_cycles, t_cycles), cpu, mmu)`, or `none` when a
memory access panics.  (The `DEBUG_GB_DOCTOR` trace print is omitted:
the flag is false.) -/
def CPU.exec (c : CPU) (m : MMU) : Option ((Nat × Nat) × CPU × MMU) :=
  let m := if m.in_bios ∧ c.reg_pc = 0x100 then { m with in_bios := false } else m
  match m.rb c.reg_pc with
  | none => none
  | some (opc, m) =>
    let c := { c with reg_pc := wrapping_add16 c.reg_pc 1 }
    match CPU.map_and_execute c m opc with
    | none => none
    | some (c, m, cycles) =>
      let cycles_t := cycles * 4
      if c.ime then
        match m.rb 0xFFFF with
        | none => none
        | some (i_e, m) =>
          match m.rb REG_INTERRUPTS with
          | none => none
          | some (i_f, m) =>
            if 0 < i_e &&& i_f then
              match CPU.int_dispatch c m i_e i_f with
              | none => none
              | some (c, m) => CPU.exec_finish c m (cycles + 5) (cycles_t + 20)
            else
              CPU.exec_finish c m cycles cycles_t
      else
        CPU.exec_finish c m cycles cycles_t

/-!
### Preservation of the low nibble of F

Every write to `reg_f` in cpu.rs goes through `set_flags` (which only
touches the four high-nibble mask bits), through `ccf`'s xor with
`FLAG_CARRY`, or through `pop_af`'s mask with `0b11110000`; hence the low
nibble of F, once zero, stays zero across every instruction.  The lemmas
below record this handler by handler and culminate in
`exec_preserves_f_low_nibble`.
-/

/-- A CPU state poised at a NOP in work RAM (PC = 0xC000, `mmuZ` is all
zeros), used as the concrete witness state. -/
def cpuW : CPU := { new_cpu with reg_pc := 0xC000 }

/-- A CPU state with HL = 0xC000 (work RAM) and PC = 0xC000, used as a
concrete operand source for the (HL)/n8 ALU handlers. -/
def cpu8 : CPU := { new_cpu with reg_a := 3, reg_h := 0xC0, reg_l := 0, reg_pc := 0xC000 }

/-!
## Theorems
-/

/-!
## Theorems
-/

/-- C1, counter-evidence: `rw` reads the byte at `addr` twice instead of
forming the little-endian word from `addr` and `addr + 1`.  With
mem[0xC000] = 0x01 and mem[0xC001] = 0x02, `rw(0xC000)` returns
0x0101 = 257, whereas the little-endian word `rb(addr) + 256*rb(addr+1)`
is 0x0201 = 513. -/
theorem rw_reads_low_byte_twice :
    MMU.rw mmuC1 0xC000 = some (257, mmuC1) ∧
    MMU.rb mmuC1 0xC000 = some (1, mmuC1) ∧
    MMU.rb mmuC1 0xC001 = some (2, mmuC1) ∧
    257 ≠ 1 + 256 * 2 := by
  refine ⟨rfl, rfl, rfl, by decide⟩

/-- C2, counter-evidence: memory access is not total.  For every MMU
state, reading any OAM byte (here 0xFE00) panics (`s_info` is indexed at
`addr - 0xFEFF`, which underflows), and writing any I/O register (here
LY = 0xFF44) panics (`z_ram` is indexed at `addr - 0xFF80`, which
underflows because the `addr < 0xFF80` guard does not return). -/
theorem rb_wb_panic_on_oam_and_io :
    ∀ m : MMU, MMU.rb m 0xFE00 = none ∧
      MMU.wb m 0xFF44 0 = none ∧
      MMU.wb m 0xFF00 0x30 = none := by
  intro m
  refine ⟨rfl, rfl, rfl⟩

/-- C3, counter-evidence: the interrupt-flag register IF (0xFF0F) is not
backed by any storage.  Reading it always yields 0 (so `IE & IF` is 0 and
`CPU::exec` never dispatches an interrupt), and any attempt to set it,
e.g. `wb(0xFF0F, 0x1F)`, panics in the underflowing `z_ram` write.
Consequently, even with IE = 0x1F stored at 0xFFFF and IME = 1, `exec`
of a NOP charges exactly (1 m, 4 T) — no interrupt (no +5 m) is ever
dispatched. -/
theorem if_register_unbacked :
    (∀ (m : MMU) (v : Nat),
      MMU.rb m 0xFF0F = some (0, m) ∧ MMU.wb m 0xFF0F v = none) ∧
    Option.map (fun o => o.1) (CPU.exec cpuW mmuIE) = some (1, 4) := by
  refine ⟨fun m v => ⟨rfl, rfl⟩, rfl⟩

/-- C4, counter-evidence: the echo mapping is broken for
`a ∈ [0xD000, 0xDDFF]`.  Reads and writes at `0xF000..=0xFDFF` index
`w_ram[addr - 0xF000]` instead of `w_ram[addr - 0xE000]`, so after
`wb(0xD000, 5)` the echo read `rb(0xF000)` returns 0, and after
`wb(0xF000, 7)` the read `rb(0xD000)` returns 0 (the write landed on
0xC000 instead). -/
theorem echo_broken_at_D000 :
    MMU.wb mmuZ 0xD000 5 = some mmuD ∧
    MMU.rb mmuD 0xF000 = some (0, mmuD) ∧
    MMU.rb mmuD 0xD000 = some (5, mmuD) ∧
    MMU.wb mmuZ 0xF000 7 = some mmuE ∧
    MMU.rb mmuE 0xD000 = some (0, mmuE) ∧
    MMU.rb mmuE 0xC000 = some (7, mmuE) := by
  refine ⟨rfl, rfl, rfl, rfl, rfl, rfl⟩

/-!
## GPU (src/gameboy/gpu.rs)
-/

theorem GpuMachine.runAux_add (d a b : Nat) (p : GpuMachine × Nat) :
    GpuMachine.runAux d (a + b) p = GpuMachine.runAux d b (GpuMachine.runAux d a p) := by
  induction a generalizing p with
  | zero => simp [GpuMachine.runAux]
  | succ n ih =>
    rw [Nat.succ_add]
    show GpuMachine.runAux d (n + b) _ = _
    rw [ih]
    rfl

theorem GpuMachine.runAux_shift (d n : Nat) (s : GpuMachine) (e : Nat) :
    GpuMachine.runAux d n (s, e) =
      ((GpuMachine.runAux d n (s, 0)).1, e + (GpuMachine.runAux d n (s, 0)).2) := by
  induction n generalizing s e with
  | zero => simp [GpuMachine.runAux]
  | succ n ih =>
    show GpuMachine.runAux d n _ = _
    rw [ih]
    conv_rhs => rw [show GpuMachine.runAux d (n + 1) (s, 0) =
      GpuMachine.runAux d n ((GpuMachine.step s d).1, 0 + (GpuMachine.step s d).2) from rfl]
    rw [ih ((GpuMachine.step s d).1) (0 + (GpuMachine.step s d).2)]
    simp [Nat.add_assoc]

theorem GpuMachine.run_add (s : GpuMachine) (d a b : Nat) :
    GpuMachine.run s d (a + b) =
      ((GpuMachine.run (GpuMachine.run s d a).1 d b).1,
        (GpuMachine.run s d a).2 + (GpuMachine.run (GpuMachine.run s d a).1 d b).2) := by
  unfold GpuMachine.run
  rw [GpuMachine.runAux_add]
  rw [show GpuMachine.runAux d a (s, 0) =
    ((GpuMachine.runAux d a (s, 0)).1, (GpuMachine.runAux d a (s, 0)).2) from rfl]
  rw [GpuMachine.runAux_shift]

/-- Chaining helper: split a long constant-delta run into two runs. -/
theorem GpuMachine.run_chain {s s' t : GpuMachine} {d a b n e1 e2 e : Nat}
    (hn : n = a + b) (h1 : GpuMachine.run s d a = (s', e1))
    (h2 : GpuMachine.run s' d b = (t, e2)) (he : e = e1 + e2) :
    GpuMachine.run s d n = (t, e) := by
  subst hn he
  rw [GpuMachine.run_add, h1]
  simp [h2]

/-- LCDC (0xFF40) always reads as 0 through the MMU (the I/O region is
not backed by storage), so `renderscan` never sees any control bit set. -/
theorem rb_lcdc_zero (m : MMU) : MMU.rb m 0xFF40 = some (0, m) := rfl

/-- `renderscan` is a no-op: since LCDC reads as 0, both the background
branch and the sprite branch are skipped, the framebuffer and the MMU are
returned unchanged, and no panic can occur. -/
theorem renderscan_is_noop (m : MMU) (fb : Nat → Nat) (line : Nat) :
    GPU.renderscan m fb line = some (fb, m) := rfl

/-- The trailing LY write `mmu.wb(0xFF44, line)` of `GPU::step` panics
for every MMU state (cf. `rb_wb_panic_on_oam_and_io`). -/
theorem step_finish_none (g : GPU) (m : MMU) : GPU.step_finish g m = none := rfl

/-- `GPU.step` emits exactly the frames of the timing machine and then
always fails in the trailing LY write. -/
theorem step_agrees_with_machine (g : GPU) (m : MMU) (d : Nat) :
    GPU.step g m d =
      ((GpuMachine.step ⟨g.mode, g.mode_clock, g.line⟩ d).2, none) := by
  obtain ⟨mo, c, l, fb⟩ := g
  cases mo <;>
    simp only [GPU.step, GpuMachine.step, renderscan_is_noop, step_finish_none] <;>
    split <;>
    first
      | rfl
      | (split <;> rfl)

set_option maxRecDepth 100000 in
/-- One full period of the timing machine: starting from the `new_gpu`
state, 17556 steps of 4 T-cycles (= 70224 T-cycles) return to the start
state and send exactly one frame. -/
theorem gm_period : GpuMachine.run gm0 4 17556 = (gm0, 1) := by
  have h01 : GpuMachine.run gm0 4 500 = (⟨Mode.HBlank, 176, 4⟩, 0) := by decide
  have h02 : GpuMachine.run ⟨Mode.HBlank, 176, 4⟩ 4 500 = (⟨Mode.ScVram, 68, 9⟩, 0) := by decide
  have h03 : GpuMachine.run ⟨Mode.ScVram, 68, 9⟩ 4 500 = (⟨Mode.HBlank, 72, 13⟩, 0) := by decide
  have h04 : GpuMachine.run ⟨Mode.HBlank, 72, 13⟩ 4 500 = (⟨Mode.ScOam, 44, 18⟩, 0) := by decide
  have h05 : GpuMachine.run ⟨Mode.ScOam, 44, 18⟩ 4 500 = (⟨Mode.ScVram, 140, 22⟩, 0) := by decide
  have h06 : GpuMachine.run ⟨Mode.ScVram, 140, 22⟩ 4 500 = (⟨Mode.HBlank, 144, 26⟩, 0) := by decide
  have h07 : GpuMachine.run ⟨Mode.HBlank, 144, 26⟩ 4 500 = (⟨Mode.ScVram, 36, 31⟩, 0) := by decide
  have h08 : GpuMachine.run ⟨Mode.ScVram, 36, 31⟩ 4 500 = (⟨Mode.HBlank, 40, 35⟩, 0) := by decide
  have h09 : GpuMachine.run ⟨Mode.HBlank, 40, 35⟩ 4 500 = (⟨Mode.ScOam, 12, 40⟩, 0) := by decide
  have h10 : GpuMachine.run ⟨Mode.ScOam, 12, 40⟩ 4 500 = (⟨Mode.ScVram, 108, 44⟩, 0) := by decide
  have h11 : GpuMachine.run ⟨Mode.ScVram, 108, 44⟩ 4 500 = (⟨Mode.HBlank, 112, 48⟩, 0) := by decide
  have h12 : GpuMachine.run ⟨Mode.HBlank, 112, 48⟩ 4 500 = (⟨Mode.ScVram, 4, 53⟩, 0) := by decide
  have h13 : GpuMachine.run ⟨Mode.ScVram, 4, 53⟩ 4 500 = (⟨Mode.HBlank, 8, 57⟩, 0) := by decide
  have h14 : GpuMachine.run ⟨Mode.HBlank, 8, 57⟩ 4 500 = (⟨Mode.HBlank, 184, 61⟩, 0) := by decide
  have h15 : GpuMachine.run ⟨Mode.HBlank, 184, 61⟩ 4 500 = (⟨Mode.ScVram, 76, 66⟩, 0) := by decide
  have h16 : GpuMachine.run ⟨Mode.ScVram, 76, 66⟩ 4 500 = (⟨Mode.HBlank, 80, 70⟩, 0) := by decide
  have h17 : GpuMachine.run ⟨Mode.HBlank, 80, 70⟩ 4 500 = (⟨Mode.ScOam, 52, 75⟩, 0) := by decide
  have h18 : GpuMachine.run ⟨Mode.ScOam, 52, 75⟩ 4 500 = (⟨Mode.ScVram, 148, 79⟩, 0) := by decide
  have h19 : GpuMachine.run ⟨Mode.ScVram, 148, 79⟩ 4 500 = (⟨Mode.HBlank, 152, 83⟩, 0) := by decide
  have h20 : GpuMachine.run ⟨Mode.HBlank, 152, 83⟩ 4 500 = (⟨Mode.ScVram, 44, 88⟩, 0) := by decide
  have h21 : GpuMachine.run ⟨Mode.ScVram, 44, 88⟩ 4 500 = (⟨Mode.HBlank, 48, 92⟩, 0) := by decide
  have h22 : GpuMachine.run ⟨Mode.HBlank, 48, 92⟩ 4 500 = (⟨Mode.ScOam, 20, 97⟩, 0) := by decide
  have h23 : GpuMachine.run ⟨Mode.ScOam, 20, 97⟩ 4 500 = (⟨Mode.ScVram, 116, 101⟩, 0) := by decide
  have h24 : GpuMachine.run ⟨Mode.ScVram, 116, 101⟩ 4 500 = (⟨Mode.HBlank, 120, 105⟩, 0) := by decide
  have h25 : GpuMachine.run ⟨Mode.HBlank, 120, 105⟩ 4 500 = (⟨Mode.ScVram, 12, 110⟩, 0) := by decide
  have h26 : GpuMachine.run ⟨Mode.ScVram, 12, 110⟩ 4 500 = (⟨Mode.HBlank, 16, 114⟩, 0) := by decide
  have h27 : GpuMachine.run ⟨Mode.HBlank, 16, 114⟩ 4 500 = (⟨Mode.HBlank, 192, 118⟩, 0) := by decide
  have h28 : GpuMachine.run ⟨Mode.HBlank, 192, 118⟩ 4 500 = (⟨Mode.ScVram, 84, 123⟩, 0) := by decide
  have h29 : GpuMachine.run ⟨Mode.ScVram, 84, 123⟩ 4 500 = (⟨Mode.HBlank, 88, 127⟩, 0) := by decide
  have h30 : GpuMachine.run ⟨Mode.HBlank, 88, 127⟩ 4 500 = (⟨Mode.ScOam, 60, 132⟩, 0) := by decide
  have h31 : GpuMachine.run ⟨Mode.ScOam, 60, 132⟩ 4 500 = (⟨Mode.ScVram, 156, 136⟩, 0) := by decide
  have h32 : GpuMachine.run ⟨Mode.ScVram, 156, 136⟩ 4 500 = (⟨Mode.HBlank, 160, 140⟩, 0) := by decide
  have h33 : GpuMachine.run ⟨Mode.HBlank, 160, 140⟩ 4 500 = (⟨Mode.VBlank, 132, 145⟩, 1) := by decide
  have h34 : GpuMachine.run ⟨Mode.VBlank, 132, 145⟩ 4 500 = (⟨Mode.VBlank, 308, 149⟩, 0) := by decide
  have h35 : GpuMachine.run ⟨Mode.VBlank, 308, 149⟩ 4 500 = (⟨Mode.ScOam, 28, 0⟩, 0) := by decide
  have h36 : GpuMachine.run ⟨Mode.ScOam, 28, 0⟩ 4 56 = (gm0, 0) := by decide
  exact GpuMachine.run_chain rfl h01 (GpuMachine.run_chain rfl h02 (GpuMachine.run_chain rfl h03 (GpuMachine.run_chain rfl h04 (GpuMachine.run_chain rfl h05 (GpuMachine.run_chain rfl h06 (GpuMachine.run_chain rfl h07 (GpuMachine.run_chain rfl h08 (GpuMachine.run_chain rfl h09 (GpuMachine.run_chain rfl h10 (GpuMachine.run_chain rfl h11 (GpuMachine.run_chain rfl h12 (GpuMachine.run_chain rfl h13 (GpuMachine.run_chain rfl h14 (GpuMachine.run_chain rfl h15 (GpuMachine.run_chain rfl h16 (GpuMachine.run_chain rfl h17 (GpuMachine.run_chain rfl h18 (GpuMachine.run_chain rfl h19 (GpuMachine.run_chain rfl h20 (GpuMachine.run_chain rfl h21 (GpuMachine.run_chain rfl h22 (GpuMachine.run_chain rfl h23 (GpuMachine.run_chain rfl h24 (GpuMachine.run_chain rfl h25 (GpuMachine.run_chain rfl h26 (GpuMachine.run_chain rfl h27 (GpuMachine.run_chain rfl h28 (GpuMachine.run_chain rfl h29 (GpuMachine.run_chain rfl h30 (GpuMachine.run_chain rfl h31 (GpuMachine.run_chain rfl h32 (GpuMachine.run_chain rfl h33 (GpuMachine.run_chain rfl h34 (GpuMachine.run_chain rfl h35 h36 rfl) rfl) rfl) rfl) rfl) rfl) rfl) rfl) rfl) rfl) rfl) rfl) rfl) rfl) rfl) rfl) rfl) rfl) rfl) rfl) rfl) rfl) rfl) rfl) rfl) rfl) rfl) rfl) rfl) rfl) rfl) rfl) rfl) rfl) rfl

/-- C5, counter-evidence: after the HBlank in which `line` becomes 143
(not 144), the machine enters VBlank and one frame is sent. -/
theorem vblank_entry_counterexample :
    GpuMachine.step ⟨Mode.HBlank, 0, 142⟩ 204 = (⟨Mode.VBlank, 0, 143⟩, 1) ∧
    (143 : Nat) ≠ 144 := by
  exact ⟨by decide, by decide⟩

/-- C5, amended: the PPU enters VBlank exactly when `line` becomes 143
(the HBlank that follows rendering scanline 142); a frame is sent exactly
at that entry; and `GPU::step` never completes (its trailing LY write
panics), so in particular no interrupt flag is ever set — gpu.rs contains
no write to IF (0xFF0F) at all. -/
theorem vblank_entry_at_143_with_frame :
    (∀ (s : GpuMachine) (d : Nat),
      (((GpuMachine.step s d).1.mode = Mode.VBlank ∧ s.mode ≠ Mode.VBlank) ↔
        (s.mode = Mode.HBlank ∧ 204 ≤ (s.mode_clock + d) % 4294967296 ∧
          (s.line + 1) % 256 = 143)) ∧
      ((GpuMachine.step s d).2 = 1 ↔
        (s.mode = Mode.HBlank ∧ 204 ≤ (s.mode_clock + d) % 4294967296 ∧
          (s.line + 1) % 256 = 143))) ∧
    (∀ (g : GPU) (m : MMU) (d : Nat), (GPU.step g m d).2 = none) := by
  constructor
  · intro s d
    obtain ⟨mo, c, l⟩ := s
    cases mo with
    | ScOam =>
      by_cases h : 80 ≤ (c + d) % 4294967296 <;> simp [GpuMachine.step, h]
    | ScVram =>
      by_cases h : 172 ≤ (c + d) % 4294967296 <;> simp [GpuMachine.step, h]
    | HBlank =>
      by_cases h1 : 204 ≤ (c + d) % 4294967296
      · by_cases h2 : (l + 1) % 256 = 143 <;> simp [GpuMachine.step, h1, h2]
      · simp [GpuMachine.step, h1]
    | VBlank =>
      by_cases h1 : 456 ≤ (c + d) % 4294967296
      · by_cases h2 : 153 < (l + 1) % 256 <;> simp [GpuMachine.step, h1, h2]
      · simp [GpuMachine.step, h1]
  · intro g m d
    rw [step_agrees_with_machine]

set_option maxRecDepth 100000 in
/-- C6, counter-evidence.  Two refutations of the exact frame cadence:
(1) a sequence of 2926 steps, each advancing 24 T-cycles (the length of a
CALL instruction), sums to exactly 70224 T-cycles but sends 0 frames (the
residual cycles past each mode boundary are discarded when `mode_clock`
is reset to 0, so the machine falls behind); (2) through the real
interface, `GPU.step` never even completes: every call panics in the
trailing LY write, so no engine run can deliver frames at all. -/
theorem frame_cadence_counterexample :
    (GpuMachine.run gm0 24 2926).2 = 0 ∧ 2926 * 24 = 70224 ∧
    GPU.step new_gpu mmuZ 4 = (0, none) := by
  have k1 : GpuMachine.run gm0 24 500 = (⟨Mode.ScVram, 96, 24⟩, 0) := by decide
  have k2 : GpuMachine.run ⟨Mode.ScVram, 96, 24⟩ 24 500 = (⟨Mode.ScVram, 0, 48⟩, 0) := by decide
  have k3 : GpuMachine.run ⟨Mode.ScVram, 0, 48⟩ 24 500 = (⟨Mode.ScOam, 0, 72⟩, 0) := by decide
  have k4 : GpuMachine.run ⟨Mode.ScOam, 0, 72⟩ 24 500 = (⟨Mode.HBlank, 120, 95⟩, 0) := by decide
  have k5 : GpuMachine.run ⟨Mode.HBlank, 120, 95⟩ 24 500 = (⟨Mode.HBlank, 24, 119⟩, 0) := by decide
  have k6 : GpuMachine.run ⟨Mode.HBlank, 24, 119⟩ 24 426 = (⟨Mode.HBlank, 168, 139⟩, 0) := by decide
  have hrun : GpuMachine.run gm0 24 2926 = (⟨Mode.HBlank, 168, 139⟩, 0) :=
    GpuMachine.run_chain rfl k1 (GpuMachine.run_chain rfl k2 (GpuMachine.run_chain rfl k3
      (GpuMachine.run_chain rfl k4 (GpuMachine.run_chain rfl k5 k6 rfl) rfl) rfl) rfl) rfl
  refine ⟨by rw [hrun], by decide, ?_⟩
  rw [step_agrees_with_machine]
  rfl

/-- C6, amended: no frame is ever delivered through `GPU::step` (every
call panics in the trailing LY write); on the timing machine in isolation
the 70224-T-cycle cadence holds exactly for boundary-exact sequences:
with a constant per-call `delta_t` of 4 T-cycles, exactly `k` frames are
sent per `70224 * k` T-cycles of progress. -/
theorem frame_cadence_amended :
    (∀ (g : GPU) (m : MMU) (d : Nat), (GPU.step g m d).2 = none) ∧
    (∀ k : Nat, GpuMachine.run gm0 4 (17556 * k) = (gm0, k)) ∧
    17556 * 4 = 70224 := by
  refine ⟨fun g m d => by rw [step_agrees_with_machine], ?_, by decide⟩
  intro k
  induction k with
  | zero => rfl
  | succ n ih =>
    have h : 17556 * (n + 1) = 17556 * n + 17556 := by ring
    rw [h]
    exact GpuMachine.run_chain rfl ih gm_period rfl

/-- C10, counter-evidence: with an OAM entry at X-position 7 (< 8)
intersecting scanline 0, `renderscan` does not panic at all — it returns
the framebuffer and MMU unchanged, because LCDC (0xFF40) always reads as
0 through the MMU, so the sprite branch (and the negative-X framebuffer
offset computation inside it) is never reached. -/
theorem sprite_offscreen_no_fb_panic :
    GPU.renderscan mmuSpr (fun _ => 0) 0 = some (fun _ => 0, mmuSpr) ∧
    MMU.rb mmuSpr 0xFF40 = some (0, mmuSpr) ∧
    mmuSpr.s_info 1 = 7 ∧ mmuSpr.s_info 0 = 16 := by
  exact ⟨rfl, rfl, rfl, rfl⟩

/-- C10, amended: the sprite path of `renderscan` is unreachable, since
the LCDC read that guards it always yields 0; `renderscan` is total and
leaves the framebuffer and MMU untouched for every input.  (The panic
that does occur at the public PPU interface is the trailing LY write of
`GPU::step`; and had the sprite loop ever been entered, its very first
OAM read through `MMU::rb` would panic before any framebuffer offset is
computed.) -/
theorem renderscan_sprites_unreachable :
    (∀ (m : MMU) (fb : Nat → Nat) (line : Nat),
      GPU.renderscan m fb line = some (fb, m)) ∧
    (∀ m : MMU, MMU.rb m 0xFF40 = some (0, m)) ∧
    (∀ (m : MMU) (i : Nat), MMU.rb m (0xFE00 + (i % 40) * 4) = none) := by
  refine ⟨fun m fb line => rfl, fun m => rfl, fun m i => ?_⟩
  have h : i % 40 < 40 := Nat.mod_lt _ (by decide)
  unfold MMU.rb
  have h1 : ¬ (0xFE00 + (i % 40) * 4 < 0x1000) := by omega
  have h2 : ¬ (0xFE00 + (i % 40) * 4 < 0x4000) := by omega
  have h3 : ¬ (0xFE00 + (i % 40) * 4 < 0x8000) := by omega
  have h4 : ¬ (0xFE00 + (i % 40) * 4 < 0xA000) := by omega
  have h5 : ¬ (0xFE00 + (i % 40) * 4 < 0xC000) := by omega
  have h6 : ¬ (0xFE00 + (i % 40) * 4 < 0xE000) := by omega
  have h7 : ¬ (0xFE00 + (i % 40) * 4 < 0xF000) := by omega
  have h8 : ¬ (0xFE00 + (i % 40) * 4 < 0xFE00) := by omega
  have h9 : 0xFE00 + (i % 40) * 4 < 0xFF00 := by omega
  have h10 : 0xFE00 + (i % 40) * 4 < 0xFEA0 := by omega
  simp [h1, h2, h3, h4, h5, h6, h7, h8, h9, h10]

/-!
## CPU (src/gameboy/cpu.rs)
-/

theorem and15_lor (a b : Nat) : (a ||| b) &&& 15 = (a &&& 15) ||| (b &&& 15) := by
  apply Nat.eq_of_testBit_eq
  intro i
  simp [Nat.testBit_land, Nat.testBit_lor, Bool.and_or_distrib_right]

theorem and15_xor (a b : Nat) : (a ^^^ b) &&& 15 = (a &&& 15) ^^^ (b &&& 15) := by
  apply Nat.eq_of_testBit_eq
  intro i
  simp [Nat.testBit_land, Nat.testBit_xor]
  cases Nat.testBit a i <;> cases Nat.testBit b i <;> cases Nat.testBit 15 i <;> simp

theorem apply_flag_low (f mask : Nat) (s : SetFlag)
    (h0 : mask &&& 15 = 0) (h1 : (255 ^^^ mask) &&& 15 = 15) :
    apply_flag f mask s &&& 15 = f &&& 15 := by
  cases s with
  | LEAVE => rfl
  | ON => rw [apply_flag, and15_lor, h0]; simp
  | OFF => rw [apply_flag, Nat.land_assoc, h1]

/-- `set_flags` never touches the low nibble of F. -/
theorem set_flags_low (c : CPU) (z cy h s : SetFlag) :
    (CPU.set_flags c z cy h s).reg_f &&& 15 = c.reg_f &&& 15 := by
  show apply_flag _ FLAG_SUB s &&& 15 = _
  rw [apply_flag_low _ _ _ (by decide) (by decide),
    apply_flag_low _ _ _ (by decide) (by decide),
    apply_flag_low _ _ _ (by decide) (by decide),
    apply_flag_low _ _ _ (by decide) (by decide)]

theorem getF_setR8 (c : CPU) (r : R8) (v : Nat) : (CPU.setR8 c r v).reg_f = c.reg_f := by
  cases r <;> rfl

theorem getF_setR16 (c : CPU) (r : R16) (v : Nat) : (CPU.setR16 c r v).reg_f = c.reg_f := by
  cases r <;> rfl

theorem getF_incHL (c : CPU) : (CPU.incHL c).reg_f = c.reg_f := by
  simp only [CPU.incHL]
  split <;> simp

theorem getF_decHL (c : CPU) : (CPU.decHL c).reg_f = c.reg_f := by
  simp only [CPU.decHL]
  split <;> simp

theorem and240_low (v : Nat) : (v &&& 240) &&& 15 = 0 := by
  rw [Nat.land_assoc, show (240 &&& 15 : Nat) = 0 from rfl]
  simp

theorem adc_core_low (c : CPU) (v : Nat) :
    (CPU.adc_core c v).reg_f &&& 15 = c.reg_f &&& 15 := by
  unfold CPU.adc_core
  rw [set_flags_low]

theorem add_core_low (c : CPU) (v : Nat) :
    (CPU.add_core c v).reg_f &&& 15 = c.reg_f &&& 15 := by
  unfold CPU.add_core
  rw [set_flags_low]

theorem add_hl_core_low (c : CPU) (v : Nat) :
    (CPU.add_hl_core c v).reg_f &&& 15 = c.reg_f &&& 15 := by
  unfold CPU.add_hl_core
  rw [set_flags_low]

theorem and_core_low (c : CPU) (v : Nat) :
    (CPU.and_core c v).reg_f &&& 15 = c.reg_f &&& 15 := by
  unfold CPU.and_core
  rw [set_flags_low]

theorem cp_core_low (c : CPU) (v : Nat) :
    (CPU.cp_core c v).reg_f &&& 15 = c.reg_f &&& 15 := by
  unfold CPU.cp_core
  rw [set_flags_low]

theorem or_core_low (c : CPU) (v : Nat) :
    (CPU.or_core c v).reg_f &&& 15 = c.reg_f &&& 15 := by
  unfold CPU.or_core
  rw [set_flags_low]

theorem sbc_core_low (c : CPU) (v : Nat) :
    (CPU.sbc_core c v).reg_f &&& 15 = c.reg_f &&& 15 := by
  unfold CPU.sbc_core
  rw [set_flags_low]

theorem sub_core_low (c : CPU) (v : Nat) :
    (CPU.sub_core c v).reg_f &&& 15 = c.reg_f &&& 15 := by
  unfold CPU.sub_core
  rw [set_flags_low]

theorem xor_core_low (c : CPU) (v : Nat) :
    (CPU.xor_core c v).reg_f &&& 15 = c.reg_f &&& 15 := by
  unfold CPU.xor_core
  rw [set_flags_low]

theorem dec8_core_low (c : CPU) (v : Nat) :
    (CPU.dec8_core c v).1.reg_f &&& 15 = c.reg_f &&& 15 := by
  unfold CPU.dec8_core
  rw [set_flags_low]

theorem inc8_core_low (c : CPU) (v : Nat) :
    (CPU.inc8_core c v).1.reg_f &&& 15 = c.reg_f &&& 15 := by
  unfold CPU.inc8_core
  rw [set_flags_low]

theorem rl_core_low (c : CPU) (v : Nat) :
    (CPU.rl_core c v).1.reg_f &&& 15 = c.reg_f &&& 15 := by
  unfold CPU.rl_core
  rw [set_flags_low]

theorem rlc_core_low (c : CPU) (v : Nat) :
    (CPU.rlc_core c v).1.reg_f &&& 15 = c.reg_f &&& 15 := by
  unfold CPU.rlc_core
  rw [set_flags_low]

theorem rr_core_low (c : CPU) (v : Nat) :
    (CPU.rr_core c v).1.reg_f &&& 15 = c.reg_f &&& 15 := by
  unfold CPU.rr_core
  rw [set_flags_low]

theorem rrc_core_low (c : CPU) (v : Nat) :
    (CPU.rrc_core c v).1.reg_f &&& 15 = c.reg_f &&& 15 := by
  unfold CPU.rrc_core
  rw [set_flags_low]

theorem sla_core_low (c : CPU) (v : Nat) :
    (CPU.sla_core c v).1.reg_f &&& 15 = c.reg_f &&& 15 := by
  unfold CPU.sla_core
  rw [set_flags_low]

theorem sra_core_low (c : CPU) (v : Nat) :
    (CPU.sra_core c v).1.reg_f &&& 15 = c.reg_f &&& 15 := by
  unfold CPU.sra_core
  rw [set_flags_low]

theorem srl_core_low (c : CPU) (v : Nat) :
    (CPU.srl_core c v).1.reg_f &&& 15 = c.reg_f &&& 15 := by
  unfold CPU.srl_core
  rw [set_flags_low]

theorem ccf_low (c : CPU) : (CPU.ccf c).1.reg_f &&& 15 = c.reg_f &&& 15 := by
  unfold CPU.ccf
  rw [set_flags_low]
  show (c.reg_f ^^^ FLAG_CARRY) &&& 15 = _
  rw [and15_xor, show (FLAG_CARRY &&& 15 : Nat) = 0 from rfl]
  simp

theorem daa_low (c : CPU) : (CPU.daa c).1.reg_f &&& 15 = c.reg_f &&& 15 := by
  unfold CPU.daa
  rw [set_flags_low]

theorem pureOp_low {m : MMU} {o : CPU × MMU × Nat} {p : CPU × Nat}
    (h : pureOp m p = some o) (hlow : p.1.reg_f &&& 15 = 0) :
    o.1.reg_f &&& 15 = 0 := by
  unfold pureOp at h
  rw [Option.some.injEq] at h
  subst h
  exact hlow

theorem adc_a_r8_pres (c : CPU) (r : R8) :
    (CPU.adc_a_r8 c r).1.reg_f &&& 15 = c.reg_f &&& 15 := by
  simp [CPU.adc_a_r8, adc_core_low]

theorem adc_a_r8_plow {c : CPU} {m : MMU} {o : CPU × MMU × Nat} {r : R8}
    (h : pureOp m (CPU.adc_a_r8 c r) = some o) (hc : c.reg_f &&& 15 = 0) :
    o.1.reg_f &&& 15 = 0 :=
  pureOp_low h (by rw [adc_a_r8_pres]; exact hc)

theorem add_a_r8_pres (c : CPU) (r : R8) :
    (CPU.add_a_r8 c r).1.reg_f &&& 15 = c.reg_f &&& 15 := by
  simp [CPU.add_a_r8, add_core_low]

theorem add_a_r8_plow {c : CPU} {m : MMU} {o : CPU × MMU × Nat} {r : R8}
    (h : pureOp m (CPU.add_a_r8 c r) = some o) (hc : c.reg_f &&& 15 = 0) :
    o.1.reg_f &&& 15 = 0 :=
  pureOp_low h (by rw [add_a_r8_pres]; exact hc)

theorem add_hl_r16_pres (c : CPU) (r : R16) :
    (CPU.add_hl_r16 c r).1.reg_f &&& 15 = c.reg_f &&& 15 := by
  simp [CPU.add_hl_r16, add_hl_core_low]

theorem add_hl_r16_plow {c : CPU} {m : MMU} {o : CPU × MMU × Nat} {r : R16}
    (h : pureOp m (CPU.add_hl_r16 c r) = some o) (hc : c.reg_f &&& 15 = 0) :
    o.1.reg_f &&& 15 = 0 :=
  pureOp_low h (by rw [add_hl_r16_pres]; exact hc)

theorem add_hl_sp_pres (c : CPU)  :
    (CPU.add_hl_sp c).1.reg_f &&& 15 = c.reg_f &&& 15 := by
  simp [CPU.add_hl_sp, add_hl_core_low]

theorem add_hl_sp_plow {c : CPU} {m : MMU} {o : CPU × MMU × Nat} 
    (h : pureOp m (CPU.add_hl_sp c) = some o) (hc : c.reg_f &&& 15 = 0) :
    o.1.reg_f &&& 15 = 0 :=
  pureOp_low h (by rw [add_hl_sp_pres]; exact hc)

theorem and_a_r8_pres (c : CPU) (r : R8) :
    (CPU.and_a_r8 c r).1.reg_f &&& 15 = c.reg_f &&& 15 := by
  simp [CPU.and_a_r8, and_core_low]

theorem and_a_r8_plow {c : CPU} {m : MMU} {o : CPU × MMU × Nat} {r : R8}
    (h : pureOp m (CPU.and_a_r8 c r) = some o) (hc : c.reg_f &&& 15 = 0) :
    o.1.reg_f &&& 15 = 0 :=
  pureOp_low h (by rw [and_a_r8_pres]; exact hc)

theorem cp_a_r8_pres (c : CPU) (r : R8) :
    (CPU.cp_a_r8 c r).1.reg_f &&& 15 = c.reg_f &&& 15 := by
  simp [CPU.cp_a_r8, cp_core_low]

theorem cp_a_r8_plow {c : CPU} {m : MMU} {o : CPU × MMU × Nat} {r : R8}
    (h : pureOp m (CPU.cp_a_r8 c r) = some o) (hc : c.reg_f &&& 15 = 0) :
    o.1.reg_f &&& 15 = 0 :=
  pureOp_low h (by rw [cp_a_r8_pres]; exact hc)

theorem dec_r8_pres (c : CPU) (r : R8) :
    (CPU.dec_r8 c r).1.reg_f &&& 15 = c.reg_f &&& 15 := by
  simp [CPU.dec_r8, getF_setR8, dec8_core_low]

theorem dec_r8_plow {c : CPU} {m : MMU} {o : CPU × MMU × Nat} {r : R8}
    (h : pureOp m (CPU.dec_r8 c r) = some o) (hc : c.reg_f &&& 15 = 0) :
    o.1.reg_f &&& 15 = 0 :=
  pureOp_low h (by rw [dec_r8_pres]; exact hc)

theorem dec_r16_pres (c : CPU) (r : R16) :
    (CPU.dec_r16 c r).1.reg_f &&& 15 = c.reg_f &&& 15 := by
  simp [CPU.dec_r16, getF_setR16]

theorem dec_r16_plow {c : CPU} {m : MMU} {o : CPU × MMU × Nat} {r : R16}
    (h : pureOp m (CPU.dec_r16 c r) = some o) (hc : c.reg_f &&& 15 = 0) :
    o.1.reg_f &&& 15 = 0 :=
  pureOp_low h (by rw [dec_r16_pres]; exact hc)

theorem dec_sp_pres (c : CPU)  :
    (CPU.dec_sp c).1.reg_f &&& 15 = c.reg_f &&& 15 := by
  simp [CPU.dec_sp]

theorem dec_sp_plow {c : CPU} {m : MMU} {o : CPU × MMU × Nat} 
    (h : pureOp m (CPU.dec_sp c) = some o) (hc : c.reg_f &&& 15 = 0) :
    o.1.reg_f &&& 15 = 0 :=
  pureOp_low h (by rw [dec_sp_pres]; exact hc)

theorem inc_r8_pres (c : CPU) (r : R8) :
    (CPU.inc_r8 c r).1.reg_f &&& 15 = c.reg_f &&& 15 := by
  simp [CPU.inc_r8, getF_setR8, inc8_core_low]

theorem inc_r8_plow {c : CPU} {m : MMU} {o : CPU × MMU × Nat} {r : R8}
    (h : pureOp m (CPU.inc_r8 c r) = some o) (hc : c.reg_f &&& 15 = 0) :
    o.1.reg_f &&& 15 = 0 :=
  pureOp_low h (by rw [inc_r8_pres]; exact hc)

theorem inc_r16_pres (c : CPU) (r : R16) :
    (CPU.inc_r16 c r).1.reg_f &&& 15 = c.reg_f &&& 15 := by
  simp [CPU.inc_r16, getF_setR16]

theorem inc_r16_plow {c : CPU} {m : MMU} {o : CPU × MMU × Nat} {r : R16}
    (h : pureOp m (CPU.inc_r16 c r) = some o) (hc : c.reg_f &&& 15 = 0) :
    o.1.reg_f &&& 15 = 0 :=
  pureOp_low h (by rw [inc_r16_pres]; exact hc)

theorem inc_sp_pres (c : CPU)  :
    (CPU.inc_sp c).1.reg_f &&& 15 = c.reg_f &&& 15 := by
  simp [CPU.inc_sp]

theorem inc_sp_plow {c : CPU} {m : MMU} {o : CPU × MMU × Nat} 
    (h : pureOp m (CPU.inc_sp c) = some o) (hc : c.reg_f &&& 15 = 0) :
    o.1.reg_f &&& 15 = 0 :=
  pureOp_low h (by rw [inc_sp_pres]; exact hc)

theorem or_a_r8_pres (c : CPU) (r : R8) :
    (CPU.or_a_r8 c r).1.reg_f &&& 15 = c.reg_f &&& 15 := by
  simp [CPU.or_a_r8, or_core_low]

theorem or_a_r8_plow {c : CPU} {m : MMU} {o : CPU × MMU × Nat} {r : R8}
    (h : pureOp m (CPU.or_a_r8 c r) = some o) (hc : c.reg_f &&& 15 = 0) :
    o.1.reg_f &&& 15 = 0 :=
  pureOp_low h (by rw [or_a_r8_pres]; exact hc)

theorem sbc_a_r8_pres (c : CPU) (r : R8) :
    (CPU.sbc_a_r8 c r).1.reg_f &&& 15 = c.reg_f &&& 15 := by
  simp [CPU.sbc_a_r8, sbc_core_low]

theorem sbc_a_r8_plow {c : CPU} {m : MMU} {o : CPU × MMU × Nat} {r : R8}
    (h : pureOp m (CPU.sbc_a_r8 c r) = some o) (hc : c.reg_f &&& 15 = 0) :
    o.1.reg_f &&& 15 = 0 :=
  pureOp_low h (by rw [sbc_a_r8_pres]; exact hc)

theorem sub_a_r8_pres (c : CPU) (r : R8) :
    (CPU.sub_a_r8 c r).1.reg_f &&& 15 = c.reg_f &&& 15 := by
  simp [CPU.sub_a_r8, sub_core_low]

theorem sub_a_r8_plow {c : CPU} {m : MMU} {o : CPU × MMU × Nat} {r : R8}
    (h : pureOp m (CPU.sub_a_r8 c r) = some o) (hc : c.reg_f &&& 15 = 0) :
    o.1.reg_f &&& 15 = 0 :=
  pureOp_low h (by rw [sub_a_r8_pres]; exact hc)

theorem xor_a_r8_pres (c : CPU) (r : R8) :
    (CPU.xor_a_r8 c r).1.reg_f &&& 15 = c.reg_f &&& 15 := by
  simp [CPU.xor_a_r8, xor_core_low]

theorem xor_a_r8_plow {c : CPU} {m : MMU} {o : CPU × MMU × Nat} {r : R8}
    (h : pureOp m (CPU.xor_a_r8 c r) = some o) (hc : c.reg_f &&& 15 = 0) :
    o.1.reg_f &&& 15 = 0 :=
  pureOp_low h (by rw [xor_a_r8_pres]; exact hc)

theorem bit_u3_r8_pres (c : CPU) (u : Nat) (r : R8) :
    (CPU.bit_u3_r8 c u r).1.reg_f &&& 15 = c.reg_f &&& 15 := by
  simp [CPU.bit_u3_r8, set_flags_low]

theorem bit_u3_r8_plow {c : CPU} {m : MMU} {o : CPU × MMU × Nat} {u : Nat} {r : R8}
    (h : pureOp m (CPU.bit_u3_r8 c u r) = some o) (hc : c.reg_f &&& 15 = 0) :
    o.1.reg_f &&& 15 = 0 :=
  pureOp_low h (by rw [bit_u3_r8_pres]; exact hc)

theorem res_u3_r8_pres (c : CPU) (u : Nat) (r : R8) :
    (CPU.res_u3_r8 c u r).1.reg_f &&& 15 = c.reg_f &&& 15 := by
  simp [CPU.res_u3_r8, getF_setR8]

theorem res_u3_r8_plow {c : CPU} {m : MMU} {o : CPU × MMU × Nat} {u : Nat} {r : R8}
    (h : pureOp m (CPU.res_u3_r8 c u r) = some o) (hc : c.reg_f &&& 15 = 0) :
    o.1.reg_f &&& 15 = 0 :=
  pureOp_low h (by rw [res_u3_r8_pres]; exact hc)

theorem set_u3_r8_pres (c : CPU) (u : Nat) (r : R8) :
    (CPU.set_u3_r8 c u r).1.reg_f &&& 15 = c.reg_f &&& 15 := by
  simp [CPU.set_u3_r8, getF_setR8]

theorem set_u3_r8_plow {c : CPU} {m : MMU} {o : CPU × MMU × Nat} {u : Nat} {r : R8}
    (h : pureOp m (CPU.set_u3_r8 c u r) = some o) (hc : c.reg_f &&& 15 = 0) :
    o.1.reg_f &&& 15 = 0 :=
  pureOp_low h (by rw [set_u3_r8_pres]; exact hc)

theorem swap_r8_pres (c : CPU) (r : R8) :
    (CPU.swap_r8 c r).1.reg_f &&& 15 = c.reg_f &&& 15 := by
  simp [CPU.swap_r8, set_flags_low, getF_setR8]

theorem swap_r8_plow {c : CPU} {m : MMU} {o : CPU × MMU × Nat} {r : R8}
    (h : pureOp m (CPU.swap_r8 c r) = some o) (hc : c.reg_f &&& 15 = 0) :
    o.1.reg_f &&& 15 = 0 :=
  pureOp_low h (by rw [swap_r8_pres]; exact hc)

theorem rl_r8_pres (c : CPU) (r : R8) :
    (CPU.rl_r8 c r).1.reg_f &&& 15 = c.reg_f &&& 15 := by
  simp [CPU.rl_r8, getF_setR8, rl_core_low]

theorem rl_r8_plow {c : CPU} {m : MMU} {o : CPU × MMU × Nat} {r : R8}
    (h : pureOp m (CPU.rl_r8 c r) = some o) (hc : c.reg_f &&& 15 = 0) :
    o.1.reg_f &&& 15 = 0 :=
  pureOp_low h (by rw [rl_r8_pres]; exact hc)

theorem rla_pres (c : CPU)  :
    (CPU.rla c).1.reg_f &&& 15 = c.reg_f &&& 15 := by
  simp [CPU.rla, set_flags_low]

theorem rla_plow {c : CPU} {m : MMU} {o : CPU × MMU × Nat} 
    (h : pureOp m (CPU.rla c) = some o) (hc : c.reg_f &&& 15 = 0) :
    o.1.reg_f &&& 15 = 0 :=
  pureOp_low h (by rw [rla_pres]; exact hc)

theorem rlc_r8_pres (c : CPU) (r : R8) :
    (CPU.rlc_r8 c r).1.reg_f &&& 15 = c.reg_f &&& 15 := by
  simp [CPU.rlc_r8, getF_setR8, rlc_core_low]

theorem rlc_r8_plow {c : CPU} {m : MMU} {o : CPU × MMU × Nat} {r : R8}
    (h : pureOp m (CPU.rlc_r8 c r) = some o) (hc : c.reg_f &&& 15 = 0) :
    o.1.reg_f &&& 15 = 0 :=
  pureOp_low h (by rw [rlc_r8_pres]; exact hc)

theorem rlca_pres (c : CPU)  :
    (CPU.rlca c).1.reg_f &&& 15 = c.reg_f &&& 15 := by
  simp [CPU.rlca, set_flags_low]

theorem rlca_plow {c : CPU} {m : MMU} {o : CPU × MMU × Nat} 
    (h : pureOp m (CPU.rlca c) = some o) (hc : c.reg_f &&& 15 = 0) :
    o.1.reg_f &&& 15 = 0 :=
  pureOp_low h (by rw [rlca_pres]; exact hc)

theorem rr_r8_pres (c : CPU) (r : R8) :
    (CPU.rr_r8 c r).1.reg_f &&& 15 = c.reg_f &&& 15 := by
  simp [CPU.rr_r8, getF_setR8, rr_core_low]

theorem rr_r8_plow {c : CPU} {m : MMU} {o : CPU × MMU × Nat} {r : R8}
    (h : pureOp m (CPU.rr_r8 c r) = some o) (hc : c.reg_f &&& 15 = 0) :
    o.1.reg_f &&& 15 = 0 :=
  pureOp_low h (by rw [rr_r8_pres]; exact hc)

theorem rra_pres (c : CPU)  :
    (CPU.rra c).1.reg_f &&& 15 = c.reg_f &&& 15 := by
  simp [CPU.rra, set_flags_low]

theorem rra_plow {c : CPU} {m : MMU} {o : CPU × MMU × Nat} 
    (h : pureOp m (CPU.rra c) = some o) (hc : c.reg_f &&& 15 = 0) :
    o.1.reg_f &&& 15 = 0 :=
  pureOp_low h (by rw [rra_pres]; exact hc)

theorem rrc_r8_pres (c : CPU) (r : R8) :
    (CPU.rrc_r8 c r).1.reg_f &&& 15 = c.reg_f &&& 15 := by
  simp [CPU.rrc_r8, getF_setR8, rrc_core_low]

theorem rrc_r8_plow {c : CPU} {m : MMU} {o : CPU × MMU × Nat} {r : R8}
    (h : pureOp m (CPU.rrc_r8 c r) = some o) (hc : c.reg_f &&& 15 = 0) :
    o.1.reg_f &&& 15 = 0 :=
  pureOp_low h (by rw [rrc_r8_pres]; exact hc)

theorem rrca_pres (c : CPU)  :
    (CPU.rrca c).1.reg_f &&& 15 = c.reg_f &&& 15 := by
  simp [CPU.rrca, set_flags_low]

theorem rrca_plow {c : CPU} {m : MMU} {o : CPU × MMU × Nat} 
    (h : pureOp m (CPU.rrca c) = some o) (hc : c.reg_f &&& 15 = 0) :
    o.1.reg_f &&& 15 = 0 :=
  pureOp_low h (by rw [rrca_pres]; exact hc)

theorem sla_r8_pres (c : CPU) (r : R8) :
    (CPU.sla_r8 c r).1.reg_f &&& 15 = c.reg_f &&& 15 := by
  simp [CPU.sla_r8, getF_setR8, sla_core_low]

theorem sla_r8_plow {c : CPU} {m : MMU} {o : CPU × MMU × Nat} {r : R8}
    (h : pureOp m (CPU.sla_r8 c r) = some o) (hc : c.reg_f &&& 15 = 0) :
    o.1.reg_f &&& 15 = 0 :=
  pureOp_low h (by rw [sla_r8_pres]; exact hc)

theorem sra_r8_pres (c : CPU) (r : R8) :
    (CPU.sra_r8 c r).1.reg_f &&& 15 = c.reg_f &&& 15 := by
  simp [CPU.sra_r8, getF_setR8, sra_core_low]

theorem sra_r8_plow {c : CPU} {m : MMU} {o : CPU × MMU × Nat} {r : R8}
    (h : pureOp m (CPU.sra_r8 c r) = some o) (hc : c.reg_f &&& 15 = 0) :
    o.1.reg_f &&& 15 = 0 :=
  pureOp_low h (by rw [sra_r8_pres]; exact hc)

theorem srl_r8_pres (c : CPU) (r : R8) :
    (CPU.srl_r8 c r).1.reg_f &&& 15 = c.reg_f &&& 15 := by
  simp [CPU.srl_r8, getF_setR8, srl_core_low]

theorem srl_r8_plow {c : CPU} {m : MMU} {o : CPU × MMU × Nat} {r : R8}
    (h : pureOp m (CPU.srl_r8 c r) = some o) (hc : c.reg_f &&& 15 = 0) :
    o.1.reg_f &&& 15 = 0 :=
  pureOp_low h (by rw [srl_r8_pres]; exact hc)

theorem ld_r8_r8_pres (c : CPU) (rl rr : R8) :
    (CPU.ld_r8_r8 c rl rr).1.reg_f &&& 15 = c.reg_f &&& 15 := by
  simp [CPU.ld_r8_r8, getF_setR8]

theorem ld_r8_r8_plow {c : CPU} {m : MMU} {o : CPU × MMU × Nat} {rl rr : R8}
    (h : pureOp m (CPU.ld_r8_r8 c rl rr) = some o) (hc : c.reg_f &&& 15 = 0) :
    o.1.reg_f &&& 15 = 0 :=
  pureOp_low h (by rw [ld_r8_r8_pres]; exact hc)

theorem jp_mhl_pres (c : CPU)  :
    (CPU.jp_mhl c).1.reg_f &&& 15 = c.reg_f &&& 15 := by
  simp [CPU.jp_mhl]

theorem jp_mhl_plow {c : CPU} {m : MMU} {o : CPU × MMU × Nat} 
    (h : pureOp m (CPU.jp_mhl c) = some o) (hc : c.reg_f &&& 15 = 0) :
    o.1.reg_f &&& 15 = 0 :=
  pureOp_low h (by rw [jp_mhl_pres]; exact hc)

theorem ld_sp_hl_pres (c : CPU)  :
    (CPU.ld_sp_hl c).1.reg_f &&& 15 = c.reg_f &&& 15 := by
  simp [CPU.ld_sp_hl]

theorem ld_sp_hl_plow {c : CPU} {m : MMU} {o : CPU × MMU × Nat} 
    (h : pureOp m (CPU.ld_sp_hl c) = some o) (hc : c.reg_f &&& 15 = 0) :
    o.1.reg_f &&& 15 = 0 :=
  pureOp_low h (by rw [ld_sp_hl_pres]; exact hc)

theorem ccf_plow {c : CPU} {m : MMU} {o : CPU × MMU × Nat} 
    (h : pureOp m (CPU.ccf c) = some o) (hc : c.reg_f &&& 15 = 0) :
    o.1.reg_f &&& 15 = 0 :=
  pureOp_low h (by rw [ccf_low]; exact hc)

theorem cpl_pres (c : CPU)  :
    (CPU.cpl c).1.reg_f &&& 15 = c.reg_f &&& 15 := by
  simp [CPU.cpl, set_flags_low]

theorem cpl_plow {c : CPU} {m : MMU} {o : CPU × MMU × Nat} 
    (h : pureOp m (CPU.cpl c) = some o) (hc : c.reg_f &&& 15 = 0) :
    o.1.reg_f &&& 15 = 0 :=
  pureOp_low h (by rw [cpl_pres]; exact hc)

theorem daa_plow {c : CPU} {m : MMU} {o : CPU × MMU × Nat} 
    (h : pureOp m (CPU.daa c) = some o) (hc : c.reg_f &&& 15 = 0) :
    o.1.reg_f &&& 15 = 0 :=
  pureOp_low h (by rw [daa_low]; exact hc)

theorem di_pres (c : CPU)  :
    (CPU.di c).1.reg_f &&& 15 = c.reg_f &&& 15 := by
  simp [CPU.di]

theorem di_plow {c : CPU} {m : MMU} {o : CPU × MMU × Nat} 
    (h : pureOp m (CPU.di c) = some o) (hc : c.reg_f &&& 15 = 0) :
    o.1.reg_f &&& 15 = 0 :=
  pureOp_low h (by rw [di_pres]; exact hc)

theorem ei_pres (c : CPU)  :
    (CPU.ei c).1.reg_f &&& 15 = c.reg_f &&& 15 := by
  simp [CPU.ei]

theorem ei_plow {c : CPU} {m : MMU} {o : CPU × MMU × Nat} 
    (h : pureOp m (CPU.ei c) = some o) (hc : c.reg_f &&& 15 = 0) :
    o.1.reg_f &&& 15 = 0 :=
  pureOp_low h (by rw [ei_pres]; exact hc)

theorem op_halt_pres (c : CPU)  :
    (CPU.op_halt c).1.reg_f &&& 15 = c.reg_f &&& 15 := by
  simp [CPU.op_halt]

theorem op_halt_plow {c : CPU} {m : MMU} {o : CPU × MMU × Nat} 
    (h : pureOp m (CPU.op_halt c) = some o) (hc : c.reg_f &&& 15 = 0) :
    o.1.reg_f &&& 15 = 0 :=
  pureOp_low h (by rw [op_halt_pres]; exact hc)

theorem nop_pres (c : CPU)  :
    (CPU.nop c).1.reg_f &&& 15 = c.reg_f &&& 15 := by
  simp [CPU.nop]

theorem nop_plow {c : CPU} {m : MMU} {o : CPU × MMU × Nat} 
    (h : pureOp m (CPU.nop c) = some o) (hc : c.reg_f &&& 15 = 0) :
    o.1.reg_f &&& 15 = 0 :=
  pureOp_low h (by rw [nop_pres]; exact hc)

theorem scf_pres (c : CPU)  :
    (CPU.scf c).1.reg_f &&& 15 = c.reg_f &&& 15 := by
  simp [CPU.scf, set_flags_low]

theorem scf_plow {c : CPU} {m : MMU} {o : CPU × MMU × Nat} 
    (h : pureOp m (CPU.scf c) = some o) (hc : c.reg_f &&& 15 = 0) :
    o.1.reg_f &&& 15 = 0 :=
  pureOp_low h (by rw [scf_pres]; exact hc)

theorem op_stop_pres (c : CPU)  :
    (CPU.op_stop c).1.reg_f &&& 15 = c.reg_f &&& 15 := by
  simp [CPU.op_stop]

theorem op_stop_plow {c : CPU} {m : MMU} {o : CPU × MMU × Nat} 
    (h : pureOp m (CPU.op_stop c) = some o) (hc : c.reg_f &&& 15 = 0) :
    o.1.reg_f &&& 15 = 0 :=
  pureOp_low h (by rw [op_stop_pres]; exact hc)

theorem xx_pres (c : CPU)  :
    (CPU.xx c).1.reg_f &&& 15 = c.reg_f &&& 15 := by
  simp [CPU.xx]

theorem xx_plow {c : CPU} {m : MMU} {o : CPU × MMU × Nat} 
    (h : pureOp m (CPU.xx c) = some o) (hc : c.reg_f &&& 15 = 0) :
    o.1.reg_f &&& 15 = 0 :=
  pureOp_low h (by rw [xx_pres]; exact hc)

theorem adc_a_mhl_low {c : CPU} {m : MMU} {o : CPU × MMU × Nat} (h : CPU.adc_a_mhl c m = some o)
    (hc : c.reg_f &&& 15 = 0) : o.1.reg_f &&& 15 = 0 := by
  unfold CPU.adc_a_mhl at h
  repeat' (first | split at h | dsimp only at h)
  all_goals
    first
      | exact Option.noConfusion h
      | (rw [Option.some.injEq] at h
         subst h
         try dsimp only
         try simp only [set_flags_low, getF_setR8, getF_setR16, getF_incHL, getF_decHL, adc_core_low, add_core_low, add_hl_core_low, and_core_low, cp_core_low, or_core_low, sbc_core_low, sub_core_low, xor_core_low, dec8_core_low, inc8_core_low, rl_core_low, rlc_core_low, rr_core_low, rrc_core_low, sla_core_low, sra_core_low, srl_core_low, and240_low]
         try exact hc)

theorem adc_a_n8_low {c : CPU} {m : MMU} {o : CPU × MMU × Nat} (h : CPU.adc_a_n8 c m = some o)
    (hc : c.reg_f &&& 15 = 0) : o.1.reg_f &&& 15 = 0 := by
  unfold CPU.adc_a_n8 at h
  repeat' (first | split at h | dsimp only at h)
  all_goals
    first
      | exact Option.noConfusion h
      | (rw [Option.some.injEq] at h
         subst h
         try dsimp only
         try simp only [set_flags_low, getF_setR8, getF_setR16, getF_incHL, getF_decHL, adc_core_low, add_core_low, add_hl_core_low, and_core_low, cp_core_low, or_core_low, sbc_core_low, sub_core_low, xor_core_low, dec8_core_low, inc8_core_low, rl_core_low, rlc_core_low, rr_core_low, rrc_core_low, sla_core_low, sra_core_low, srl_core_low, and240_low]
         try exact hc)

theorem add_a_mhl_low {c : CPU} {m : MMU} {o : CPU × MMU × Nat} (h : CPU.add_a_mhl c m = some o)
    (hc : c.reg_f &&& 15 = 0) : o.1.reg_f &&& 15 = 0 := by
  unfold CPU.add_a_mhl at h
  repeat' (first | split at h | dsimp only at h)
  all_goals
    first
      | exact Option.noConfusion h
      | (rw [Option.some.injEq] at h
         subst h
         try dsimp only
         try simp only [set_flags_low, getF_setR8, getF_setR16, getF_incHL, getF_decHL, adc_core_low, add_core_low, add_hl_core_low, and_core_low, cp_core_low, or_core_low, sbc_core_low, sub_core_low, xor_core_low, dec8_core_low, inc8_core_low, rl_core_low, rlc_core_low, rr_core_low, rrc_core_low, sla_core_low, sra_core_low, srl_core_low, and240_low]
         try exact hc)

theorem add_a_n8_low {c : CPU} {m : MMU} {o : CPU × MMU × Nat} (h : CPU.add_a_n8 c m = some o)
    (hc : c.reg_f &&& 15 = 0) : o.1.reg_f &&& 15 = 0 := by
  unfold CPU.add_a_n8 at h
  repeat' (first | split at h | dsimp only at h)
  all_goals
    first
      | exact Option.noConfusion h
      | (rw [Option.some.injEq] at h
         subst h
         try dsimp only
         try simp only [set_flags_low, getF_setR8, getF_setR16, getF_incHL, getF_decHL, adc_core_low, add_core_low, add_hl_core_low, and_core_low, cp_core_low, or_core_low, sbc_core_low, sub_core_low, xor_core_low, dec8_core_low, inc8_core_low, rl_core_low, rlc_core_low, rr_core_low, rrc_core_low, sla_core_low, sra_core_low, srl_core_low, and240_low]
         try exact hc)

theorem add_sp_e8_low {c : CPU} {m : MMU} {o : CPU × MMU × Nat} (h : CPU.add_sp_e8 c m = some o)
    (hc : c.reg_f &&& 15 = 0) : o.1.reg_f &&& 15 = 0 := by
  unfold CPU.add_sp_e8 at h
  repeat' (first | split at h | dsimp only at h)
  all_goals
    first
      | exact Option.noConfusion h
      | (rw [Option.some.injEq] at h
         subst h
         try dsimp only
         try simp only [set_flags_low, getF_setR8, getF_setR16, getF_incHL, getF_decHL, adc_core_low, add_core_low, add_hl_core_low, and_core_low, cp_core_low, or_core_low, sbc_core_low, sub_core_low, xor_core_low, dec8_core_low, inc8_core_low, rl_core_low, rlc_core_low, rr_core_low, rrc_core_low, sla_core_low, sra_core_low, srl_core_low, and240_low]
         try exact hc)

theorem and_a_mhl_low {c : CPU} {m : MMU} {o : CPU × MMU × Nat} (h : CPU.and_a_mhl c m = some o)
    (hc : c.reg_f &&& 15 = 0) : o.1.reg_f &&& 15 = 0 := by
  unfold CPU.and_a_mhl at h
  repeat' (first | split at h | dsimp only at h)
  all_goals
    first
      | exact Option.noConfusion h
      | (rw [Option.some.injEq] at h
         subst h
         try dsimp only
         try simp only [set_flags_low, getF_setR8, getF_setR16, getF_incHL, getF_decHL, adc_core_low, add_core_low, add_hl_core_low, and_core_low, cp_core_low, or_core_low, sbc_core_low, sub_core_low, xor_core_low, dec8_core_low, inc8_core_low, rl_core_low, rlc_core_low, rr_core_low, rrc_core_low, sla_core_low, sra_core_low, srl_core_low, and240_low]
         try exact hc)

theorem and_a_n8_low {c : CPU} {m : MMU} {o : CPU × MMU × Nat} (h : CPU.and_a_n8 c m = some o)
    (hc : c.reg_f &&& 15 = 0) : o.1.reg_f &&& 15 = 0 := by
  unfold CPU.and_a_n8 at h
  repeat' (first | split at h | dsimp only at h)
  all_goals
    first
      | exact Option.noConfusion h
      | (rw [Option.some.injEq] at h
         subst h
         try dsimp only
         try simp only [set_flags_low, getF_setR8, getF_setR16, getF_incHL, getF_decHL, adc_core_low, add_core_low, add_hl_core_low, and_core_low, cp_core_low, or_core_low, sbc_core_low, sub_core_low, xor_core_low, dec8_core_low, inc8_core_low, rl_core_low, rlc_core_low, rr_core_low, rrc_core_low, sla_core_low, sra_core_low, srl_core_low, and240_low]
         try exact hc)

theorem cp_a_mhl_low {c : CPU} {m : MMU} {o : CPU × MMU × Nat} (h : CPU.cp_a_mhl c m = some o)
    (hc : c.reg_f &&& 15 = 0) : o.1.reg_f &&& 15 = 0 := by
  unfold CPU.cp_a_mhl at h
  repeat' (first | split at h | dsimp only at h)
  all_goals
    first
      | exact Option.noConfusion h
      | (rw [Option.some.injEq] at h
         subst h
         try dsimp only
         try simp only [set_flags_low, getF_setR8, getF_setR16, getF_incHL, getF_decHL, adc_core_low, add_core_low, add_hl_core_low, and_core_low, cp_core_low, or_core_low, sbc_core_low, sub_core_low, xor_core_low, dec8_core_low, inc8_core_low, rl_core_low, rlc_core_low, rr_core_low, rrc_core_low, sla_core_low, sra_core_low, srl_core_low, and240_low]
         try exact hc)

theorem cp_a_n8_low {c : CPU} {m : MMU} {o : CPU × MMU × Nat} (h : CPU.cp_a_n8 c m = some o)
    (hc : c.reg_f &&& 15 = 0) : o.1.reg_f &&& 15 = 0 := by
  unfold CPU.cp_a_n8 at h
  repeat' (first | split at h | dsimp only at h)
  all_goals
    first
      | exact Option.noConfusion h
      | (rw [Option.some.injEq] at h
         subst h
         try dsimp only
         try simp only [set_flags_low, getF_setR8, getF_setR16, getF_incHL, getF_decHL, adc_core_low, add_core_low, add_hl_core_low, and_core_low, cp_core_low, or_core_low, sbc_core_low, sub_core_low, xor_core_low, dec8_core_low, inc8_core_low, rl_core_low, rlc_core_low, rr_core_low, rrc_core_low, sla_core_low, sra_core_low, srl_core_low, and240_low]
         try exact hc)

theorem dec_mhl_low {c : CPU} {m : MMU} {o : CPU × MMU × Nat} (h : CPU.dec_mhl c m = some o)
    (hc : c.reg_f &&& 15 = 0) : o.1.reg_f &&& 15 = 0 := by
  unfold CPU.dec_mhl at h
  repeat' (first | split at h | dsimp only at h)
  all_goals
    first
      | exact Option.noConfusion h
      | (rw [Option.some.injEq] at h
         subst h
         try dsimp only
         try simp only [set_flags_low, getF_setR8, getF_setR16, getF_incHL, getF_decHL, adc_core_low, add_core_low, add_hl_core_low, and_core_low, cp_core_low, or_core_low, sbc_core_low, sub_core_low, xor_core_low, dec8_core_low, inc8_core_low, rl_core_low, rlc_core_low, rr_core_low, rrc_core_low, sla_core_low, sra_core_low, srl_core_low, and240_low]
         try exact hc)

theorem inc_mhl_low {c : CPU} {m : MMU} {o : CPU × MMU × Nat} (h : CPU.inc_mhl c m = some o)
    (hc : c.reg_f &&& 15 = 0) : o.1.reg_f &&& 15 = 0 := by
  unfold CPU.inc_mhl at h
  repeat' (first | split at h | dsimp only at h)
  all_goals
    first
      | exact Option.noConfusion h
      | (rw [Option.some.injEq] at h
         subst h
         try dsimp only
         try simp only [set_flags_low, getF_setR8, getF_setR16, getF_incHL, getF_decHL, adc_core_low, add_core_low, add_hl_core_low, and_core_low, cp_core_low, or_core_low, sbc_core_low, sub_core_low, xor_core_low, dec8_core_low, inc8_core_low, rl_core_low, rlc_core_low, rr_core_low, rrc_core_low, sla_core_low, sra_core_low, srl_core_low, and240_low]
         try exact hc)

theorem or_a_mhl_low {c : CPU} {m : MMU} {o : CPU × MMU × Nat} (h : CPU.or_a_mhl c m = some o)
    (hc : c.reg_f &&& 15 = 0) : o.1.reg_f &&& 15 = 0 := by
  unfold CPU.or_a_mhl at h
  repeat' (first | split at h | dsimp only at h)
  all_goals
    first
      | exact Option.noConfusion h
      | (rw [Option.some.injEq] at h
         subst h
         try dsimp only
         try simp only [set_flags_low, getF_setR8, getF_setR16, getF_incHL, getF_decHL, adc_core_low, add_core_low, add_hl_core_low, and_core_low, cp_core_low, or_core_low, sbc_core_low, sub_core_low, xor_core_low, dec8_core_low, inc8_core_low, rl_core_low, rlc_core_low, rr_core_low, rrc_core_low, sla_core_low, sra_core_low, srl_core_low, and240_low]
         try exact hc)

theorem or_a_n8_low {c : CPU} {m : MMU} {o : CPU × MMU × Nat} (h : CPU.or_a_n8 c m = some o)
    (hc : c.reg_f &&& 15 = 0) : o.1.reg_f &&& 15 = 0 := by
  unfold CPU.or_a_n8 at h
  repeat' (first | split at h | dsimp only at h)
  all_goals
    first
      | exact Option.noConfusion h
      | (rw [Option.some.injEq] at h
         subst h
         try dsimp only
         try simp only [set_flags_low, getF_setR8, getF_setR16, getF_incHL, getF_decHL, adc_core_low, add_core_low, add_hl_core_low, and_core_low, cp_core_low, or_core_low, sbc_core_low, sub_core_low, xor_core_low, dec8_core_low, inc8_core_low, rl_core_low, rlc_core_low, rr_core_low, rrc_core_low, sla_core_low, sra_core_low, srl_core_low, and240_low]
         try exact hc)

theorem sbc_a_mhl_low {c : CPU} {m : MMU} {o : CPU × MMU × Nat} (h : CPU.sbc_a_mhl c m = some o)
    (hc : c.reg_f &&& 15 = 0) : o.1.reg_f &&& 15 = 0 := by
  unfold CPU.sbc_a_mhl at h
  repeat' (first | split at h | dsimp only at h)
  all_goals
    first
      | exact Option.noConfusion h
      | (rw [Option.some.injEq] at h
         subst h
         try dsimp only
         try simp only [set_flags_low, getF_setR8, getF_setR16, getF_incHL, getF_decHL, adc_core_low, add_core_low, add_hl_core_low, and_core_low, cp_core_low, or_core_low, sbc_core_low, sub_core_low, xor_core_low, dec8_core_low, inc8_core_low, rl_core_low, rlc_core_low, rr_core_low, rrc_core_low, sla_core_low, sra_core_low, srl_core_low, and240_low]
         try exact hc)

theorem sbc_a_n8_low {c : CPU} {m : MMU} {o : CPU × MMU × Nat} (h : CPU.sbc_a_n8 c m = some o)
    (hc : c.reg_f &&& 15 = 0) : o.1.reg_f &&& 15 = 0 := by
  unfold CPU.sbc_a_n8 at h
  repeat' (first | split at h | dsimp only at h)
  all_goals
    first
      | exact Option.noConfusion h
      | (rw [Option.some.injEq] at h
         subst h
         try dsimp only
         try simp only [set_flags_low, getF_setR8, getF_setR16, getF_incHL, getF_decHL, adc_core_low, add_core_low, add_hl_core_low, and_core_low, cp_core_low, or_core_low, sbc_core_low, sub_core_low, xor_core_low, dec8_core_low, inc8_core_low, rl_core_low, rlc_core_low, rr_core_low, rrc_core_low, sla_core_low, sra_core_low, srl_core_low, and240_low]
         try exact hc)

theorem sub_a_mhl_low {c : CPU} {m : MMU} {o : CPU × MMU × Nat} (h : CPU.sub_a_mhl c m = some o)
    (hc : c.reg_f &&& 15 = 0) : o.1.reg_f &&& 15 = 0 := by
  unfold CPU.sub_a_mhl at h
  repeat' (first | split at h | dsimp only at h)
  all_goals
    first
      | exact Option.noConfusion h
      | (rw [Option.some.injEq] at h
         subst h
         try dsimp only
         try simp only [set_flags_low, getF_setR8, getF_setR16, getF_incHL, getF_decHL, adc_core_low, add_core_low, add_hl_core_low, and_core_low, cp_core_low, or_core_low, sbc_core_low, sub_core_low, xor_core_low, dec8_core_low, inc8_core_low, rl_core_low, rlc_core_low, rr_core_low, rrc_core_low, sla_core_low, sra_core_low, srl_core_low, and240_low]
         try exact hc)

theorem sub_a_n8_low {c : CPU} {m : MMU} {o : CPU × MMU × Nat} (h : CPU.sub_a_n8 c m = some o)
    (hc : c.reg_f &&& 15 = 0) : o.1.reg_f &&& 15 = 0 := by
  unfold CPU.sub_a_n8 at h
  repeat' (first | split at h | dsimp only at h)
  all_goals
    first
      | exact Option.noConfusion h
      | (rw [Option.some.injEq] at h
         subst h
         try dsimp only
         try simp only [set_flags_low, getF_setR8, getF_setR16, getF_incHL, getF_decHL, adc_core_low, add_core_low, add_hl_core_low, and_core_low, cp_core_low, or_core_low, sbc_core_low, sub_core_low, xor_core_low, dec8_core_low, inc8_core_low, rl_core_low, rlc_core_low, rr_core_low, rrc_core_low, sla_core_low, sra_core_low, srl_core_low, and240_low]
         try exact hc)

theorem xor_a_mhl_low {c : CPU} {m : MMU} {o : CPU × MMU × Nat} (h : CPU.xor_a_mhl c m = some o)
    (hc : c.reg_f &&& 15 = 0) : o.1.reg_f &&& 15 = 0 := by
  unfold CPU.xor_a_mhl at h
  repeat' (first | split at h | dsimp only at h)
  all_goals
    first
      | exact Option.noConfusion h
      | (rw [Option.some.injEq] at h
         subst h
         try dsimp only
         try simp only [set_flags_low, getF_setR8, getF_setR16, getF_incHL, getF_decHL, adc_core_low, add_core_low, add_hl_core_low, and_core_low, cp_core_low, or_core_low, sbc_core_low, sub_core_low, xor_core_low, dec8_core_low, inc8_core_low, rl_core_low, rlc_core_low, rr_core_low, rrc_core_low, sla_core_low, sra_core_low, srl_core_low, and240_low]
         try exact hc)

theorem xor_a_n8_low {c : CPU} {m : MMU} {o : CPU × MMU × Nat} (h : CPU.xor_a_n8 c m = some o)
    (hc : c.reg_f &&& 15 = 0) : o.1.reg_f &&& 15 = 0 := by
  unfold CPU.xor_a_n8 at h
  repeat' (first | split at h | dsimp only at h)
  all_goals
    first
      | exact Option.noConfusion h
      | (rw [Option.some.injEq] at h
         subst h
         try dsimp only
         try simp only [set_flags_low, getF_setR8, getF_setR16, getF_incHL, getF_decHL, adc_core_low, add_core_low, add_hl_core_low, and_core_low, cp_core_low, or_core_low, sbc_core_low, sub_core_low, xor_core_low, dec8_core_low, inc8_core_low, rl_core_low, rlc_core_low, rr_core_low, rrc_core_low, sla_core_low, sra_core_low, srl_core_low, and240_low]
         try exact hc)

theorem bit_u3_mhl_low {c : CPU} {m : MMU} {o : CPU × MMU × Nat} {u : Nat} (h : CPU.bit_u3_mhl c m u = some o)
    (hc : c.reg_f &&& 15 = 0) : o.1.reg_f &&& 15 = 0 := by
  unfold CPU.bit_u3_mhl at h
  repeat' (first | split at h | dsimp only at h)
  all_goals
    first
      | exact Option.noConfusion h
      | (rw [Option.some.injEq] at h
         subst h
         try dsimp only
         try simp only [set_flags_low, getF_setR8, getF_setR16, getF_incHL, getF_decHL, adc_core_low, add_core_low, add_hl_core_low, and_core_low, cp_core_low, or_core_low, sbc_core_low, sub_core_low, xor_core_low, dec8_core_low, inc8_core_low, rl_core_low, rlc_core_low, rr_core_low, rrc_core_low, sla_core_low, sra_core_low, srl_core_low, and240_low]
         try exact hc)

theorem res_u3_mhl_low {c : CPU} {m : MMU} {o : CPU × MMU × Nat} {u : Nat} (h : CPU.res_u3_mhl c m u = some o)
    (hc : c.reg_f &&& 15 = 0) : o.1.reg_f &&& 15 = 0 := by
  unfold CPU.res_u3_mhl at h
  repeat' (first | split at h | dsimp only at h)
  all_goals
    first
      | exact Option.noConfusion h
      | (rw [Option.some.injEq] at h
         subst h
         try dsimp only
         try simp only [set_flags_low, getF_setR8, getF_setR16, getF_incHL, getF_decHL, adc_core_low, add_core_low, add_hl_core_low, and_core_low, cp_core_low, or_core_low, sbc_core_low, sub_core_low, xor_core_low, dec8_core_low, inc8_core_low, rl_core_low, rlc_core_low, rr_core_low, rrc_core_low, sla_core_low, sra_core_low, srl_core_low, and240_low]
         try exact hc)

theorem set_u3_mhl_low {c : CPU} {m : MMU} {o : CPU × MMU × Nat} {u : Nat} (h : CPU.set_u3_mhl c m u = some o)
    (hc : c.reg_f &&& 15 = 0) : o.1.reg_f &&& 15 = 0 := by
  unfold CPU.set_u3_mhl at h
  repeat' (first | split at h | dsimp only at h)
  all_goals
    first
      | exact Option.noConfusion h
      | (rw [Option.some.injEq] at h
         subst h
         try dsimp only
         try simp only [set_flags_low, getF_setR8, getF_setR16, getF_incHL, getF_decHL, adc_core_low, add_core_low, add_hl_core_low, and_core_low, cp_core_low, or_core_low, sbc_core_low, sub_core_low, xor_core_low, dec8_core_low, inc8_core_low, rl_core_low, rlc_core_low, rr_core_low, rrc_core_low, sla_core_low, sra_core_low, srl_core_low, and240_low]
         try exact hc)

theorem swap_mhl_low {c : CPU} {m : MMU} {o : CPU × MMU × Nat} (h : CPU.swap_mhl c m = some o)
    (hc : c.reg_f &&& 15 = 0) : o.1.reg_f &&& 15 = 0 := by
  unfold CPU.swap_mhl at h
  repeat' (first | split at h | dsimp only at h)
  all_goals
    first
      | exact Option.noConfusion h
      | (rw [Option.some.injEq] at h
         subst h
         try dsimp only
         try simp only [set_flags_low, getF_setR8, getF_setR16, getF_incHL, getF_decHL, adc_core_low, add_core_low, add_hl_core_low, and_core_low, cp_core_low, or_core_low, sbc_core_low, sub_core_low, xor_core_low, dec8_core_low, inc8_core_low, rl_core_low, rlc_core_low, rr_core_low, rrc_core_low, sla_core_low, sra_core_low, srl_core_low, and240_low]
         try exact hc)

theorem rl_mhl_low {c : CPU} {m : MMU} {o : CPU × MMU × Nat} (h : CPU.rl_mhl c m = some o)
    (hc : c.reg_f &&& 15 = 0) : o.1.reg_f &&& 15 = 0 := by
  unfold CPU.rl_mhl at h
  repeat' (first | split at h | dsimp only at h)
  all_goals
    first
      | exact Option.noConfusion h
      | (rw [Option.some.injEq] at h
         subst h
         try dsimp only
         try simp only [set_flags_low, getF_setR8, getF_setR16, getF_incHL, getF_decHL, adc_core_low, add_core_low, add_hl_core_low, and_core_low, cp_core_low, or_core_low, sbc_core_low, sub_core_low, xor_core_low, dec8_core_low, inc8_core_low, rl_core_low, rlc_core_low, rr_core_low, rrc_core_low, sla_core_low, sra_core_low, srl_core_low, and240_low]
         try exact hc)

theorem rlc_mhl_low {c : CPU} {m : MMU} {o : CPU × MMU × Nat} (h : CPU.rlc_mhl c m = some o)
    (hc : c.reg_f &&& 15 = 0) : o.1.reg_f &&& 15 = 0 := by
  unfold CPU.rlc_mhl at h
  repeat' (first | split at h | dsimp only at h)
  all_goals
    first
      | exact Option.noConfusion h
      | (rw [Option.some.injEq] at h
         subst h
         try dsimp only
         try simp only [set_flags_low, getF_setR8, getF_setR16, getF_incHL, getF_decHL, adc_core_low, add_core_low, add_hl_core_low, and_core_low, cp_core_low, or_core_low, sbc_core_low, sub_core_low, xor_core_low, dec8_core_low, inc8_core_low, rl_core_low, rlc_core_low, rr_core_low, rrc_core_low, sla_core_low, sra_core_low, srl_core_low, and240_low]
         try exact hc)

theorem rr_mhl_low {c : CPU} {m : MMU} {o : CPU × MMU × Nat} (h : CPU.rr_mhl c m = some o)
    (hc : c.reg_f &&& 15 = 0) : o.1.reg_f &&& 15 = 0 := by
  unfold CPU.rr_mhl at h
  repeat' (first | split at h | dsimp only at h)
  all_goals
    first
      | exact Option.noConfusion h
      | (rw [Option.some.injEq] at h
         subst h
         try dsimp only
         try simp only [set_flags_low, getF_setR8, getF_setR16, getF_incHL, getF_decHL, adc_core_low, add_core_low, add_hl_core_low, and_core_low, cp_core_low, or_core_low, sbc_core_low, sub_core_low, xor_core_low, dec8_core_low, inc8_core_low, rl_core_low, rlc_core_low, rr_core_low, rrc_core_low, sla_core_low, sra_core_low, srl_core_low, and240_low]
         try exact hc)

theorem rrc_mhl_low {c : CPU} {m : MMU} {o : CPU × MMU × Nat} (h : CPU.rrc_mhl c m = some o)
    (hc : c.reg_f &&& 15 = 0) : o.1.reg_f &&& 15 = 0 := by
  unfold CPU.rrc_mhl at h
  repeat' (first | split at h | dsimp only at h)
  all_goals
    first
      | exact Option.noConfusion h
      | (rw [Option.some.injEq] at h
         subst h
         try dsimp only
         try simp only [set_flags_low, getF_setR8, getF_setR16, getF_incHL, getF_decHL, adc_core_low, add_core_low, add_hl_core_low, and_core_low, cp_core_low, or_core_low, sbc_core_low, sub_core_low, xor_core_low, dec8_core_low, inc8_core_low, rl_core_low, rlc_core_low, rr_core_low, rrc_core_low, sla_core_low, sra_core_low, srl_core_low, and240_low]
         try exact hc)

theorem sla_mhl_low {c : CPU} {m : MMU} {o : CPU × MMU × Nat} (h : CPU.sla_mhl c m = some o)
    (hc : c.reg_f &&& 15 = 0) : o.1.reg_f &&& 15 = 0 := by
  unfold CPU.sla_mhl at h
  repeat' (first | split at h | dsimp only at h)
  all_goals
    first
      | exact Option.noConfusion h
      | (rw [Option.some.injEq] at h
         subst h
         try dsimp only
         try simp only [set_flags_low, getF_setR8, getF_setR16, getF_incHL, getF_decHL, adc_core_low, add_core_low, add_hl_core_low, and_core_low, cp_core_low, or_core_low, sbc_core_low, sub_core_low, xor_core_low, dec8_core_low, inc8_core_low, rl_core_low, rlc_core_low, rr_core_low, rrc_core_low, sla_core_low, sra_core_low, srl_core_low, and240_low]
         try exact hc)

theorem sra_mhl_low {c : CPU} {m : MMU} {o : CPU × MMU × Nat} (h : CPU.sra_mhl c m = some o)
    (hc : c.reg_f &&& 15 = 0) : o.1.reg_f &&& 15 = 0 := by
  unfold CPU.sra_mhl at h
  repeat' (first | split at h | dsimp only at h)
  all_goals
    first
      | exact Option.noConfusion h
      | (rw [Option.some.injEq] at h
         subst h
         try dsimp only
         try simp only [set_flags_low, getF_setR8, getF_setR16, getF_incHL, getF_decHL, adc_core_low, add_core_low, add_hl_core_low, and_core_low, cp_core_low, or_core_low, sbc_core_low, sub_core_low, xor_core_low, dec8_core_low, inc8_core_low, rl_core_low, rlc_core_low, rr_core_low, rrc_core_low, sla_core_low, sra_core_low, srl_core_low, and240_low]
         try exact hc)

theorem srl_mhl_low {c : CPU} {m : MMU} {o : CPU × MMU × Nat} (h : CPU.srl_mhl c m = some o)
    (hc : c.reg_f &&& 15 = 0) : o.1.reg_f &&& 15 = 0 := by
  unfold CPU.srl_mhl at h
  repeat' (first | split at h | dsimp only at h)
  all_goals
    first
      | exact Option.noConfusion h
      | (rw [Option.some.injEq] at h
         subst h
         try dsimp only
         try simp only [set_flags_low, getF_setR8, getF_setR16, getF_incHL, getF_decHL, adc_core_low, add_core_low, add_hl_core_low, and_core_low, cp_core_low, or_core_low, sbc_core_low, sub_core_low, xor_core_low, dec8_core_low, inc8_core_low, rl_core_low, rlc_core_low, rr_core_low, rrc_core_low, sla_core_low, sra_core_low, srl_core_low, and240_low]
         try exact hc)

theorem ld_r8_n8_low {c : CPU} {m : MMU} {o : CPU × MMU × Nat} {r : R8} (h : CPU.ld_r8_n8 c m r = some o)
    (hc : c.reg_f &&& 15 = 0) : o.1.reg_f &&& 15 = 0 := by
  unfold CPU.ld_r8_n8 at h
  repeat' (first | split at h | dsimp only at h)
  all_goals
    first
      | exact Option.noConfusion h
      | (rw [Option.some.injEq] at h
         subst h
         try dsimp only
         try simp only [set_flags_low, getF_setR8, getF_setR16, getF_incHL, getF_decHL, adc_core_low, add_core_low, add_hl_core_low, and_core_low, cp_core_low, or_core_low, sbc_core_low, sub_core_low, xor_core_low, dec8_core_low, inc8_core_low, rl_core_low, rlc_core_low, rr_core_low, rrc_core_low, sla_core_low, sra_core_low, srl_core_low, and240_low]
         try exact hc)

theorem ld_r16_n16_low {c : CPU} {m : MMU} {o : CPU × MMU × Nat} {r : R16} (h : CPU.ld_r16_n16 c m r = some o)
    (hc : c.reg_f &&& 15 = 0) : o.1.reg_f &&& 15 = 0 := by
  unfold CPU.ld_r16_n16 at h
  repeat' (first | split at h | dsimp only at h)
  all_goals
    first
      | exact Option.noConfusion h
      | (rw [Option.some.injEq] at h
         subst h
         try dsimp only
         try simp only [set_flags_low, getF_setR8, getF_setR16, getF_incHL, getF_decHL, adc_core_low, add_core_low, add_hl_core_low, and_core_low, cp_core_low, or_core_low, sbc_core_low, sub_core_low, xor_core_low, dec8_core_low, inc8_core_low, rl_core_low, rlc_core_low, rr_core_low, rrc_core_low, sla_core_low, sra_core_low, srl_core_low, and240_low]
         try exact hc)

theorem ld_mhl_r8_low {c : CPU} {m : MMU} {o : CPU × MMU × Nat} {r : R8} (h : CPU.ld_mhl_r8 c m r = some o)
    (hc : c.reg_f &&& 15 = 0) : o.1.reg_f &&& 15 = 0 := by
  unfold CPU.ld_mhl_r8 at h
  repeat' (first | split at h | dsimp only at h)
  all_goals
    first
      | exact Option.noConfusion h
      | (rw [Option.some.injEq] at h
         subst h
         try dsimp only
         try simp only [set_flags_low, getF_setR8, getF_setR16, getF_incHL, getF_decHL, adc_core_low, add_core_low, add_hl_core_low, and_core_low, cp_core_low, or_core_low, sbc_core_low, sub_core_low, xor_core_low, dec8_core_low, inc8_core_low, rl_core_low, rlc_core_low, rr_core_low, rrc_core_low, sla_core_low, sra_core_low, srl_core_low, and240_low]
         try exact hc)

theorem ld_mhl_n8_low {c : CPU} {m : MMU} {o : CPU × MMU × Nat} (h : CPU.ld_mhl_n8 c m = some o)
    (hc : c.reg_f &&& 15 = 0) : o.1.reg_f &&& 15 = 0 := by
  unfold CPU.ld_mhl_n8 at h
  repeat' (first | split at h | dsimp only at h)
  all_goals
    first
      | exact Option.noConfusion h
      | (rw [Option.some.injEq] at h
         subst h
         try dsimp only
         try simp only [set_flags_low, getF_setR8, getF_setR16, getF_incHL, getF_decHL, adc_core_low, add_core_low, add_hl_core_low, and_core_low, cp_core_low, or_core_low, sbc_core_low, sub_core_low, xor_core_low, dec8_core_low, inc8_core_low, rl_core_low, rlc_core_low, rr_core_low, rrc_core_low, sla_core_low, sra_core_low, srl_core_low, and240_low]
         try exact hc)

theorem ld_r8_mhl_low {c : CPU} {m : MMU} {o : CPU × MMU × Nat} {r : R8} (h : CPU.ld_r8_mhl c m r = some o)
    (hc : c.reg_f &&& 15 = 0) : o.1.reg_f &&& 15 = 0 := by
  unfold CPU.ld_r8_mhl at h
  repeat' (first | split at h | dsimp only at h)
  all_goals
    first
      | exact Option.noConfusion h
      | (rw [Option.some.injEq] at h
         subst h
         try dsimp only
         try simp only [set_flags_low, getF_setR8, getF_setR16, getF_incHL, getF_decHL, adc_core_low, add_core_low, add_hl_core_low, and_core_low, cp_core_low, or_core_low, sbc_core_low, sub_core_low, xor_core_low, dec8_core_low, inc8_core_low, rl_core_low, rlc_core_low, rr_core_low, rrc_core_low, sla_core_low, sra_core_low, srl_core_low, and240_low]
         try exact hc)

theorem ld_a_mr16_low {c : CPU} {m : MMU} {o : CPU × MMU × Nat} {r : R16} (h : CPU.ld_a_mr16 c m r = some o)
    (hc : c.reg_f &&& 15 = 0) : o.1.reg_f &&& 15 = 0 := by
  unfold CPU.ld_a_mr16 at h
  repeat' (first | split at h | dsimp only at h)
  all_goals
    first
      | exact Option.noConfusion h
      | (rw [Option.some.injEq] at h
         subst h
         try dsimp only
         try simp only [set_flags_low, getF_setR8, getF_setR16, getF_incHL, getF_decHL, adc_core_low, add_core_low, add_hl_core_low, and_core_low, cp_core_low, or_core_low, sbc_core_low, sub_core_low, xor_core_low, dec8_core_low, inc8_core_low, rl_core_low, rlc_core_low, rr_core_low, rrc_core_low, sla_core_low, sra_core_low, srl_core_low, and240_low]
         try exact hc)

theorem ld_mr16_a_low {c : CPU} {m : MMU} {o : CPU × MMU × Nat} {r : R16} (h : CPU.ld_mr16_a c m r = some o)
    (hc : c.reg_f &&& 15 = 0) : o.1.reg_f &&& 15 = 0 := by
  unfold CPU.ld_mr16_a at h
  repeat' (first | split at h | dsimp only at h)
  all_goals
    first
      | exact Option.noConfusion h
      | (rw [Option.some.injEq] at h
         subst h
         try dsimp only
         try simp only [set_flags_low, getF_setR8, getF_setR16, getF_incHL, getF_decHL, adc_core_low, add_core_low, add_hl_core_low, and_core_low, cp_core_low, or_core_low, sbc_core_low, sub_core_low, xor_core_low, dec8_core_low, inc8_core_low, rl_core_low, rlc_core_low, rr_core_low, rrc_core_low, sla_core_low, sra_core_low, srl_core_low, and240_low]
         try exact hc)

theorem ld_a_mn16_low {c : CPU} {m : MMU} {o : CPU × MMU × Nat} (h : CPU.ld_a_mn16 c m = some o)
    (hc : c.reg_f &&& 15 = 0) : o.1.reg_f &&& 15 = 0 := by
  unfold CPU.ld_a_mn16 at h
  repeat' (first | split at h | dsimp only at h)
  all_goals
    first
      | exact Option.noConfusion h
      | (rw [Option.some.injEq] at h
         subst h
         try dsimp only
         try simp only [set_flags_low, getF_setR8, getF_setR16, getF_incHL, getF_decHL, adc_core_low, add_core_low, add_hl_core_low, and_core_low, cp_core_low, or_core_low, sbc_core_low, sub_core_low, xor_core_low, dec8_core_low, inc8_core_low, rl_core_low, rlc_core_low, rr_core_low, rrc_core_low, sla_core_low, sra_core_low, srl_core_low, and240_low]
         try exact hc)

theorem ld_mn16_a_low {c : CPU} {m : MMU} {o : CPU × MMU × Nat} (h : CPU.ld_mn16_a c m = some o)
    (hc : c.reg_f &&& 15 = 0) : o.1.reg_f &&& 15 = 0 := by
  unfold CPU.ld_mn16_a at h
  repeat' (first | split at h | dsimp only at h)
  all_goals
    first
      | exact Option.noConfusion h
      | (rw [Option.some.injEq] at h
         subst h
         try dsimp only
         try simp only [set_flags_low, getF_setR8, getF_setR16, getF_incHL, getF_decHL, adc_core_low, add_core_low, add_hl_core_low, and_core_low, cp_core_low, or_core_low, sbc_core_low, sub_core_low, xor_core_low, dec8_core_low, inc8_core_low, rl_core_low, rlc_core_low, rr_core_low, rrc_core_low, sla_core_low, sra_core_low, srl_core_low, and240_low]
         try exact hc)

theorem ldh_mn16_a_low {c : CPU} {m : MMU} {o : CPU × MMU × Nat} (h : CPU.ldh_mn16_a c m = some o)
    (hc : c.reg_f &&& 15 = 0) : o.1.reg_f &&& 15 = 0 := by
  unfold CPU.ldh_mn16_a at h
  repeat' (first | split at h | dsimp only at h)
  all_goals
    first
      | exact Option.noConfusion h
      | (rw [Option.some.injEq] at h
         subst h
         try dsimp only
         try simp only [set_flags_low, getF_setR8, getF_setR16, getF_incHL, getF_decHL, adc_core_low, add_core_low, add_hl_core_low, and_core_low, cp_core_low, or_core_low, sbc_core_low, sub_core_low, xor_core_low, dec8_core_low, inc8_core_low, rl_core_low, rlc_core_low, rr_core_low, rrc_core_low, sla_core_low, sra_core_low, srl_core_low, and240_low]
         try exact hc)

theorem ldh_mc_a_low {c : CPU} {m : MMU} {o : CPU × MMU × Nat} (h : CPU.ldh_mc_a c m = some o)
    (hc : c.reg_f &&& 15 = 0) : o.1.reg_f &&& 15 = 0 := by
  unfold CPU.ldh_mc_a at h
  repeat' (first | split at h | dsimp only at h)
  all_goals
    first
      | exact Option.noConfusion h
      | (rw [Option.some.injEq] at h
         subst h
         try dsimp only
         try simp only [set_flags_low, getF_setR8, getF_setR16, getF_incHL, getF_decHL, adc_core_low, add_core_low, add_hl_core_low, and_core_low, cp_core_low, or_core_low, sbc_core_low, sub_core_low, xor_core_low, dec8_core_low, inc8_core_low, rl_core_low, rlc_core_low, rr_core_low, rrc_core_low, sla_core_low, sra_core_low, srl_core_low, and240_low]
         try exact hc)

theorem ldh_a_mn16_low {c : CPU} {m : MMU} {o : CPU × MMU × Nat} (h : CPU.ldh_a_mn16 c m = some o)
    (hc : c.reg_f &&& 15 = 0) : o.1.reg_f &&& 15 = 0 := by
  unfold CPU.ldh_a_mn16 at h
  repeat' (first | split at h | dsimp only at h)
  all_goals
    first
      | exact Option.noConfusion h
      | (rw [Option.some.injEq] at h
         subst h
         try dsimp only
         try simp only [set_flags_low, getF_setR8, getF_setR16, getF_incHL, getF_decHL, adc_core_low, add_core_low, add_hl_core_low, and_core_low, cp_core_low, or_core_low, sbc_core_low, sub_core_low, xor_core_low, dec8_core_low, inc8_core_low, rl_core_low, rlc_core_low, rr_core_low, rrc_core_low, sla_core_low, sra_core_low, srl_core_low, and240_low]
         try exact hc)

theorem ldh_a_mc_low {c : CPU} {m : MMU} {o : CPU × MMU × Nat} (h : CPU.ldh_a_mc c m = some o)
    (hc : c.reg_f &&& 15 = 0) : o.1.reg_f &&& 15 = 0 := by
  unfold CPU.ldh_a_mc at h
  repeat' (first | split at h | dsimp only at h)
  all_goals
    first
      | exact Option.noConfusion h
      | (rw [Option.some.injEq] at h
         subst h
         try dsimp only
         try simp only [set_flags_low, getF_setR8, getF_setR16, getF_incHL, getF_decHL, adc_core_low, add_core_low, add_hl_core_low, and_core_low, cp_core_low, or_core_low, sbc_core_low, sub_core_low, xor_core_low, dec8_core_low, inc8_core_low, rl_core_low, rlc_core_low, rr_core_low, rrc_core_low, sla_core_low, sra_core_low, srl_core_low, and240_low]
         try exact hc)

theorem ld_hli_a_low {c : CPU} {m : MMU} {o : CPU × MMU × Nat} (h : CPU.ld_hli_a c m = some o)
    (hc : c.reg_f &&& 15 = 0) : o.1.reg_f &&& 15 = 0 := by
  unfold CPU.ld_hli_a at h
  repeat' (first | split at h | dsimp only at h)
  all_goals
    first
      | exact Option.noConfusion h
      | (rw [Option.some.injEq] at h
         subst h
         try dsimp only
         try simp only [set_flags_low, getF_setR8, getF_setR16, getF_incHL, getF_decHL, adc_core_low, add_core_low, add_hl_core_low, and_core_low, cp_core_low, or_core_low, sbc_core_low, sub_core_low, xor_core_low, dec8_core_low, inc8_core_low, rl_core_low, rlc_core_low, rr_core_low, rrc_core_low, sla_core_low, sra_core_low, srl_core_low, and240_low]
         try exact hc)

theorem ld_hld_a_low {c : CPU} {m : MMU} {o : CPU × MMU × Nat} (h : CPU.ld_hld_a c m = some o)
    (hc : c.reg_f &&& 15 = 0) : o.1.reg_f &&& 15 = 0 := by
  unfold CPU.ld_hld_a at h
  repeat' (first | split at h | dsimp only at h)
  all_goals
    first
      | exact Option.noConfusion h
      | (rw [Option.some.injEq] at h
         subst h
         try dsimp only
         try simp only [set_flags_low, getF_setR8, getF_setR16, getF_incHL, getF_decHL, adc_core_low, add_core_low, add_hl_core_low, and_core_low, cp_core_low, or_core_low, sbc_core_low, sub_core_low, xor_core_low, dec8_core_low, inc8_core_low, rl_core_low, rlc_core_low, rr_core_low, rrc_core_low, sla_core_low, sra_core_low, srl_core_low, and240_low]
         try exact hc)

theorem ld_a_hli_low {c : CPU} {m : MMU} {o : CPU × MMU × Nat} (h : CPU.ld_a_hli c m = some o)
    (hc : c.reg_f &&& 15 = 0) : o.1.reg_f &&& 15 = 0 := by
  unfold CPU.ld_a_hli at h
  repeat' (first | split at h | dsimp only at h)
  all_goals
    first
      | exact Option.noConfusion h
      | (rw [Option.some.injEq] at h
         subst h
         try dsimp only
         try simp only [set_flags_low, getF_setR8, getF_setR16, getF_incHL, getF_decHL, adc_core_low, add_core_low, add_hl_core_low, and_core_low, cp_core_low, or_core_low, sbc_core_low, sub_core_low, xor_core_low, dec8_core_low, inc8_core_low, rl_core_low, rlc_core_low, rr_core_low, rrc_core_low, sla_core_low, sra_core_low, srl_core_low, and240_low]
         try exact hc)

theorem ld_a_hld_low {c : CPU} {m : MMU} {o : CPU × MMU × Nat} (h : CPU.ld_a_hld c m = some o)
    (hc : c.reg_f &&& 15 = 0) : o.1.reg_f &&& 15 = 0 := by
  unfold CPU.ld_a_hld at h
  repeat' (first | split at h | dsimp only at h)
  all_goals
    first
      | exact Option.noConfusion h
      | (rw [Option.some.injEq] at h
         subst h
         try dsimp only
         try simp only [set_flags_low, getF_setR8, getF_setR16, getF_incHL, getF_decHL, adc_core_low, add_core_low, add_hl_core_low, and_core_low, cp_core_low, or_core_low, sbc_core_low, sub_core_low, xor_core_low, dec8_core_low, inc8_core_low, rl_core_low, rlc_core_low, rr_core_low, rrc_core_low, sla_core_low, sra_core_low, srl_core_low, and240_low]
         try exact hc)

theorem ld_sp_n16_low {c : CPU} {m : MMU} {o : CPU × MMU × Nat} (h : CPU.ld_sp_n16 c m = some o)
    (hc : c.reg_f &&& 15 = 0) : o.1.reg_f &&& 15 = 0 := by
  unfold CPU.ld_sp_n16 at h
  repeat' (first | split at h | dsimp only at h)
  all_goals
    first
      | exact Option.noConfusion h
      | (rw [Option.some.injEq] at h
         subst h
         try dsimp only
         try simp only [set_flags_low, getF_setR8, getF_setR16, getF_incHL, getF_decHL, adc_core_low, add_core_low, add_hl_core_low, and_core_low, cp_core_low, or_core_low, sbc_core_low, sub_core_low, xor_core_low, dec8_core_low, inc8_core_low, rl_core_low, rlc_core_low, rr_core_low, rrc_core_low, sla_core_low, sra_core_low, srl_core_low, and240_low]
         try exact hc)

theorem ld_mn16_sp_low {c : CPU} {m : MMU} {o : CPU × MMU × Nat} (h : CPU.ld_mn16_sp c m = some o)
    (hc : c.reg_f &&& 15 = 0) : o.1.reg_f &&& 15 = 0 := by
  unfold CPU.ld_mn16_sp at h
  repeat' (first | split at h | dsimp only at h)
  all_goals
    first
      | exact Option.noConfusion h
      | (rw [Option.some.injEq] at h
         subst h
         try dsimp only
         try simp only [set_flags_low, getF_setR8, getF_setR16, getF_incHL, getF_decHL, adc_core_low, add_core_low, add_hl_core_low, and_core_low, cp_core_low, or_core_low, sbc_core_low, sub_core_low, xor_core_low, dec8_core_low, inc8_core_low, rl_core_low, rlc_core_low, rr_core_low, rrc_core_low, sla_core_low, sra_core_low, srl_core_low, and240_low]
         try exact hc)

theorem ld_hl_spe8_low {c : CPU} {m : MMU} {o : CPU × MMU × Nat} (h : CPU.ld_hl_spe8 c m = some o)
    (hc : c.reg_f &&& 15 = 0) : o.1.reg_f &&& 15 = 0 := by
  unfold CPU.ld_hl_spe8 at h
  repeat' (first | split at h | dsimp only at h)
  all_goals
    first
      | exact Option.noConfusion h
      | (rw [Option.some.injEq] at h
         subst h
         try dsimp only
         try simp only [set_flags_low, getF_setR8, getF_setR16, getF_incHL, getF_decHL, adc_core_low, add_core_low, add_hl_core_low, and_core_low, cp_core_low, or_core_low, sbc_core_low, sub_core_low, xor_core_low, dec8_core_low, inc8_core_low, rl_core_low, rlc_core_low, rr_core_low, rrc_core_low, sla_core_low, sra_core_low, srl_core_low, and240_low]
         try exact hc)

theorem call_n16_low {c : CPU} {m : MMU} {o : CPU × MMU × Nat} (h : CPU.call_n16 c m = some o)
    (hc : c.reg_f &&& 15 = 0) : o.1.reg_f &&& 15 = 0 := by
  unfold CPU.call_n16 at h
  repeat' (first | split at h | dsimp only at h)
  all_goals
    first
      | exact Option.noConfusion h
      | (rw [Option.some.injEq] at h
         subst h
         try dsimp only
         try simp only [set_flags_low, getF_setR8, getF_setR16, getF_incHL, getF_decHL, adc_core_low, add_core_low, add_hl_core_low, and_core_low, cp_core_low, or_core_low, sbc_core_low, sub_core_low, xor_core_low, dec8_core_low, inc8_core_low, rl_core_low, rlc_core_low, rr_core_low, rrc_core_low, sla_core_low, sra_core_low, srl_core_low, and240_low]
         try exact hc)

theorem call_cc_n16_low {c : CPU} {m : MMU} {o : CPU × MMU × Nat} {cond : CC} (h : CPU.call_cc_n16 c m cond = some o)
    (hc : c.reg_f &&& 15 = 0) : o.1.reg_f &&& 15 = 0 := by
  unfold CPU.call_cc_n16 at h
  repeat' (first | split at h | dsimp only at h)
  all_goals
    first
      | exact Option.noConfusion h
      | (rw [Option.some.injEq] at h
         subst h
         try dsimp only
         try simp only [set_flags_low, getF_setR8, getF_setR16, getF_incHL, getF_decHL, adc_core_low, add_core_low, add_hl_core_low, and_core_low, cp_core_low, or_core_low, sbc_core_low, sub_core_low, xor_core_low, dec8_core_low, inc8_core_low, rl_core_low, rlc_core_low, rr_core_low, rrc_core_low, sla_core_low, sra_core_low, srl_core_low, and240_low]
         try exact hc)

theorem jp_n16_low {c : CPU} {m : MMU} {o : CPU × MMU × Nat} (h : CPU.jp_n16 c m = some o)
    (hc : c.reg_f &&& 15 = 0) : o.1.reg_f &&& 15 = 0 := by
  unfold CPU.jp_n16 at h
  repeat' (first | split at h | dsimp only at h)
  all_goals
    first
      | exact Option.noConfusion h
      | (rw [Option.some.injEq] at h
         subst h
         try dsimp only
         try simp only [set_flags_low, getF_setR8, getF_setR16, getF_incHL, getF_decHL, adc_core_low, add_core_low, add_hl_core_low, and_core_low, cp_core_low, or_core_low, sbc_core_low, sub_core_low, xor_core_low, dec8_core_low, inc8_core_low, rl_core_low, rlc_core_low, rr_core_low, rrc_core_low, sla_core_low, sra_core_low, srl_core_low, and240_low]
         try exact hc)

theorem jp_cc_n16_low {c : CPU} {m : MMU} {o : CPU × MMU × Nat} {cond : CC} (h : CPU.jp_cc_n16 c m cond = some o)
    (hc : c.reg_f &&& 15 = 0) : o.1.reg_f &&& 15 = 0 := by
  unfold CPU.jp_cc_n16 at h
  repeat' (first | split at h | dsimp only at h)
  all_goals
    first
      | exact Option.noConfusion h
      | (rw [Option.some.injEq] at h
         subst h
         try dsimp only
         try simp only [set_flags_low, getF_setR8, getF_setR16, getF_incHL, getF_decHL, adc_core_low, add_core_low, add_hl_core_low, and_core_low, cp_core_low, or_core_low, sbc_core_low, sub_core_low, xor_core_low, dec8_core_low, inc8_core_low, rl_core_low, rlc_core_low, rr_core_low, rrc_core_low, sla_core_low, sra_core_low, srl_core_low, and240_low]
         try exact hc)

theorem jr_n16_low {c : CPU} {m : MMU} {o : CPU × MMU × Nat} (h : CPU.jr_n16 c m = some o)
    (hc : c.reg_f &&& 15 = 0) : o.1.reg_f &&& 15 = 0 := by
  unfold CPU.jr_n16 at h
  repeat' (first | split at h | dsimp only at h)
  all_goals
    first
      | exact Option.noConfusion h
      | (rw [Option.some.injEq] at h
         subst h
         try dsimp only
         try simp only [set_flags_low, getF_setR8, getF_setR16, getF_incHL, getF_decHL, adc_core_low, add_core_low, add_hl_core_low, and_core_low, cp_core_low, or_core_low, sbc_core_low, sub_core_low, xor_core_low, dec8_core_low, inc8_core_low, rl_core_low, rlc_core_low, rr_core_low, rrc_core_low, sla_core_low, sra_core_low, srl_core_low, and240_low]
         try exact hc)

theorem jr_cc_n16_low {c : CPU} {m : MMU} {o : CPU × MMU × Nat} {cond : CC} (h : CPU.jr_cc_n16 c m cond = some o)
    (hc : c.reg_f &&& 15 = 0) : o.1.reg_f &&& 15 = 0 := by
  unfold CPU.jr_cc_n16 at h
  repeat' (first | split at h | dsimp only at h)
  all_goals
    first
      | exact Option.noConfusion h
      | (rw [Option.some.injEq] at h
         subst h
         try dsimp only
         try simp only [set_flags_low, getF_setR8, getF_setR16, getF_incHL, getF_decHL, adc_core_low, add_core_low, add_hl_core_low, and_core_low, cp_core_low, or_core_low, sbc_core_low, sub_core_low, xor_core_low, dec8_core_low, inc8_core_low, rl_core_low, rlc_core_low, rr_core_low, rrc_core_low, sla_core_low, sra_core_low, srl_core_low, and240_low]
         try exact hc)

theorem ret_low {c : CPU} {m : MMU} {o : CPU × MMU × Nat} (h : CPU.ret c m = some o)
    (hc : c.reg_f &&& 15 = 0) : o.1.reg_f &&& 15 = 0 := by
  unfold CPU.ret at h
  repeat' (first | split at h | dsimp only at h)
  all_goals
    first
      | exact Option.noConfusion h
      | (rw [Option.some.injEq] at h
         subst h
         try dsimp only
         try simp only [set_flags_low, getF_setR8, getF_setR16, getF_incHL, getF_decHL, adc_core_low, add_core_low, add_hl_core_low, and_core_low, cp_core_low, or_core_low, sbc_core_low, sub_core_low, xor_core_low, dec8_core_low, inc8_core_low, rl_core_low, rlc_core_low, rr_core_low, rrc_core_low, sla_core_low, sra_core_low, srl_core_low, and240_low]
         try exact hc)

theorem ret_cc_low {c : CPU} {m : MMU} {o : CPU × MMU × Nat} {cond : CC} (h : CPU.ret_cc c m cond = some o)
    (hc : c.reg_f &&& 15 = 0) : o.1.reg_f &&& 15 = 0 := by
  unfold CPU.ret_cc at h
  repeat' (first | split at h | dsimp only at h)
  all_goals
    first
      | exact Option.noConfusion h
      | (rw [Option.some.injEq] at h
         subst h
         try dsimp only
         try simp only [set_flags_low, getF_setR8, getF_setR16, getF_incHL, getF_decHL, adc_core_low, add_core_low, add_hl_core_low, and_core_low, cp_core_low, or_core_low, sbc_core_low, sub_core_low, xor_core_low, dec8_core_low, inc8_core_low, rl_core_low, rlc_core_low, rr_core_low, rrc_core_low, sla_core_low, sra_core_low, srl_core_low, and240_low]
         try exact hc)

theorem reti_low {c : CPU} {m : MMU} {o : CPU × MMU × Nat} (h : CPU.reti c m = some o)
    (hc : c.reg_f &&& 15 = 0) : o.1.reg_f &&& 15 = 0 := by
  unfold CPU.reti at h
  repeat' (first | split at h | dsimp only at h)
  all_goals
    first
      | exact Option.noConfusion h
      | (rw [Option.some.injEq] at h
         subst h
         try dsimp only
         try simp only [set_flags_low, getF_setR8, getF_setR16, getF_incHL, getF_decHL, adc_core_low, add_core_low, add_hl_core_low, and_core_low, cp_core_low, or_core_low, sbc_core_low, sub_core_low, xor_core_low, dec8_core_low, inc8_core_low, rl_core_low, rlc_core_low, rr_core_low, rrc_core_low, sla_core_low, sra_core_low, srl_core_low, and240_low]
         try exact hc)

theorem rst_low {c : CPU} {m : MMU} {o : CPU × MMU × Nat} {a : RST} (h : CPU.rst c m a = some o)
    (hc : c.reg_f &&& 15 = 0) : o.1.reg_f &&& 15 = 0 := by
  unfold CPU.rst at h
  repeat' (first | split at h | dsimp only at h)
  all_goals
    first
      | exact Option.noConfusion h
      | (rw [Option.some.injEq] at h
         subst h
         try dsimp only
         try simp only [set_flags_low, getF_setR8, getF_setR16, getF_incHL, getF_decHL, adc_core_low, add_core_low, add_hl_core_low, and_core_low, cp_core_low, or_core_low, sbc_core_low, sub_core_low, xor_core_low, dec8_core_low, inc8_core_low, rl_core_low, rlc_core_low, rr_core_low, rrc_core_low, sla_core_low, sra_core_low, srl_core_low, and240_low]
         try exact hc)

theorem pop_af_low {c : CPU} {m : MMU} {o : CPU × MMU × Nat} (h : CPU.pop_af c m = some o)
    (hc : c.reg_f &&& 15 = 0) : o.1.reg_f &&& 15 = 0 := by
  unfold CPU.pop_af at h
  repeat' (first | split at h | dsimp only at h)
  all_goals
    first
      | exact Option.noConfusion h
      | (rw [Option.some.injEq] at h
         subst h
         try dsimp only
         try simp only [set_flags_low, getF_setR8, getF_setR16, getF_incHL, getF_decHL, adc_core_low, add_core_low, add_hl_core_low, and_core_low, cp_core_low, or_core_low, sbc_core_low, sub_core_low, xor_core_low, dec8_core_low, inc8_core_low, rl_core_low, rlc_core_low, rr_core_low, rrc_core_low, sla_core_low, sra_core_low, srl_core_low, and240_low]
         try exact hc)

theorem pop_r16_low {c : CPU} {m : MMU} {o : CPU × MMU × Nat} {r : R16} (h : CPU.pop_r16 c m r = some o)
    (hc : c.reg_f &&& 15 = 0) : o.1.reg_f &&& 15 = 0 := by
  unfold CPU.pop_r16 at h
  repeat' (first | split at h | dsimp only at h)
  all_goals
    first
      | exact Option.noConfusion h
      | (rw [Option.some.injEq] at h
         subst h
         try dsimp only
         try simp only [set_flags_low, getF_setR8, getF_setR16, getF_incHL, getF_decHL, adc_core_low, add_core_low, add_hl_core_low, and_core_low, cp_core_low, or_core_low, sbc_core_low, sub_core_low, xor_core_low, dec8_core_low, inc8_core_low, rl_core_low, rlc_core_low, rr_core_low, rrc_core_low, sla_core_low, sra_core_low, srl_core_low, and240_low]
         try exact hc)

theorem push_af_low {c : CPU} {m : MMU} {o : CPU × MMU × Nat} (h : CPU.push_af c m = some o)
    (hc : c.reg_f &&& 15 = 0) : o.1.reg_f &&& 15 = 0 := by
  unfold CPU.push_af at h
  repeat' (first | split at h | dsimp only at h)
  all_goals
    first
      | exact Option.noConfusion h
      | (rw [Option.some.injEq] at h
         subst h
         try dsimp only
         try simp only [set_flags_low, getF_setR8, getF_setR16, getF_incHL, getF_decHL, adc_core_low, add_core_low, add_hl_core_low, and_core_low, cp_core_low, or_core_low, sbc_core_low, sub_core_low, xor_core_low, dec8_core_low, inc8_core_low, rl_core_low, rlc_core_low, rr_core_low, rrc_core_low, sla_core_low, sra_core_low, srl_core_low, and240_low]
         try exact hc)

theorem push_r16_low {c : CPU} {m : MMU} {o : CPU × MMU × Nat} {r : R16} (h : CPU.push_r16 c m r = some o)
    (hc : c.reg_f &&& 15 = 0) : o.1.reg_f &&& 15 = 0 := by
  unfold CPU.push_r16 at h
  repeat' (first | split at h | dsimp only at h)
  all_goals
    first
      | exact Option.noConfusion h
      | (rw [Option.some.injEq] at h
         subst h
         try dsimp only
         try simp only [set_flags_low, getF_setR8, getF_setR16, getF_incHL, getF_decHL, adc_core_low, add_core_low, add_hl_core_low, and_core_low, cp_core_low, or_core_low, sbc_core_low, sub_core_low, xor_core_low, dec8_core_low, inc8_core_low, rl_core_low, rlc_core_low, rr_core_low, rrc_core_low, sla_core_low, sra_core_low, srl_core_low, and240_low]
         try exact hc)

set_option maxHeartbeats 1000000 in
theorem map_cb_low {c : CPU} {m : MMU} {opc : Nat} {o : CPU × MMU × Nat}
    (h : CPU.map_cb c m opc = some o) (hc : c.reg_f &&& 15 = 0) :
    o.1.reg_f &&& 15 = 0 := by
  unfold CPU.map_cb at h
  split at h <;> split at h
  · exact rlc_r8_plow h hc
  · exact rlc_r8_plow h hc
  · exact rlc_r8_plow h hc
  · exact rlc_r8_plow h hc
  · exact rlc_r8_plow h hc
  · exact rlc_r8_plow h hc
  · exact rlc_mhl_low h hc
  · exact rlc_r8_plow h hc
  · exact rrc_r8_plow h hc
  · exact rrc_r8_plow h hc
  · exact rrc_r8_plow h hc
  · exact rrc_r8_plow h hc
  · exact rrc_r8_plow h hc
  · exact rrc_r8_plow h hc
  · exact rrc_mhl_low h hc
  · exact rrc_r8_plow h hc
  · exact rl_r8_plow h hc
  · exact rl_r8_plow h hc
  · exact rl_r8_plow h hc
  · exact rl_r8_plow h hc
  · exact rl_r8_plow h hc
  · exact rl_r8_plow h hc
  · exact rl_mhl_low h hc
  · exact rl_r8_plow h hc
  · exact rr_r8_plow h hc
  · exact rr_r8_plow h hc
  · exact rr_r8_plow h hc
  · exact rr_r8_plow h hc
  · exact rr_r8_plow h hc
  · exact rr_r8_plow h hc
  · exact rr_mhl_low h hc
  · exact rr_r8_plow h hc
  · exact sla_r8_plow h hc
  · exact sla_r8_plow h hc
  · exact sla_r8_plow h hc
  · exact sla_r8_plow h hc
  · exact sla_r8_plow h hc
  · exact sla_r8_plow h hc
  · exact sla_mhl_low h hc
  · exact sla_r8_plow h hc
  · exact sra_r8_plow h hc
  · exact sra_r8_plow h hc
  · exact sra_r8_plow h hc
  · exact sra_r8_plow h hc
  · exact sra_r8_plow h hc
  · exact sra_r8_plow h hc
  · exact sra_mhl_low h hc
  · exact sra_r8_plow h hc
  · exact swap_r8_plow h hc
  · exact swap_r8_plow h hc
  · exact swap_r8_plow h hc
  · exact swap_r8_plow h hc
  · exact swap_r8_plow h hc
  · exact swap_r8_plow h hc
  · exact swap_mhl_low h hc
  · exact swap_r8_plow h hc
  · exact srl_r8_plow h hc
  · exact srl_r8_plow h hc
  · exact srl_r8_plow h hc
  · exact srl_r8_plow h hc
  · exact srl_r8_plow h hc
  · exact srl_r8_plow h hc
  · exact srl_mhl_low h hc
  · exact srl_r8_plow h hc
  · exact bit_u3_r8_plow h hc
  · exact bit_u3_r8_plow h hc
  · exact bit_u3_r8_plow h hc
  · exact bit_u3_r8_plow h hc
  · exact bit_u3_r8_plow h hc
  · exact bit_u3_r8_plow h hc
  · exact bit_u3_mhl_low h hc
  · exact bit_u3_r8_plow h hc
  · exact bit_u3_r8_plow h hc
  · exact bit_u3_r8_plow h hc
  · exact bit_u3_r8_plow h hc
  · exact bit_u3_r8_plow h hc
  · exact bit_u3_r8_plow h hc
  · exact bit_u3_r8_plow h hc
  · exact bit_u3_mhl_low h hc
  · exact bit_u3_r8_plow h hc
  · exact bit_u3_r8_plow h hc
  · exact bit_u3_r8_plow h hc
  · exact bit_u3_r8_plow h hc
  · exact bit_u3_r8_plow h hc
  · exact bit_u3_r8_plow h hc
  · exact bit_u3_r8_plow h hc
  · exact bit_u3_mhl_low h hc
  · exact bit_u3_r8_plow h hc
  · exact bit_u3_r8_plow h hc
  · exact bit_u3_r8_plow h hc
  · exact bit_u3_r8_plow h hc
  · exact bit_u3_r8_plow h hc
  · exact bit_u3_r8_plow h hc
  · exact bit_u3_r8_plow h hc
  · exact bit_u3_mhl_low h hc
  · exact bit_u3_r8_plow h hc
  · exact bit_u3_r8_plow h hc
  · exact bit_u3_r8_plow h hc
  · exact bit_u3_r8_plow h hc
  · exact bit_u3_r8_plow h hc
  · exact bit_u3_r8_plow h hc
  · exact bit_u3_r8_plow h hc
  · exact bit_u3_mhl_low h hc
  · exact bit_u3_r8_plow h hc
  · exact bit_u3_r8_plow h hc
  · exact bit_u3_r8_plow h hc
  · exact bit_u3_r8_plow h hc
  · exact bit_u3_r8_plow h hc
  · exact bit_u3_r8_plow h hc
  · exact bit_u3_r8_plow h hc
  · exact bit_u3_mhl_low h hc
  · exact bit_u3_r8_plow h hc
  · exact bit_u3_r8_plow h hc
  · exact bit_u3_r8_plow h hc
  · exact bit_u3_r8_plow h hc
  · exact bit_u3_r8_plow h hc
  · exact bit_u3_r8_plow h hc
  · exact bit_u3_r8_plow h hc
  · exact bit_u3_mhl_low h hc
  · exact bit_u3_r8_plow h hc
  · exact bit_u3_r8_plow h hc
  · exact bit_u3_r8_plow h hc
  · exact bit_u3_r8_plow h hc
  · exact bit_u3_r8_plow h hc
  · exact bit_u3_r8_plow h hc
  · exact bit_u3_r8_plow h hc
  · exact bit_u3_mhl_low h hc
  · exact bit_u3_r8_plow h hc
  · exact res_u3_r8_plow h hc
  · exact res_u3_r8_plow h hc
  · exact res_u3_r8_plow h hc
  · exact res_u3_r8_plow h hc
  · exact res_u3_r8_plow h hc
  · exact res_u3_r8_plow h hc
  · exact res_u3_mhl_low h hc
  · exact res_u3_r8_plow h hc
  · exact res_u3_r8_plow h hc
  · exact res_u3_r8_plow h hc
  · exact res_u3_r8_plow h hc
  · exact res_u3_r8_plow h hc
  · exact res_u3_r8_plow h hc
  · exact res_u3_r8_plow h hc
  · exact res_u3_mhl_low h hc
  · exact res_u3_r8_plow h hc
  · exact res_u3_r8_plow h hc
  · exact res_u3_r8_plow h hc
  · exact res_u3_r8_plow h hc
  · exact res_u3_r8_plow h hc
  · exact res_u3_r8_plow h hc
  · exact res_u3_r8_plow h hc
  · exact res_u3_mhl_low h hc
  · exact res_u3_r8_plow h hc
  · exact res_u3_r8_plow h hc
  · exact res_u3_r8_plow h hc
  · exact res_u3_r8_plow h hc
  · exact res_u3_r8_plow h hc
  · exact res_u3_r8_plow h hc
  · exact res_u3_r8_plow h hc
  · exact res_u3_mhl_low h hc
  · exact res_u3_r8_plow h hc
  · exact res_u3_r8_plow h hc
  · exact res_u3_r8_plow h hc
  · exact res_u3_r8_plow h hc
  · exact res_u3_r8_plow h hc
  · exact res_u3_r8_plow h hc
  · exact res_u3_r8_plow h hc
  · exact res_u3_mhl_low h hc
  · exact res_u3_r8_plow h hc
  · exact res_u3_r8_plow h hc
  · exact res_u3_r8_plow h hc
  · exact res_u3_r8_plow h hc
  · exact res_u3_r8_plow h hc
  · exact res_u3_r8_plow h hc
  · exact res_u3_r8_plow h hc
  · exact res_u3_mhl_low h hc
  · exact res_u3_r8_plow h hc
  · exact res_u3_r8_plow h hc
  · exact res_u3_r8_plow h hc
  · exact res_u3_r8_plow h hc
  · exact res_u3_r8_plow h hc
  · exact res_u3_r8_plow h hc
  · exact res_u3_r8_plow h hc
  · exact res_u3_mhl_low h hc
  · exact res_u3_r8_plow h hc
  · exact res_u3_r8_plow h hc
  · exact res_u3_r8_plow h hc
  · exact res_u3_r8_plow h hc
  · exact res_u3_r8_plow h hc
  · exact res_u3_r8_plow h hc
  · exact res_u3_r8_plow h hc
  · exact res_u3_mhl_low h hc
  · exact res_u3_r8_plow h hc
  · exact set_u3_r8_plow h hc
  · exact set_u3_r8_plow h hc
  · exact set_u3_r8_plow h hc
  · exact set_u3_r8_plow h hc
  · exact set_u3_r8_plow h hc
  · exact set_u3_r8_plow h hc
  · exact set_u3_mhl_low h hc
  · exact set_u3_r8_plow h hc
  · exact set_u3_r8_plow h hc
  · exact set_u3_r8_plow h hc
  · exact set_u3_r8_plow h hc
  · exact set_u3_r8_plow h hc
  · exact set_u3_r8_plow h hc
  · exact set_u3_r8_plow h hc
  · exact set_u3_mhl_low h hc
  · exact set_u3_r8_plow h hc
  · exact set_u3_r8_plow h hc
  · exact set_u3_r8_plow h hc
  · exact set_u3_r8_plow h hc
  · exact set_u3_r8_plow h hc
  · exact set_u3_r8_plow h hc
  · exact set_u3_r8_plow h hc
  · exact set_u3_mhl_low h hc
  · exact set_u3_r8_plow h hc
  · exact set_u3_r8_plow h hc
  · exact set_u3_r8_plow h hc
  · exact set_u3_r8_plow h hc
  · exact set_u3_r8_plow h hc
  · exact set_u3_r8_plow h hc
  · exact set_u3_r8_plow h hc
  · exact set_u3_mhl_low h hc
  · exact set_u3_r8_plow h hc
  · exact set_u3_r8_plow h hc
  · exact set_u3_r8_plow h hc
  · exact set_u3_r8_plow h hc
  · exact set_u3_r8_plow h hc
  · exact set_u3_r8_plow h hc
  · exact set_u3_r8_plow h hc
  · exact set_u3_mhl_low h hc
  · exact set_u3_r8_plow h hc
  · exact set_u3_r8_plow h hc
  · exact set_u3_r8_plow h hc
  · exact set_u3_r8_plow h hc
  · exact set_u3_r8_plow h hc
  · exact set_u3_r8_plow h hc
  · exact set_u3_r8_plow h hc
  · exact set_u3_mhl_low h hc
  · exact set_u3_r8_plow h hc
  · exact set_u3_r8_plow h hc
  · exact set_u3_r8_plow h hc
  · exact set_u3_r8_plow h hc
  · exact set_u3_r8_plow h hc
  · exact set_u3_r8_plow h hc
  · exact set_u3_r8_plow h hc
  · exact set_u3_mhl_low h hc
  · exact set_u3_r8_plow h hc
  · exact set_u3_r8_plow h hc
  · exact set_u3_r8_plow h hc
  · exact set_u3_r8_plow h hc
  · exact set_u3_r8_plow h hc
  · exact set_u3_r8_plow h hc
  · exact set_u3_r8_plow h hc
  · exact set_u3_mhl_low h hc
  · exact set_u3_r8_plow h hc

theorem map_cb_and_execute_low {c : CPU} {m : MMU} {o : CPU × MMU × Nat}
    (h : CPU.map_cb_and_execute c m = some o) (hc : c.reg_f &&& 15 = 0) :
    o.1.reg_f &&& 15 = 0 := by
  unfold CPU.map_cb_and_execute at h
  repeat' (first | split at h | dsimp only at h)
  all_goals
    first
      | exact Option.noConfusion h
      | exact map_cb_low h (by simpa using hc)

set_option maxHeartbeats 1000000 in
theorem map_low {c : CPU} {m : MMU} {opc : Nat} {o : CPU × MMU × Nat}
    (h : CPU.map_and_execute c m opc = some o) (hc : c.reg_f &&& 15 = 0) :
    o.1.reg_f &&& 15 = 0 := by
  unfold CPU.map_and_execute at h
  split at h <;> split at h
  · exact nop_plow h hc
  · exact ld_r16_n16_low h hc
  · exact ld_mr16_a_low h hc
  · exact inc_r16_plow h hc
  · exact inc_r8_plow h hc
  · exact dec_r8_plow h hc
  · exact ld_r8_n8_low h hc
  · exact rlca_plow h hc
  · exact ld_mn16_sp_low h hc
  · exact add_hl_r16_plow h hc
  · exact ld_a_mr16_low h hc
  · exact dec_r16_plow h hc
  · exact inc_r8_plow h hc
  · exact dec_r8_plow h hc
  · exact ld_r8_n8_low h hc
  · exact rrca_plow h hc
  · exact op_stop_plow h hc
  · exact ld_r16_n16_low h hc
  · exact ld_mr16_a_low h hc
  · exact inc_r16_plow h hc
  · exact inc_r8_plow h hc
  · exact dec_r8_plow h hc
  · exact ld_r8_n8_low h hc
  · exact rla_plow h hc
  · exact jr_n16_low h hc
  · exact add_hl_r16_plow h hc
  · exact ld_a_mr16_low h hc
  · exact dec_r16_plow h hc
  · exact inc_r8_plow h hc
  · exact dec_r8_plow h hc
  · exact ld_r8_n8_low h hc
  · exact rra_plow h hc
  · exact jr_cc_n16_low h hc
  · exact ld_r16_n16_low h hc
  · exact ld_hli_a_low h hc
  · exact inc_r16_plow h hc
  · exact inc_r8_plow h hc
  · exact dec_r8_plow h hc
  · exact ld_r8_n8_low h hc
  · exact daa_plow h hc
  · exact jr_cc_n16_low h hc
  · exact add_hl_r16_plow h hc
  · exact ld_a_hli_low h hc
  · exact dec_r16_plow h hc
  · exact inc_r8_plow h hc
  · exact dec_r8_plow h hc
  · exact ld_r8_n8_low h hc
  · exact cpl_plow h hc
  · exact jr_cc_n16_low h hc
  · exact ld_sp_n16_low h hc
  · exact ld_hld_a_low h hc
  · exact inc_sp_plow h hc
  · exact inc_mhl_low h hc
  · exact dec_mhl_low h hc
  · exact ld_mhl_n8_low h hc
  · exact scf_plow h hc
  · exact jr_cc_n16_low h hc
  · exact add_hl_sp_plow h hc
  · exact ld_a_hld_low h hc
  · exact dec_sp_plow h hc
  · exact inc_r8_plow h hc
  · exact dec_r8_plow h hc
  · exact ld_r8_n8_low h hc
  · exact ccf_plow h hc
  · exact ld_r8_r8_plow h hc
  · exact ld_r8_r8_plow h hc
  · exact ld_r8_r8_plow h hc
  · exact ld_r8_r8_plow h hc
  · exact ld_r8_r8_plow h hc
  · exact ld_r8_r8_plow h hc
  · exact ld_r8_mhl_low h hc
  · exact ld_r8_r8_plow h hc
  · exact ld_r8_r8_plow h hc
  · exact ld_r8_r8_plow h hc
  · exact ld_r8_r8_plow h hc
  · exact ld_r8_r8_plow h hc
  · exact ld_r8_r8_plow h hc
  · exact ld_r8_r8_plow h hc
  · exact ld_r8_mhl_low h hc
  · exact ld_r8_r8_plow h hc
  · exact ld_r8_r8_plow h hc
  · exact ld_r8_r8_plow h hc
  · exact ld_r8_r8_plow h hc
  · exact ld_r8_r8_plow h hc
  · exact ld_r8_r8_plow h hc
  · exact ld_r8_r8_plow h hc
  · exact ld_r8_mhl_low h hc
  · exact ld_r8_r8_plow h hc
  · exact ld_r8_r8_plow h hc
  · exact ld_r8_r8_plow h hc
  · exact ld_r8_r8_plow h hc
  · exact ld_r8_r8_plow h hc
  · exact ld_r8_r8_plow h hc
  · exact ld_r8_r8_plow h hc
  · exact ld_r8_mhl_low h hc
  · exact ld_r8_r8_plow h hc
  · exact ld_r8_r8_plow h hc
  · exact ld_r8_r8_plow h hc
  · exact ld_r8_r8_plow h hc
  · exact ld_r8_r8_plow h hc
  · exact ld_r8_r8_plow h hc
  · exact ld_r8_r8_plow h hc
  · exact ld_r8_mhl_low h hc
  · exact ld_r8_r8_plow h hc
  · exact ld_r8_r8_plow h hc
  · exact ld_r8_r8_plow h hc
  · exact ld_r8_r8_plow h hc
  · exact ld_r8_r8_plow h hc
  · exact ld_r8_r8_plow h hc
  · exact ld_r8_r8_plow h hc
  · exact ld_r8_mhl_low h hc
  · exact ld_r8_r8_plow h hc
  · exact ld_mhl_r8_low h hc
  · exact ld_mhl_r8_low h hc
  · exact ld_mhl_r8_low h hc
  · exact ld_mhl_r8_low h hc
  · exact ld_mhl_r8_low h hc
  · exact ld_mhl_r8_low h hc
  · exact op_halt_plow h hc
  · exact ld_mhl_r8_low h hc
  · exact ld_r8_r8_plow h hc
  · exact ld_r8_r8_plow h hc
  · exact ld_r8_r8_plow h hc
  · exact ld_r8_r8_plow h hc
  · exact ld_r8_r8_plow h hc
  · exact ld_r8_r8_plow h hc
  · exact ld_r8_mhl_low h hc
  · exact ld_r8_r8_plow h hc
  · exact add_a_r8_plow h hc
  · exact add_a_r8_plow h hc
  · exact add_a_r8_plow h hc
  · exact add_a_r8_plow h hc
  · exact add_a_r8_plow h hc
  · exact add_a_r8_plow h hc
  · exact add_a_mhl_low h hc
  · exact add_a_r8_plow h hc
  · exact adc_a_r8_plow h hc
  · exact adc_a_r8_plow h hc
  · exact adc_a_r8_plow h hc
  · exact adc_a_r8_plow h hc
  · exact adc_a_r8_plow h hc
  · exact adc_a_r8_plow h hc
  · exact adc_a_mhl_low h hc
  · exact adc_a_r8_plow h hc
  · exact sub_a_r8_plow h hc
  · exact sub_a_r8_plow h hc
  · exact sub_a_r8_plow h hc
  · exact sub_a_r8_plow h hc
  · exact sub_a_r8_plow h hc
  · exact sub_a_r8_plow h hc
  · exact sub_a_mhl_low h hc
  · exact sub_a_r8_plow h hc
  · exact sbc_a_r8_plow h hc
  · exact sbc_a_r8_plow h hc
  · exact sbc_a_r8_plow h hc
  · exact sbc_a_r8_plow h hc
  · exact sbc_a_r8_plow h hc
  · exact sbc_a_r8_plow h hc
  · exact sbc_a_mhl_low h hc
  · exact sbc_a_r8_plow h hc
  · exact and_a_r8_plow h hc
  · exact and_a_r8_plow h hc
  · exact and_a_r8_plow h hc
  · exact and_a_r8_plow h hc
  · exact and_a_r8_plow h hc
  · exact and_a_r8_plow h hc
  · exact and_a_mhl_low h hc
  · exact and_a_r8_plow h hc
  · exact xor_a_r8_plow h hc
  · exact xor_a_r8_plow h hc
  · exact xor_a_r8_plow h hc
  · exact xor_a_r8_plow h hc
  · exact xor_a_r8_plow h hc
  · exact xor_a_r8_plow h hc
  · exact xor_a_mhl_low h hc
  · exact xor_a_r8_plow h hc
  · exact or_a_r8_plow h hc
  · exact or_a_r8_plow h hc
  · exact or_a_r8_plow h hc
  · exact or_a_r8_plow h hc
  · exact or_a_r8_plow h hc
  · exact or_a_r8_plow h hc
  · exact or_a_mhl_low h hc
  · exact or_a_r8_plow h hc
  · exact cp_a_r8_plow h hc
  · exact cp_a_r8_plow h hc
  · exact cp_a_r8_plow h hc
  · exact cp_a_r8_plow h hc
  · exact cp_a_r8_plow h hc
  · exact cp_a_r8_plow h hc
  · exact cp_a_mhl_low h hc
  · exact cp_a_r8_plow h hc
  · exact ret_cc_low h hc
  · exact pop_r16_low h hc
  · exact jp_cc_n16_low h hc
  · exact jp_n16_low h hc
  · exact call_cc_n16_low h hc
  · exact push_r16_low h hc
  · exact add_a_n8_low h hc
  · exact rst_low h hc
  · exact ret_cc_low h hc
  · exact ret_low h hc
  · exact jp_cc_n16_low h hc
  · exact map_cb_and_execute_low h hc
  · exact call_cc_n16_low h hc
  · exact call_n16_low h hc
  · exact adc_a_n8_low h hc
  · exact rst_low h hc
  · exact ret_cc_low h hc
  · exact pop_r16_low h hc
  · exact jp_cc_n16_low h hc
  · exact xx_plow h hc
  · exact call_cc_n16_low h hc
  · exact push_r16_low h hc
  · exact sub_a_n8_low h hc
  · exact rst_low h hc
  · exact ret_cc_low h hc
  · exact reti_low h hc
  · exact jp_cc_n16_low h hc
  · exact xx_plow h hc
  · exact call_cc_n16_low h hc
  · exact xx_plow h hc
  · exact sbc_a_n8_low h hc
  · exact rst_low h hc
  · exact ldh_mn16_a_low h hc
  · exact pop_r16_low h hc
  · exact ldh_mc_a_low h hc
  · exact xx_plow h hc
  · exact xx_plow h hc
  · exact push_r16_low h hc
  · exact and_a_n8_low h hc
  · exact rst_low h hc
  · exact add_sp_e8_low h hc
  · exact jp_mhl_plow h hc
  · exact ld_mn16_a_low h hc
  · exact xx_plow h hc
  · exact xx_plow h hc
  · exact xx_plow h hc
  · exact xor_a_n8_low h hc
  · exact rst_low h hc
  · exact ldh_a_mn16_low h hc
  · exact pop_af_low h hc
  · exact ldh_a_mc_low h hc
  · exact di_plow h hc
  · exact xx_plow h hc
  · exact push_af_low h hc
  · exact or_a_n8_low h hc
  · exact rst_low h hc
  · exact ld_hl_spe8_low h hc
  · exact ld_sp_hl_plow h hc
  · exact ld_a_mn16_low h hc
  · exact ei_plow h hc
  · exact xx_plow h hc
  · exact xx_plow h hc
  · exact cp_a_n8_low h hc
  · exact rst_low h hc

theorem exec_finish_low {c : CPU} {m : MMU} {cy ct : Nat} {o : (Nat × Nat) × CPU × MMU}
    (h : CPU.exec_finish c m cy ct = some o) (hc : c.reg_f &&& 15 = 0) :
    o.2.1.reg_f &&& 15 = 0 := by
  unfold CPU.exec_finish at h
  rw [Option.some.injEq] at h
  subst h
  simpa using hc

theorem int_dispatch_low {c : CPU} {m : MMU} {i_e i_f : Nat} {o : CPU × MMU}
    (h : CPU.int_dispatch c m i_e i_f = some o) (hc : c.reg_f &&& 15 = 0) :
    o.1.reg_f &&& 15 = 0 := by
  unfold CPU.int_dispatch at h
  repeat' (first | split at h | dsimp only at h)
  all_goals
    first
      | exact Option.noConfusion h
      | (rw [Option.some.injEq] at h
         subst h
         first
           | exact hc
           | exact rst_low (by assumption) (by simpa using hc))

/-- C9: executing any single instruction through `CPU::exec` (any
primary or CB-prefixed opcode, with or without an interrupt dispatch)
keeps the lower nibble of F zero: if `F & 0x0F = 0` before the step and
the step completes, then `F & 0x0F = 0` afterwards. -/
theorem exec_preserves_f_low_nibble :
    ∀ (c : CPU) (m : MMU) (o : (Nat × Nat) × CPU × MMU),
      c.reg_f &&& 0xF = 0 → CPU.exec c m = some o → o.2.1.reg_f &&& 0xF = 0 := by
  intro c m o hc h
  unfold CPU.exec at h
  repeat' (first | split at h | dsimp only at h)
  all_goals
    first
      | exact Option.noConfusion h
      | exact exec_finish_low h (map_low (by assumption) (by simpa using hc))
      | (rename_i x0 c0 m0 hint
         exact exec_finish_low h
           (int_dispatch_low hint (map_low (by assumption) (by simpa using hc))))

/-- C9 witness: the invariant theorem applied at the concrete NOP
state. -/
theorem exec_preserves_f_low_nibble_witness :
    cpuW.reg_f &&& 0xF = 0 ∧
    (CPU.exec cpuW mmuZ).map (fun o => o.2.1.reg_f &&& 0xF) = some 0 := by
  refine ⟨by decide, ?_⟩
  have h : CPU.exec cpuW mmuZ = some ((1, 4),
      { cpuW with reg_pc := 0xC001, clock_m := 1, clock_t := 5 }, mmuZ) := rfl
  rw [h]
  rw [Option.map_some']
  rw [exec_preserves_f_low_nibble cpuW mmuZ _ (by decide) h]

/-- C7: whenever `CPU::exec` completes, the returned cycle pair
satisfies `t_cycles = 4 * m_cycles`; `cycles_t` is computed as
`cycles * 4` and the interrupt path adds the pair (5, 20). -/
theorem exec_t_cycles_eq_4_times_m_cycles :
    ∀ (c : CPU) (m : MMU),
      Option.all (fun o => o.1.2 == 4 * o.1.1) (CPU.exec c m) = true := by
  intro c m
  unfold CPU.exec
  repeat' (first | split | dsimp only)
  all_goals simp [CPU.exec_finish, Option.all, Nat.mul_comm]
  all_goals omega

/-- C8, counter-evidence: the AND, OR, XOR and CP handlers with (HL) or
n8 operands report 1 m-cycle, not 2. -/
theorem alu_mhl_n8_cycle_counterexample :
    Option.map (fun o => o.2.2) (CPU.and_a_mhl cpu8 mmuZ) = some 1 ∧
    Option.map (fun o => o.2.2) (CPU.and_a_n8 cpu8 mmuZ) = some 1 ∧
    Option.map (fun o => o.2.2) (CPU.or_a_mhl cpu8 mmuZ) = some 1 ∧
    Option.map (fun o => o.2.2) (CPU.or_a_n8 cpu8 mmuZ) = some 1 ∧
    Option.map (fun o => o.2.2) (CPU.xor_a_mhl cpu8 mmuZ) = some 1 ∧
    Option.map (fun o => o.2.2) (CPU.xor_a_n8 cpu8 mmuZ) = some 1 ∧
    Option.map (fun o => o.2.2) (CPU.cp_a_mhl cpu8 mmuZ) = some 1 ∧
    Option.map (fun o => o.2.2) (CPU.cp_a_n8 cpu8 mmuZ) = some 1 ∧
    (1 : Nat) ≠ 2 := by
  refine ⟨rfl, rfl, rfl, rfl, rfl, rfl, rfl, rfl, by decide⟩

/-- C8, amended: among the 8-bit ALU operations with (HL) or n8
operands, ADD, ADC, SUB and SBC report 2 m-cycles as specified, while
AND, OR, XOR and CP report only 1 m-cycle. -/
theorem alu_mhl_n8_cycles :
    ∀ (c : CPU) (m : MMU),
      Option.all (fun o => o.2.2 == 2) (CPU.add_a_mhl c m) = true ∧
      Option.all (fun o => o.2.2 == 2) (CPU.add_a_n8 c m) = true ∧
      Option.all (fun o => o.2.2 == 2) (CPU.adc_a_mhl c m) = true ∧
      Option.all (fun o => o.2.2 == 2) (CPU.adc_a_n8 c m) = true ∧
      Option.all (fun o => o.2.2 == 2) (CPU.sub_a_mhl c m) = true ∧
      Option.all (fun o => o.2.2 == 2) (CPU.sub_a_n8 c m) = true ∧
      Option.all (fun o => o.2.2 == 2) (CPU.sbc_a_mhl c m) = true ∧
      Option.all (fun o => o.2.2 == 2) (CPU.sbc_a_n8 c m) = true ∧
      Option.all (fun o => o.2.2 == 1) (CPU.and_a_mhl c m) = true ∧
      Option.all (fun o => o.2.2 == 1) (CPU.and_a_n8 c m) = true ∧
      Option.all (fun o => o.2.2 == 1) (CPU.or_a_mhl c m) = true ∧
      Option.all (fun o => o.2.2 == 1) (CPU.or_a_n8 c m) = true ∧
      Option.all (fun o => o.2.2 == 1) (CPU.xor_a_mhl c m) = true ∧
      Option.all (fun o => o.2.2 == 1) (CPU.xor_a_n8 c m) = true ∧
      Option.all (fun o => o.2.2 == 1) (CPU.cp_a_mhl c m) = true ∧
      Option.all (fun o => o.2.2 == 1) (CPU.cp_a_n8 c m) = true := by
  intro c m
  refine ⟨?_, ?_, ?_, ?_, ?_, ?_, ?_, ?_, ?_, ?_, ?_, ?_, ?_, ?_, ?_, ?_⟩ <;>
    (simp only [CPU.add_a_mhl, CPU.add_a_n8, CPU.adc_a_mhl, CPU.adc_a_n8,
      CPU.sub_a_mhl, CPU.sub_a_n8, CPU.sbc_a_mhl, CPU.sbc_a_n8,
      CPU.and_a_mhl, CPU.and_a_n8, CPU.or_a_mhl, CPU.or_a_n8,
      CPU.xor_a_mhl, CPU.xor_a_n8, CPU.cp_a_mhl, CPU.cp_a_n8]
     repeat' (first | split | dsimp only)
     all_goals rfl)
